import Mathlib

/-!
# Timestamp readers of `librealsense2/src/ds5.h`

A shallow embedding of the four `frame_timestamp_reader` variants declared in
`ds5.h`, together with the packed metadata layout they decode.

Conventions of the embedding

* A buffer is a list of octets; a pointer is `Option (List byte)`, `none` being
  the null pointer.  A read through a null pointer or past the end of the list
  is the result `fault.bad_read`.
* `uint32_t` arithmetic is done modulo `2 ^ 32`, `int64_t` modulo `2 ^ 64` around
  zero, and a conversion to `unsigned long long` is reduction modulo `2 ^ 64`.
  A `size_t` is wider than 32 bits and is a natural number here.
* A value of `rs2_time_t` (a `double`, IEEE 754 binary64) is given by the rational
  number it denotes.  Every operation of the source on doubles rounds its exact
  result to the nearest number with a 53-bit significand, ties to the even
  significand (`round_to_double`, the default rounding mode): the literal
  `0.001`, the conversion of an unsigned integer (`to_double`) and the product
  (`double_mul`).  The exponent range of a double is not modelled: every value
  computed here is zero or lies between `0.001` and `2 ^ 64`.
* A member function is a function from the object before the call to a
  `call_result`: the value returned (or a fault), the warnings logged, and the
  object after the call.
-/

namespace rsimpl2

/-- One octet (`byte`, `uint8_t`). -/
abbrev byte := Fin 256

/-- The ways a call can end without returning a value. -/
inductive fault where
  /-- A read through a null pointer or outside the buffer pointed to. -/
  | bad_read
  /-- The call runs forever. -/
  | no_return
deriving DecidableEq, Repr

/-- Equality of call outcomes is decidable. -/
instance instDecidableEqExcept {ε α : Type} [DecidableEq ε] [DecidableEq α] :
    DecidableEq (Except ε α)
  | .ok a, .ok b => if h : a = b then isTrue (by rw [h]) else isFalse (fun e => h (by cases e; rfl))
  | .error a, .error b =>
    if h : a = b then isTrue (by rw [h]) else isFalse (fun e => h (by cases e; rfl))
  | .ok _, .error _ => isFalse (fun e => by cases e)
  | .error _, .ok _ => isFalse (fun e => by cases e)

/-- The type `rs2_time_t`, a `double` in the source: a double is given by the
rational number it denotes. -/
abbrev rs2_time_t := ℚ

/-- The integer nearest to `x`; of the two nearest integers of a tie, the even one. -/
def round_half_even (x : ℚ) : ℤ :=
  if x - ⌊x⌋ < 1 / 2 then ⌊x⌋
  else if 1 / 2 < x - ⌊x⌋ then ⌊x⌋ + 1
  else if ⌊x⌋ % 2 = 0 then ⌊x⌋ else ⌊x⌋ + 1

/-- The double nearest to the exact value `x` (round to nearest, ties to even): with
`l` the exponent of `x`, that is `2 ^ l ≤ |x| < 2 ^ (l + 1)`, the value `x` is rounded
to a multiple of `2 ^ (l - 52)`, which leaves a significand of 53 bits. -/
def round_to_double (x : ℚ) : rs2_time_t :=
  if x = 0 then 0
  else (round_half_even (x / 2 ^ (Int.log 2 |x| - 52)) : ℚ) * 2 ^ (Int.log 2 |x| - 52)

/-- The conversion of an unsigned integer to `double`: `(double)(n)` of line 103 and
`static_cast<rs2_time_t>(n)` of lines 230 and 299. -/
def to_double (n : Nat) : rs2_time_t := round_to_double n

/-- The product `x * y` of two doubles. -/
def double_mul (x y : rs2_time_t) : rs2_time_t := round_to_double (x * y)

/-- The constant `const double TIMESTAMP_TO_MILLISECONS = 0.001;` (ds5.h line 11):
the double nearest to one thousandth, the value every mainstream compiler gives the
literal.  It is `4611686018427388 / 2 ^ 62`, a little more than `1 / 1000`. -/
def TIMESTAMP_TO_MILLISECONS : rs2_time_t := round_to_double (1 / 1000)

/-- The two values of `rs2_timestamp_domain` used in ds5.h. -/
inductive rs2_timestamp_domain where
  | RS2_TIMESTAMP_DOMAIN_HARDWARE_CLOCK
  | RS2_TIMESTAMP_DOMAIN_SYSTEM_TIME
deriving DecidableEq, Repr

/-- Modelled from the spec: the stream routing descriptor `request_mapping`, whose
declaration is outside ds5.h.  The readers consult only `mode.pf->fourcc`, the
32-bit format tag. -/
structure request_mapping where
  fourcc : Nat
deriving DecidableEq, Repr

/-- Modelled from the spec: `uvc::frame_object`, whose declaration is outside ds5.h:
the pixel buffer, the optional metadata buffer and the metadata length.  The two
buffers are the memory the pointers `pixels` and `metadata` point to (`none` for a
null pointer); `metadata_size` is the separate length field. -/
structure frame_object where
  pixels : Option (List byte)
  metadata : Option (List byte)
  metadata_size : Nat
deriving DecidableEq, Repr

/-- The result of one call of a member function: the value it returns (or the
fault that ends it), the warnings it logs through `LOG_WARNING`, and the object
after the call.  When the value is a fault, `self` is the object at the point of
the fault. -/
structure call_result (σ α : Type) where
  value : Except fault α
  log : List String
  self : σ

/-- Modelled from the spec: the abstract class `frame_timestamp_reader`, whose
declaration is outside ds5.h: the capability contract `get_timestamp`,
`get_frame_counter`, `get_timestamp_domain`, `reset` that every reader variant
implements, here over the type `σ` of the implementing object.  The argument
`now` of `get_frame_timestamp` is the reading of the host clock at the time of
the call (`_ts->get_time()`, `std::chrono::system_clock::now()`). -/
structure frame_timestamp_reader (σ : Type) where
  get_frame_timestamp : σ → rs2_time_t → request_mapping → frame_object →
    call_result σ rs2_time_t
  get_frame_counter : σ → request_mapping → frame_object → call_result σ Nat
  get_frame_timestamp_domain : σ → request_mapping → frame_object →
    call_result σ rs2_timestamp_domain
  reset : σ → σ

/-- The format tag of Z16, the literal `0x5a313620` of lines 92, 120, 148 and 188. -/
def Z16 : Nat := 0x5a313620

/-- The multi-character literal `'GYRO'` of line 255: the four character codes
`G Y R O` as one big-endian integer, the value every mainstream compiler gives. -/
def GYRO : Nat := 0x4759524f

/-- Reads the little-endian unsigned integer of `n` octets at offset `off` of the
buffer `p` points to (a `*(uintN_t*)(p + off)` on a little-endian machine). -/
def read_le (p : Option (List byte)) (off : Nat) : Nat → Except fault Nat
  | 0 => match p with
    | none => .error .bad_read
    | some _ => .ok 0
  | n + 1 => match p with
    | none => .error .bad_read
    | some buf => match buf[off]? with
      | none => .error .bad_read
      | some b => match read_le p (off + 1) n with
        | .error f => .error f
        | .ok v => .ok (b.val + 256 * v)

/-- The value of a 32-bit pattern read as `int` (two's complement). -/
def as_int32 (u : Nat) : Int := if u < 2 ^ 31 then (u : Int) else (u : Int) - 2 ^ 32

/-- The value an `int64_t` holds after the mathematical value `z` is stored in it
(two's complement wrap-around). -/
def wrap_int64 (z : Int) : Int := (z + 2 ^ 63) % 2 ^ 64 - 2 ^ 63

/-- Conversion of a signed value to `unsigned long long`: reduction modulo `2 ^ 64`. -/
def to_unsigned_long_long (z : Int) : Nat := (z % 2 ^ 64).toNat

/-- Offset of `timestamp` in the packed `uvc_header` (lines 18-24): after `length`
and `info`. -/
def uvc_header.timestamp_offset : Nat := 1 + 1

/-- Size of the packed `uvc_header`: `length`, `info`, `timestamp`, `source_clock[6]`. -/
def uvc_header.sizeof : Nat := 1 + 1 + 4 + 6

/-- Size of the packed `metadata_header` (lines 26-30): `metaDataID`, `size`. -/
def metadata_header.sizeof : Nat := 4 + 4

/-- Offset of `frameCounter` in the packed `metadata_capture_timing` (lines 33-44):
after `metaDataIdHeader`, `version` and `flag`. -/
def metadata_capture_timing.frameCounter_offset : Nat := metadata_header.sizeof + 4 + 4

/-- The expression `md->header.timestamp` (line 103) for `md = (metadata*)p`. -/
def metadata.header_timestamp (p : Option (List byte)) : Except fault Nat :=
  read_le p uvc_header.timestamp_offset 4

/-- The expression `md->md_capture_timing.frameCounter` (line 126) for
`md = (metadata*)p`; `md_capture_timing` follows `header` in `struct metadata`. -/
def metadata.frameCounter (p : Option (List byte)) : Except fault Int :=
  match read_le p (uvc_header.sizeof + metadata_capture_timing.frameCounter_offset) 4 with
  | .error f => .error f
  | .ok u => .ok (as_int32 u)

/-- The loop `for (auto i = 0; i < n; ++i) v[i] = x;` of the `reset` functions. -/
def fill_first {α : Type} (n : Nat) (x : α) (v : List α) : List α :=
  (List.range n).foldl (fun w i => w.set i x) v

/-! ## `ds5_timestamp_reader_from_metadata` (lines 54-154) -/

/-- The data members of `ds5_timestamp_reader_from_metadata` (lines 56-59), over
the type `σ` of the object `_backup_timestamp_reader` owns. -/
structure ds5_timestamp_reader_from_metadata (σ : Type) where
  _backup_timestamp_reader : σ
  _has_metadata : List Bool
  started : Bool

namespace ds5_timestamp_reader_from_metadata

/-- The constant `static const int pins = 2;` (line 57). -/
def pins : Nat := 2

/-- The local `pin_index` of lines 91-93, 119-121 and 147-149. -/
def pin_index (mode : request_mapping) : Nat := if mode.fourcc = Z16 then 1 else 0

/-- The loop `for(uint32_t i=0; i<metadata_size; i++)` of
`ds5_timestamp_reader_from_metadata::has_metadata` (lines 78-85), started at index
`i` with `fuel` iterations left.  The index is a `uint32_t`, so `i++` wraps at
`2 ^ 32`; `metadata_size` is a `size_t` and is compared as it is. -/
def has_metadata_loop (metadata : List byte) (metadata_size : Nat) :
    Nat → Nat → Except fault Bool
  | 0, _ => .error .no_return
  | fuel + 1, i =>
    if i < metadata_size then
      match metadata[i]? with
      | none => .error .bad_read
      | some b =>
        if b ≠ 0 then .ok true
        else has_metadata_loop metadata metadata_size fuel ((i + 1) % 2 ^ 32)
    else .ok false

/-- The probe `ds5_timestamp_reader_from_metadata::has_metadata` (lines 69-86).
The loop has the single variable `i < 2 ^ 32`, so a run that has not left the
loop after `2 ^ 32` tests of the condition is back at `i = 0` and never leaves
it. -/
def has_metadata (_mode : request_mapping)
    (metadata : Option (List byte)) (metadata_size : Nat) : Except fault Bool :=
  match metadata with
  | none => .ok false
  | some buf =>
    if metadata_size = 0 then .ok false
    else has_metadata_loop buf metadata_size (2 ^ 32) 0


/-- The member `reset` (lines 134-142). -/
def reset {σ : Type} (self : ds5_timestamp_reader_from_metadata σ) :
    ds5_timestamp_reader_from_metadata σ :=
  { self with started := false, _has_metadata := fill_first pins false self._has_metadata }

/-- The constructor (lines 63-67): `_has_metadata(pins)` and a call of `reset`. -/
def construct {σ : Type} (backup_timestamp_reader : σ) : ds5_timestamp_reader_from_metadata σ :=
  reset { _backup_timestamp_reader := backup_timestamp_reader,
          _has_metadata := List.replicate pins false,
          started := false }

/-- The statement of lines 95-98: probe the frame when the pin's flag is not set,
and store the answer in the flag. -/
def latch {σ : Type} (self : ds5_timestamp_reader_from_metadata σ) (mode : request_mapping)
    (fo : frame_object) : Except fault (ds5_timestamp_reader_from_metadata σ) :=
  if !self._has_metadata.getD (pin_index mode) false then
    match has_metadata mode fo.metadata fo.metadata_size with
    | .error f => .error f
    | .ok b => .ok { self with _has_metadata := self._has_metadata.set (pin_index mode) b }
  else .ok self

/-- The member `get_frame_timestamp` (lines 88-114). -/
def get_frame_timestamp {σ : Type} (backup : frame_timestamp_reader σ)
    (self : ds5_timestamp_reader_from_metadata σ) (now : rs2_time_t) (mode : request_mapping)
    (fo : frame_object) : call_result (ds5_timestamp_reader_from_metadata σ) rs2_time_t :=
  match latch self mode fo with
  | .error f => { value := .error f, log := [], self := self }
  | .ok self1 =>
    if self1._has_metadata.getD (pin_index mode) false then
      match metadata.header_timestamp fo.metadata with
      | .error f => { value := .error f, log := [], self := self1 }
      | .ok t => { value := .ok (double_mul (to_double t) TIMESTAMP_TO_MILLISECONS), log := [],
                   self := self1 }
    else
      let warning := if !self1.started then
        ["UVC timestamp not found! please apply UVC metadata patch."] else []
      let self2 := if !self1.started then { self1 with started := true } else self1
      let r := backup.get_frame_timestamp self2._backup_timestamp_reader now mode fo
      { value := r.value, log := warning ++ r.log,
        self := { self2 with _backup_timestamp_reader := r.self } }

/-- The member `get_frame_counter` (lines 116-132). -/
def get_frame_counter {σ : Type} (backup : frame_timestamp_reader σ)
    (self : ds5_timestamp_reader_from_metadata σ) (mode : request_mapping)
    (fo : frame_object) : call_result (ds5_timestamp_reader_from_metadata σ) Nat :=
  if self._has_metadata.getD (pin_index mode) false then
    match metadata.frameCounter fo.metadata with
    | .error f => { value := .error f, log := [], self := self }
    | .ok c => { value := .ok (to_unsigned_long_long c), log := [], self := self }
  else
    let r := backup.get_frame_counter self._backup_timestamp_reader mode fo
    { value := r.value, log := r.log, self := { self with _backup_timestamp_reader := r.self } }

/-- The member `get_frame_timestamp_domain` (lines 144-153). -/
def get_frame_timestamp_domain {σ : Type} (backup : frame_timestamp_reader σ)
    (self : ds5_timestamp_reader_from_metadata σ) (mode : request_mapping)
    (fo : frame_object) :
    call_result (ds5_timestamp_reader_from_metadata σ) rs2_timestamp_domain :=
  if self._has_metadata.getD (pin_index mode) false then
    { value := .ok .RS2_TIMESTAMP_DOMAIN_HARDWARE_CLOCK, log := [], self := self }
  else
    let r := backup.get_frame_timestamp_domain self._backup_timestamp_reader mode fo
    { value := r.value, log := r.log, self := { self with _backup_timestamp_reader := r.self } }

/-- The four overrides as an implementation of `frame_timestamp_reader`. -/
def interface {σ : Type} (backup : frame_timestamp_reader σ) :
    frame_timestamp_reader (ds5_timestamp_reader_from_metadata σ) where
  get_frame_timestamp := get_frame_timestamp backup
  get_frame_counter := get_frame_counter backup
  get_frame_timestamp_domain := get_frame_timestamp_domain backup
  reset := reset

end ds5_timestamp_reader_from_metadata

/-! ## `ds5_timestamp_reader` (lines 156-198) -/

/-- The data member `counter` of `ds5_timestamp_reader` (line 159), a vector of
`int64_t`.  The time service `_ts` is read through the argument `now` of
`get_frame_timestamp`. -/
structure ds5_timestamp_reader where
  counter : List Int
deriving DecidableEq, Repr

namespace ds5_timestamp_reader

/-- The constant `static const int pins = 2;` (line 158). -/
def pins : Nat := 2

/-- The member `reset` (lines 169-176). -/
def reset (self : ds5_timestamp_reader) : ds5_timestamp_reader :=
  { self with counter := fill_first pins 0 self.counter }

/-- The constructor (lines 163-167): `counter(pins)` and a call of `reset`. -/
def construct : ds5_timestamp_reader :=
  reset { counter := List.replicate pins 0 }

/-- The member `get_frame_timestamp` (lines 178-182): `_ts->get_time()`. -/
def get_frame_timestamp (self : ds5_timestamp_reader) (now : rs2_time_t)
    (_mode : request_mapping) (_fo : frame_object) :
    call_result ds5_timestamp_reader rs2_time_t :=
  { value := .ok now, log := [], self := self }

/-- The local `pin_index` of lines 187-189. -/
def pin_index (mode : request_mapping) : Nat := if mode.fourcc = Z16 then 1 else 0

/-- The member `get_frame_counter` (lines 184-192): `return ++counter[pin_index];`. -/
def get_frame_counter (self : ds5_timestamp_reader) (mode : request_mapping)
    (_fo : frame_object) : call_result ds5_timestamp_reader Nat :=
  let c := wrap_int64 (self.counter.getD (pin_index mode) 0 + 1)
  { value := .ok (to_unsigned_long_long c), log := [],
    self := { self with counter := self.counter.set (pin_index mode) c } }

/-- The member `get_frame_timestamp_domain` (lines 194-197). -/
def get_frame_timestamp_domain (self : ds5_timestamp_reader) (_mode : request_mapping)
    (_fo : frame_object) : call_result ds5_timestamp_reader rs2_timestamp_domain :=
  { value := .ok .RS2_TIMESTAMP_DOMAIN_SYSTEM_TIME, log := [], self := self }

/-- The four overrides as an implementation of `frame_timestamp_reader`. -/
def interface : frame_timestamp_reader ds5_timestamp_reader where
  get_frame_timestamp := get_frame_timestamp
  get_frame_counter := get_frame_counter
  get_frame_timestamp_domain := get_frame_timestamp_domain
  reset := reset

end ds5_timestamp_reader

/-! ## `ds5_iio_hid_timestamp_reader` (lines 200-269) -/

/-- The data members of `ds5_iio_hid_timestamp_reader` (lines 203-204). -/
structure ds5_iio_hid_timestamp_reader where
  started : Bool
  counter : List Int
deriving DecidableEq, Repr

namespace ds5_iio_hid_timestamp_reader

/-- The constant `static const int sensors = 2;` (line 202). -/
def sensors : Nat := 2

/-- The member `reset` (lines 213-221). -/
def reset (self : ds5_iio_hid_timestamp_reader) : ds5_iio_hid_timestamp_reader :=
  { self with started := false, counter := fill_first sensors 0 self.counter }

/-- The constructor (lines 207-211): `counter.resize(sensors)` and a call of `reset`. -/
def construct : ds5_iio_hid_timestamp_reader :=
  reset { started := false, counter := List.replicate sensors 0 }

/-- The member `has_metadata` (lines 242-249). -/
def has_metadata (_mode : request_mapping) (metadata : Option (List byte))
    (metadata_size : Nat) : Bool :=
  if metadata ≠ none ∧ metadata_size > 0 then true else false

/-- The member `get_frame_timestamp` (lines 223-240). -/
def get_frame_timestamp (self : ds5_iio_hid_timestamp_reader) (now : rs2_time_t)
    (mode : request_mapping) (fo : frame_object) :
    call_result ds5_iio_hid_timestamp_reader rs2_time_t :=
  if has_metadata mode fo.metadata fo.metadata_size then
    match read_le fo.metadata 0 8 with
    | .error f => { value := .error f, log := [], self := self }
    | .ok timestamp =>
      { value := .ok (double_mul (to_double timestamp) TIMESTAMP_TO_MILLISECONS), log := [],
        self := self }
  else
    let warning := if !self.started then
      ["HID timestamp not found! please apply HID patch."] else []
    let self1 := if !self.started then { self with started := true } else self
    { value := .ok now, log := warning, self := self1 }

/-- The local `index` of lines 254-256. -/
def index (mode : request_mapping) : Nat := if mode.fourcc = GYRO then 1 else 0

/-- The member `get_frame_counter` (lines 251-259): `return ++counter[index];`. -/
def get_frame_counter (self : ds5_iio_hid_timestamp_reader) (mode : request_mapping)
    (_fo : frame_object) : call_result ds5_iio_hid_timestamp_reader Nat :=
  let c := wrap_int64 (self.counter.getD (index mode) 0 + 1)
  { value := .ok (to_unsigned_long_long c), log := [],
    self := { self with counter := self.counter.set (index mode) c } }

/-- The member `get_frame_timestamp_domain` (lines 261-268). -/
def get_frame_timestamp_domain (self : ds5_iio_hid_timestamp_reader) (mode : request_mapping)
    (fo : frame_object) : call_result ds5_iio_hid_timestamp_reader rs2_timestamp_domain :=
  if has_metadata mode fo.metadata fo.metadata_size then
    { value := .ok .RS2_TIMESTAMP_DOMAIN_HARDWARE_CLOCK, log := [], self := self }
  else
    { value := .ok .RS2_TIMESTAMP_DOMAIN_SYSTEM_TIME, log := [], self := self }

/-- The overrides as an implementation of `frame_timestamp_reader`. -/
def interface : frame_timestamp_reader ds5_iio_hid_timestamp_reader where
  get_frame_timestamp := get_frame_timestamp
  get_frame_counter := get_frame_counter
  get_frame_timestamp_domain := get_frame_timestamp_domain
  reset := reset

end ds5_iio_hid_timestamp_reader

/-! ## `ds5_custom_hid_timestamp_reader` (lines 271-319) -/

/-- The data member `counter` of `ds5_custom_hid_timestamp_reader` (line 275). -/
structure ds5_custom_hid_timestamp_reader where
  counter : List Int
deriving DecidableEq, Repr

namespace ds5_custom_hid_timestamp_reader

/-- The constant `static const int sensors = 4;` (line 273). -/
def sensors : Nat := 4

/-- The member `reset` (lines 284-291). -/
def reset (self : ds5_custom_hid_timestamp_reader) : ds5_custom_hid_timestamp_reader :=
  { self with counter := fill_first sensors 0 self.counter }

/-- The constructor (lines 278-282): `counter.resize(sensors)` and a call of `reset`. -/
def construct : ds5_custom_hid_timestamp_reader :=
  reset { counter := List.replicate sensors 0 }

/-- The constant `static const uint8_t timestamp_offset = 17;` (line 296). -/
def timestamp_offset : Nat := 17

/-- The member `get_frame_timestamp` (lines 293-302); the `return` of line 301 is
never reached. -/
def get_frame_timestamp (self : ds5_custom_hid_timestamp_reader) (_now : rs2_time_t)
    (_mode : request_mapping) (fo : frame_object) :
    call_result ds5_custom_hid_timestamp_reader rs2_time_t :=
  match read_le fo.pixels timestamp_offset 8 with
  | .error f => { value := .error f, log := [], self := self }
  | .ok timestamp =>
    { value := .ok (double_mul (to_double timestamp) TIMESTAMP_TO_MILLISECONS), log := [],
      self := self }

/-- The member `has_metadata` (lines 304-307). -/
def has_metadata (_mode : request_mapping) (_metadata : Option (List byte))
    (_metadata_size : Nat) : Bool := true

/-- The member `get_frame_counter` (lines 309-313): `return ++counter.front();`. -/
def get_frame_counter (self : ds5_custom_hid_timestamp_reader) (_mode : request_mapping)
    (_fo : frame_object) : call_result ds5_custom_hid_timestamp_reader Nat :=
  let c := wrap_int64 (self.counter.getD 0 0 + 1)
  { value := .ok (to_unsigned_long_long c), log := [],
    self := { self with counter := self.counter.set 0 c } }

/-- The member `get_frame_timestamp_domain` (lines 315-318). -/
def get_frame_timestamp_domain (self : ds5_custom_hid_timestamp_reader)
    (_mode : request_mapping) (_fo : frame_object) :
    call_result ds5_custom_hid_timestamp_reader rs2_timestamp_domain :=
  { value := .ok .RS2_TIMESTAMP_DOMAIN_HARDWARE_CLOCK, log := [], self := self }

/-- The overrides as an implementation of `frame_timestamp_reader`. -/
def interface : frame_timestamp_reader ds5_custom_hid_timestamp_reader where
  get_frame_timestamp := get_frame_timestamp
  get_frame_counter := get_frame_counter
  get_frame_timestamp_domain := get_frame_timestamp_domain
  reset := reset

end ds5_custom_hid_timestamp_reader

/-! ## Sequences of calls -/

/-- One call of the public contract of a reader, with its arguments. -/
inductive reader_call where
  | get_frame_timestamp (now : rs2_time_t) (mode : request_mapping) (fo : frame_object)
  | get_frame_counter (mode : request_mapping) (fo : frame_object)
  | get_frame_timestamp_domain (mode : request_mapping) (fo : frame_object)
  | reset

/-- Whether the call is `reset()`. -/
def reader_call.is_reset : reader_call → Bool
  | .reset => true
  | _ => false

/-- The object after one call. -/
def frame_timestamp_reader.after {σ : Type} (R : frame_timestamp_reader σ) (self : σ) :
    reader_call → σ
  | .get_frame_timestamp now mode fo => (R.get_frame_timestamp self now mode fo).self
  | .get_frame_counter mode fo => (R.get_frame_counter self mode fo).self
  | .get_frame_timestamp_domain mode fo => (R.get_frame_timestamp_domain self mode fo).self
  | .reset => R.reset self

/-- The object after a sequence of calls, made one after the other. -/
def frame_timestamp_reader.run {σ : Type} (R : frame_timestamp_reader σ) (self : σ)
    (calls : List reader_call) : σ :=
  calls.foldl R.after self

/-- The number of `get_frame_counter` calls in a sequence of calls whose routing
descriptor is sent to pin `p` by `pin_of`. -/
def calls_on_pin (pin_of : request_mapping → Nat) (p : Nat) : List reader_call → Nat
  | [] => 0
  | .get_frame_counter mode _ :: calls =>
    (if pin_of mode = p then 1 else 0) + calls_on_pin pin_of p calls
  | _ :: calls => calls_on_pin pin_of p calls

/-- The warnings one call logs. -/
def frame_timestamp_reader.log_of {σ : Type} (R : frame_timestamp_reader σ) (self : σ) :
    reader_call → List String
  | .get_frame_timestamp now mode fo => (R.get_frame_timestamp self now mode fo).log
  | .get_frame_counter mode fo => (R.get_frame_counter self mode fo).log
  | .get_frame_timestamp_domain mode fo => (R.get_frame_timestamp_domain self mode fo).log
  | .reset => []

/-- The warnings logged over a sequence of calls, in the order they are logged. -/
def frame_timestamp_reader.logs {σ : Type} (R : frame_timestamp_reader σ) (self : σ) :
    List reader_call → List String
  | [] => []
  | c :: calls => R.log_of self c ++ frame_timestamp_reader.logs R (R.after self c) calls

/-- The values the `get_frame_counter` calls of a sequence of calls return, in the
order of the calls. -/
def frame_timestamp_reader.counter_values {σ : Type} (R : frame_timestamp_reader σ) (self : σ) :
    List reader_call → List (Except fault Nat)
  | [] => []
  | .get_frame_counter mode fo :: calls =>
    (R.get_frame_counter self mode fo).value ::
      frame_timestamp_reader.counter_values R (R.after self (.get_frame_counter mode fo)) calls
  | .get_frame_timestamp now mode fo :: calls =>
    frame_timestamp_reader.counter_values R (R.after self (.get_frame_timestamp now mode fo))
      calls
  | .get_frame_timestamp_domain mode fo :: calls =>
    frame_timestamp_reader.counter_values R (R.after self (.get_frame_timestamp_domain mode fo))
      calls
  | .reset :: calls => frame_timestamp_reader.counter_values R (R.after self .reset) calls

/-- Whether a call on the metadata-backed reader reaches the `else` branch of
lines 105-113, in which the fallback reader is asked for the timestamp: the call
is `get_frame_timestamp`, the statement of lines 95-98 returns, and the flag of the
pin is not set after it. -/
def ds5_timestamp_reader_from_metadata.takes_fallback {σ : Type}
    (self : ds5_timestamp_reader_from_metadata σ) : reader_call → Bool
  | .get_frame_timestamp _ mode fo =>
    match ds5_timestamp_reader_from_metadata.latch self mode fo with
    | .error _ => false
    | .ok self1 =>
      !self1._has_metadata.getD (ds5_timestamp_reader_from_metadata.pin_index mode) false
  | _ => false

/-- Whether a call on the HID motion reader goes past the test of line 227 to the
host clock of lines 233-239: the call is `get_frame_timestamp` and `has_metadata`
is false for its frame. -/
def ds5_iio_hid_timestamp_reader.takes_fallback (_self : ds5_iio_hid_timestamp_reader) :
    reader_call → Bool
  | .get_frame_timestamp _ mode fo =>
    !ds5_iio_hid_timestamp_reader.has_metadata mode fo.metadata fo.metadata_size
  | _ => false

/-! ## Option adapters of `ds5_camera`: the temperature options (lines 396-557) -/

/-- Modelled from the spec: the exceptions the option adapters throw, whose classes
are declared outside ds5.h: unsupported operation, sequencing error and invalid
value; and an exception of the standard library, as `std::stof` throws. -/
inductive librealsense_exception where
  | not_implemented_exception
  | wrong_api_call_sequence_exception
  | invalid_value_exception
  | std_exception
deriving DecidableEq, Repr

/-- Modelled from the spec: the enumeration `rs2_option`, declared outside ds5.h: the
two temperature options and, with its number, every other option. -/
inductive rs2_option where
  | RS2_OPTION_ASIC_TEMPERATURE
  | RS2_OPTION_PROJECTOR_TEMPERATURE
  | other (id : Nat)
deriving DecidableEq, Repr

/-- The type `float` of option values, taken as an exact rational. -/
abbrev float := ℚ

/-- The local packed `struct temperature` of lines 411-419; each field holds its
octet, the two `int8_t` fields as a bit pattern. -/
structure temperature where
  is_projector_valid : byte
  is_asic_valid : byte
  projector_temperature : byte
  asic_temperature : byte
deriving DecidableEq, Repr

/-- The value of an octet read as `int8_t` (two's complement). -/
def as_int8 (b : byte) : Int := if b.val < 2 ^ 7 then (b.val : Int) else (b.val : Int) - 2 ^ 8

/-- Modelled from the spec: the enumeration `uvc::custom_sensor_report_field`,
declared outside ds5.h, as far as ds5.h names its values. -/
inductive custom_sensor_report_field where
  | minimum
  | maximum
  | value
deriving DecidableEq, Repr

/-- A request an option sends to the hardware: the `get_xu` of lines 425-428 or a
`get_custom_report_data` of lines 508, 523 and 527. -/
inductive hardware_request where
  | get_xu_asic_and_projector_temperatures
  | get_custom_report_data (report_field : custom_sensor_report_field)
deriving DecidableEq, Repr

/-- The result of one call of an option: the value returned or the exception
thrown, and the requests sent to the hardware on the way, in order. -/
structure option_result (α : Type) where
  value : Except librealsense_exception α
  requests : List hardware_request

/-- Modelled from the spec: `uvc_endpoint`, declared outside ds5.h, as far as the
temperature option consults it: whether it is streaming, and the answer of the
hardware to `get_xu(depth_xu, DS5_ASIC_AND_PROJECTOR_TEMPERATURES, ...)`: `none`
when `get_xu` returns false, else the four octets it writes. -/
structure uvc_endpoint where
  is_streaming : Bool
  get_xu_temperatures : Option temperature
deriving DecidableEq, Repr

/-- Modelled from the spec: `hid_endpoint`, declared outside ds5.h, as far as the
temperature option consults it: whether it is streaming, and the buffer
`get_custom_report_data("custom", "data-field-custom-usage", field)` returns. -/
structure hid_endpoint where
  is_streaming : Bool
  get_custom_report_data : custom_sensor_report_field → List byte

/-- The data members of `asic_and_projector_temperature_options` (lines 487-489). -/
structure asic_and_projector_temperature_options where
  _ep : uvc_endpoint
  _option : rs2_option
deriving DecidableEq, Repr

namespace asic_and_projector_temperature_options

/-- The member `is_enabled` (lines 464-467). -/
def is_enabled (self : asic_and_projector_temperature_options) : Bool :=
  self._ep.is_streaming

/-- The `switch (_option)` of lines 436-451: the pointers to the members `feild`
and `is_valid_feild`, as the functions that read those members. -/
def select_fields (_option : rs2_option) :
    Except librealsense_exception ((temperature → byte) × (temperature → byte)) :=
  match _option with
  | .RS2_OPTION_ASIC_TEMPERATURE =>
    .ok (temperature.asic_temperature, temperature.is_asic_valid)
  | .RS2_OPTION_PROJECTOR_TEMPERATURE =>
    .ok (temperature.projector_temperature, temperature.is_projector_valid)
  | .other _ => .error .invalid_value_exception

/-- The member `query` (lines 406-457). -/
def query (self : asic_and_projector_temperature_options) : option_result float :=
  if !self.is_enabled then
    { value := .error .wrong_api_call_sequence_exception, requests := [] }
  else
    match self._ep.get_xu_temperatures with
    | none =>
      { value := .error .invalid_value_exception,
        requests := [.get_xu_asic_and_projector_temperatures] }
    | some temperature_data =>
      match select_fields self._option with
      | .error e => { value := .error e, requests := [.get_xu_asic_and_projector_temperatures] }
      | .ok (feild, is_valid_feild) =>
        if is_valid_feild temperature_data = 0 then
          { value := .error .invalid_value_exception,
            requests := [.get_xu_asic_and_projector_temperatures] }
        else
          { value := .ok ((as_int8 (feild temperature_data) : Int) : float),
            requests := [.get_xu_asic_and_projector_temperatures] }

end asic_and_projector_temperature_options

/-- The data member `_ep` of `motion_module_temperature_option` (line 556); the two
strings of lines 554-555 are constants. -/
structure motion_module_temperature_option where
  _ep : hid_endpoint

namespace motion_module_temperature_option

/-- The member `is_enabled` (lines 539-542). -/
def is_enabled (self : motion_module_temperature_option) : Bool :=
  self._ep.is_streaming

/-- The member `query` (lines 502-514).  The library function `std::stof`, applied
to the buffer read as a string, is the argument `stof`. -/
def query (stof : List byte → Except librealsense_exception float)
    (self : motion_module_temperature_option) : option_result float :=
  if !self.is_enabled then
    { value := .error .wrong_api_call_sequence_exception, requests := [] }
  else
    let data := self._ep.get_custom_report_data .value
    if data.isEmpty then
      { value := .error .invalid_value_exception,
        requests := [.get_custom_report_data .value] }
    else
      { value := stof data, requests := [.get_custom_report_data .value] }

end motion_module_temperature_option

namespace asic_and_projector_temperature_options

/-- The member `is_read_only` (line 399). -/
def is_read_only (_self : asic_and_projector_temperature_options) : Bool := true

/-- The member `set` (lines 401-404): the exception thrown, the requests sent to the
hardware, and the option after the call. -/
def set (self : asic_and_projector_temperature_options) (_value : float) :
    option_result Unit × asic_and_projector_temperature_options :=
  ({ value := .error .not_implemented_exception, requests := [] }, self)

end asic_and_projector_temperature_options

namespace motion_module_temperature_option

/-- The member `is_read_only` (line 495). -/
def is_read_only (_self : motion_module_temperature_option) : Bool := true

/-- The member `set` (lines 497-500): the exception thrown, the requests sent to the
hardware, and the option after the call. -/
def set (self : motion_module_temperature_option) (_value : float) :
    option_result Unit × motion_module_temperature_option :=
  ({ value := .error .not_implemented_exception, requests := [] }, self)

end motion_module_temperature_option

/-! ## Option adapters of `ds5_camera`: the emitter option (lines 366-394) -/

/-- The conversion `static_cast<int>(val)` of a `float`: truncation toward zero.
The conversion is defined when the truncated value is an `int`, that is for
`-2 ^ 31 - 1 < val < 2 ^ 31`. -/
def static_cast_int (val : float) : Int := if 0 ≤ val then ⌊val⌋ else ⌈val⌉

/-- The member `emitter_option::get_value_description` (lines 369-388). -/
def emitter_option.get_value_description (val : float) :
    Except librealsense_exception String :=
  if static_cast_int val = 0 then .ok "Off"
  else if static_cast_int val = 1 then .ok "On"
  else if static_cast_int val = 2 then .ok "Auto"
  else .error .invalid_value_exception

/-! ## Option adapters of `ds5_camera`: `enable_auto_exposure_option` (lines 559-623) -/

/-- Modelled from the spec: the shared auto-exposure state `auto_exposure_state`,
declared outside ds5.h, as far as this option consults it: the enabled flag, read by
`get_enable_auto_exposure` and written by `set_enable_auto_exposure`. -/
structure auto_exposure_state where
  is_auto_exposure : Bool
deriving DecidableEq, Repr

/-- Modelled from the spec: the getter of the enabled flag. -/
def auto_exposure_state.get_enable_auto_exposure (self : auto_exposure_state) : Bool :=
  self.is_auto_exposure

/-- Modelled from the spec: the setter of the enabled flag. -/
def auto_exposure_state.set_enable_auto_exposure (self : auto_exposure_state) (value : Bool) :
    auto_exposure_state :=
  { self with is_auto_exposure := value }

/-- Modelled from the spec: the enumeration `rs2_stream`, declared outside ds5.h: the
fisheye stream and, with its number, every other stream. -/
inductive rs2_stream where
  | RS2_STREAM_FISHEYE
  | other (id : Nat)
deriving DecidableEq, Repr

/-- The data members of `enable_auto_exposure_option` (lines 620-622) that the
option reads and writes.  The state `_auto_exposure_state` points to is held here:
it is changed through this option only. -/
structure enable_auto_exposure_option where
  _auto_exposure_state : auto_exposure_state
  _to_add_frames : Bool
deriving DecidableEq, Repr

namespace enable_auto_exposure_option

/-- The constructor (lines 602-608), the registration of the callback apart. -/
def construct (auto_exposure_state : auto_exposure_state) : enable_auto_exposure_option :=
  { _auto_exposure_state := auto_exposure_state,
    _to_add_frames := auto_exposure_state.get_enable_auto_exposure }

/-- The member `set` (lines 562-583): the exception thrown if any, the requests
sent to the hardware, and the option after the call. -/
def set (self : enable_auto_exposure_option) (value : float) :
    option_result Unit × enable_auto_exposure_option :=
  if value < 0 then ({ value := .error .invalid_value_exception, requests := [] }, self)
  else
    let auto_exposure_prev_state := self._auto_exposure_state.get_enable_auto_exposure
    let self1 : enable_auto_exposure_option :=
      { self with _auto_exposure_state :=
          self._auto_exposure_state.set_enable_auto_exposure (decide (0 < |value|)) }
    let self2 : enable_auto_exposure_option :=
      if self1._auto_exposure_state.get_enable_auto_exposure then
        if !auto_exposure_prev_state then { self1 with _to_add_frames := true } else self1
      else
        if auto_exposure_prev_state then { self1 with _to_add_frames := false } else self1
    ({ value := .ok (), requests := [] }, self2)

/-- The member `query` (lines 585-588): the enabled flag as a `float`. -/
def query (self : enable_auto_exposure_option) : float :=
  if self._auto_exposure_state.get_enable_auto_exposure then 1 else 0

/-- The callback registered on the fisheye endpoint (lines 610-616), for frames of
type `F` with their cloning function: the frame handed to
`_auto_exposure->add_frame`, if one is. -/
def on_before_frame {F : Type} (clone_frame : F → F) (self : enable_auto_exposure_option)
    (stream : rs2_stream) (f : F) : Option F :=
  if !self._to_add_frames || stream ≠ .RS2_STREAM_FISHEYE then none
  else some (clone_frame f)

/-- The option after a sequence of `set` calls, made one after the other. -/
def run_set (self : enable_auto_exposure_option) (values : List float) :
    enable_auto_exposure_option :=
  values.foldl (fun s value => (s.set value).2) self

end enable_auto_exposure_option

/-- Whether a call is a `get_frame_timestamp` whose routing descriptor is sent to
pin `p` by `pin_of`. -/
def reader_call.is_timestamp_on (pin_of : request_mapping → Nat) (p : Nat) :
    reader_call → Bool
  | .get_frame_timestamp _ mode _ => decide (pin_of mode = p)
  | _ => false

/-! ## Sample frames -/

/-- A frame without metadata: null pointer, length 0. -/
def frame_without_metadata : frame_object :=
  { pixels := none, metadata := none, metadata_size := 0 }

/-- A frame whose metadata is twenty zero octets. -/
def frame_zero_metadata : frame_object :=
  { pixels := none, metadata := some (List.replicate 20 0), metadata_size := 20 }

/-- A frame with 32 octets of metadata: a `uvc_header` with `length = 12` and
`timestamp = 12345` (octets `57 48 0 0`), and a `metadata_capture_timing` whose
`frameCounter` is 7. -/
def frame_with_metadata : frame_object :=
  { pixels := none,
    metadata := some [12, 0, 57, 48, 0, 0, 0, 0, 0, 0, 0, 0,
                      0, 0, 0, 0, 0, 0, 0, 0,
                      0, 0, 0, 0, 0, 0, 0, 0, 7, 0, 0, 0],
    metadata_size := 32 }

/-- A frame whose metadata is the single octet 1. -/
def frame_one_octet : frame_object :=
  { pixels := none, metadata := some [1], metadata_size := 1 }

/-- A frame whose metadata is eight octets, the little-endian value 5000. -/
def frame_hid_metadata : frame_object :=
  { pixels := none, metadata := some [136, 19, 0, 0, 0, 0, 0, 0], metadata_size := 8 }

/-- A frame whose metadata is eight zero octets. -/
def frame_hid_zero_metadata : frame_object :=
  { pixels := none, metadata := some [0, 0, 0, 0, 0, 0, 0, 0], metadata_size := 8 }

/-- A frame without metadata whose payload is 25 octets, the last eight of them the
little-endian value 5000. -/
def frame_custom_report : frame_object :=
  { pixels := some [1, 2, 3, 4, 5, 6, 7, 8, 9, 10, 11, 12, 13, 14, 15, 16, 17,
                    136, 19, 0, 0, 0, 0, 0, 0],
    metadata := none, metadata_size := 0 }

/-- A frame with 32 octets of metadata: a `uvc_header` with `length = 12` and
`timestamp = 9` (octets `9 0 0 0`). -/
def frame_with_timestamp_nine : frame_object :=
  { pixels := none,
    metadata := some [12, 0, 9, 0, 0, 0, 0, 0, 0, 0, 0, 0,
                      0, 0, 0, 0, 0, 0, 0, 0,
                      0, 0, 0, 0, 0, 0, 0, 0, 7, 0, 0, 0],
    metadata_size := 32 }

/-- A frame whose metadata is eight octets, the little-endian value 9. -/
def frame_hid_nine : frame_object :=
  { pixels := none, metadata := some [9, 0, 0, 0, 0, 0, 0, 0], metadata_size := 8 }

/-- A frame whose metadata is eight octets, the little-endian value `2 ^ 53`. -/
def frame_hid_two_pow_53 : frame_object :=
  { pixels := none, metadata := some [0, 0, 0, 0, 0, 0, 32, 0], metadata_size := 8 }

/-- A frame whose metadata is eight octets, the little-endian value `2 ^ 53 + 1`. -/
def frame_hid_two_pow_53_plus_one : frame_object :=
  { pixels := none, metadata := some [1, 0, 0, 0, 0, 0, 32, 0], metadata_size := 8 }

/-- A frame without metadata whose payload is 25 octets, the last eight of them the
little-endian value 9. -/
def frame_custom_report_nine : frame_object :=
  { pixels := some [1, 2, 3, 4, 5, 6, 7, 8, 9, 10, 11, 12, 13, 14, 15, 16, 17,
                    9, 0, 0, 0, 0, 0, 0, 0],
    metadata := none, metadata_size := 0 }

/-- A frame with 32 octets of metadata whose `frameCounter` field holds the four
octets 255: the value -1. -/
def frame_counter_minus_one : frame_object :=
  { pixels := none,
    metadata := some [12, 0, 57, 48, 0, 0, 0, 0, 0, 0, 0, 0,
                      0, 0, 0, 0, 0, 0, 0, 0,
                      0, 0, 0, 0, 0, 0, 0, 0, 255, 255, 255, 255],
    metadata_size := 32 }

end rsimpl2

open rsimpl2

/-! ## Double arithmetic -/

/-- Rounding to the nearest integer moves a number by at most one half. -/
theorem round_half_even_error (x : ℚ) : |(round_half_even x : ℚ) - x| ≤ 1 / 2 := by
  have h1 := Int.floor_le x
  have h2 := Int.lt_floor_add_one x
  unfold round_half_even
  split_ifs with ha hb hc
  · rw [abs_le]; constructor <;> linarith
  · rw [abs_le]; push_cast; constructor <;> linarith
  · rw [abs_le]; constructor <;> linarith
  · rw [abs_le]; push_cast; constructor <;> linarith

/-- An integer less than one half away from `x` is what `x` is rounded to. -/
theorem round_half_even_of_near (x : ℚ) (m : ℤ) (h : |x - m| < 1 / 2) :
    round_half_even x = m := by
  rw [abs_lt] at h
  obtain ⟨hl, hr⟩ := h
  have h1 := Int.floor_le x
  have h2 := Int.lt_floor_add_one x
  have hfl : ⌊x⌋ = m ∨ ⌊x⌋ = m - 1 := by
    have a : (m : ℚ) - 1 < ⌊x⌋ + 1 := by linarith
    have b : ((⌊x⌋ : ℤ) : ℚ) < m + 1 := by linarith
    have a1 : m - 1 < ⌊x⌋ + 1 := by exact_mod_cast a
    have b1 : ⌊x⌋ < m + 1 := by exact_mod_cast b
    omega
  unfold round_half_even
  rcases hfl with hf | hf
  · have hx : x - ⌊x⌋ < 1 / 2 := by rw [hf]; linarith
    rw [if_pos hx, hf]
  · have hc : ((⌊x⌋ : ℤ) : ℚ) = m - 1 := by rw [hf]; push_cast; ring
    have hx : ¬ x - ⌊x⌋ < 1 / 2 := by rw [hc]; intro h; linarith
    have hy : 1 / 2 < x - ⌊x⌋ := by rw [hc]; linarith
    rw [if_neg hx, if_pos hy, hf]; ring

/-- A number half way between two integers is rounded to the even one. -/
theorem round_half_even_of_tie (x : ℚ) (m : ℤ) (h : x = m + 1 / 2) :
    round_half_even x = if m % 2 = 0 then m else m + 1 := by
  have hf : ⌊x⌋ = m := by
    rw [Int.floor_eq_iff, h]
    constructor <;> linarith
  have hx : x - ⌊x⌋ = 1 / 2 := by rw [hf, h]; ring
  unfold round_half_even
  rw [hx, if_neg (lt_irrefl _), if_neg (lt_irrefl _), hf]

/-- An integer is rounded to itself. -/
theorem round_half_even_intCast (n : ℤ) : round_half_even (n : ℚ) = n :=
  round_half_even_of_near _ _ (by simp)

/-- Zero is a double. -/
theorem round_to_double_zero : round_to_double 0 = 0 := by
  simp [round_to_double]

/-- A value between `2 ^ (e + 52)` and `2 ^ (e + 53)` is rounded to a multiple of
`2 ^ e`. -/
theorem round_to_double_of_exponent (x : ℚ) (e : ℤ) (hlo : (2 : ℚ) ^ (e + 52) ≤ x)
    (hhi : x < (2 : ℚ) ^ (e + 53)) :
    round_to_double x = (round_half_even (x / 2 ^ e) : ℚ) * 2 ^ e := by
  have hpos : 0 < x := lt_of_lt_of_le (by positivity) hlo
  have hlog : Int.log 2 |x| = e + 52 := by
    rw [abs_of_pos hpos]
    apply le_antisymm
    · have := (Int.lt_zpow_iff_log_lt (R := ℚ) (b := 2) (by norm_num) (x := e + 53) hpos).1
        (by exact_mod_cast hhi)
      omega
    · exact (Int.zpow_le_iff_le_log (R := ℚ) (b := 2) (by norm_num) hpos).1
        (by exact_mod_cast hlo)
  unfold round_to_double
  rw [if_neg (ne_of_gt hpos), hlog]
  have he : e + 52 - 52 = e := by ring
  rw [he]

/-- A value between `2 ^ (e + 52)` and `2 ^ (e + 53)` that is less than half of
`2 ^ e` away from `m * 2 ^ e` is rounded to `m * 2 ^ e`. -/
theorem round_to_double_of_near (x : ℚ) (e m : ℤ) (hlo : (2 : ℚ) ^ (e + 52) ≤ x)
    (hhi : x < (2 : ℚ) ^ (e + 53)) (hm : |x / 2 ^ e - m| < 1 / 2) :
    round_to_double x = m * 2 ^ e := by
  rw [round_to_double_of_exponent x e hlo hhi, round_half_even_of_near _ _ hm]

/-- Rounding to a double moves a positive value `x` by at most `x / 2 ^ 53`. -/
theorem round_to_double_error (x : ℚ) (hpos : 0 < x) :
    |round_to_double x - x| ≤ x / 2 ^ 53 := by
  have hlo := Int.zpow_log_le_self (R := ℚ) (b := 2) (by norm_num) hpos
  unfold round_to_double
  rw [if_neg (ne_of_gt hpos), abs_of_pos hpos]
  generalize Int.log 2 x = l at hlo
  have hp : (0 : ℚ) < 2 ^ (l - 52) := by positivity
  have herr := round_half_even_error (x / 2 ^ (l - 52))
  have hx : x = x / 2 ^ (l - 52) * 2 ^ (l - 52) := by field_simp
  have hsplit : (2 : ℚ) ^ l = 2 ^ (l - 52) * 2 ^ (52 : ℕ) := by
    rw [← zpow_natCast, ← zpow_add₀ (by norm_num : (2 : ℚ) ≠ 0)]; congr 1; push_cast; ring
  have : ((round_half_even (x / 2 ^ (l - 52)) : ℚ) * 2 ^ (l - 52) - x)
      = ((round_half_even (x / 2 ^ (l - 52)) : ℚ) - x / 2 ^ (l - 52)) * 2 ^ (l - 52) := by
    rw [sub_mul]; congr 1
  rw [this, abs_mul, abs_of_pos hp]
  have h1 : |(round_half_even (x / 2 ^ (l - 52)) : ℚ) - x / 2 ^ (l - 52)| * 2 ^ (l - 52)
      ≤ 1 / 2 * 2 ^ (l - 52) := mul_le_mul_of_nonneg_right herr hp.le
  have h2 : (1 : ℚ) / 2 * 2 ^ (l - 52) ≤ x / 2 ^ 53 := by
    rw [le_div_iff₀ (by positivity)]
    calc (1 : ℚ) / 2 * 2 ^ (l - 52) * 2 ^ 53 = 2 ^ (l - 52) * 2 ^ (52 : ℕ) := by ring
      _ = 2 ^ l := hsplit.symm
      _ ≤ x := by exact_mod_cast hlo
  exact h1.trans h2

/-- An unsigned integer below `2 ^ 53` is converted to `double` without rounding. -/
theorem to_double_exact (t : Nat) (ht : t < 2 ^ 53) : to_double t = t := by
  unfold to_double
  rcases Nat.eq_zero_or_pos t with h0 | hpos
  · subst h0; simp [round_to_double]
  have hq : (0 : ℚ) < t := by exact_mod_cast hpos
  unfold round_to_double
  rw [if_neg (ne_of_gt hq), abs_of_pos hq]
  have hl : Int.log 2 (t : ℚ) < 53 := by
    apply (Int.lt_zpow_iff_log_lt (R := ℚ) (b := 2) (by norm_num) hq).1
    have : (t : ℚ) < (2 : ℚ) ^ (53 : ℕ) := by exact_mod_cast ht
    exact_mod_cast this
  have hl0 : 0 ≤ Int.log 2 (t : ℚ) := by
    apply (Int.zpow_le_iff_le_log (R := ℚ) (b := 2) (by norm_num) hq).1
    have : (1 : ℚ) ≤ t := by exact_mod_cast hpos
    simpa using this
  generalize Int.log 2 (t : ℚ) = l at hl hl0
  obtain ⟨k, hk⟩ : ∃ k : ℕ, l - 52 = -(k : ℤ) := ⟨(52 - l).toNat, by omega⟩
  rw [hk, zpow_neg, zpow_natCast]
  have hint : (t : ℚ) / (2 ^ k)⁻¹ = ((t * 2 ^ k : ℤ) : ℚ) := by
    push_cast; field_simp
  rw [hint, round_half_even_intCast]
  push_cast
  field_simp

/-- The conversion of `2 ^ 53` to `double` is exact. -/
theorem to_double_two_pow_53 : to_double 9007199254740992 = 9007199254740992 := by
  unfold to_double
  rw [round_to_double_of_near _ 1 4503599627370496 (by norm_num) (by norm_num)
    (by rw [abs_lt]; norm_num)]
  norm_num

/-- The conversion of `2 ^ 53 + 1` to `double` is a tie, rounded to `2 ^ 53`. -/
theorem to_double_two_pow_53_plus_one : to_double 9007199254740993 = 9007199254740992 := by
  unfold to_double
  rw [round_to_double_of_exponent _ 1 (by norm_num) (by norm_num),
    round_half_even_of_tie _ 4503599627370496 (by norm_num)]
  norm_num

/-- The double `0.001`: the significand 4611686018427388 at the exponent -62. -/
theorem TIMESTAMP_TO_MILLISECONS_value :
    TIMESTAMP_TO_MILLISECONS = 4611686018427388 / 2 ^ 62 := by
  unfold TIMESTAMP_TO_MILLISECONS
  rw [round_to_double_of_near (1 / 1000) (-62) 4611686018427388 (by norm_num) (by norm_num)
    (by rw [abs_lt]; norm_num)]
  norm_num

/-- The product of a double `a` that is not negative and `TIMESTAMP_TO_MILLISECONS`,
against the exact product of the two doubles. -/
theorem double_mul_TIMESTAMP_TO_MILLISECONS_error (a : ℚ) (ha : 0 ≤ a) :
    |double_mul a TIMESTAMP_TO_MILLISECONS - a * (4611686018427388 / 2 ^ 62)|
      ≤ a * (4611686018427388 / 2 ^ 62) / 2 ^ 53 := by
  unfold double_mul
  rw [TIMESTAMP_TO_MILLISECONS_value]
  rcases eq_or_lt_of_le ha with h0 | hpos
  · rw [← h0]; simp [round_to_double_zero]
  · exact round_to_double_error _ (by positivity)

/-- For ticks `t` below `2 ^ 53`, `(double)t * TIMESTAMP_TO_MILLISECONS` is within
`t / 1000 / 2 ^ 52` of `t / 1000`. -/
theorem ticks_product_error_of_lt (t : Nat) (ht : t < 2 ^ 53) :
    |double_mul (to_double t) TIMESTAMP_TO_MILLISECONS - (t : ℚ) / 1000|
      ≤ (t : ℚ) / 1000 / 2 ^ 52 := by
  rw [to_double_exact t ht]
  have h := double_mul_TIMESTAMP_TO_MILLISECONS_error (t : ℚ) (by positivity)
  have ht0 : (0 : ℚ) ≤ t := by positivity
  rw [abs_le] at h ⊢
  obtain ⟨h1, h2⟩ := h
  constructor <;> norm_num at h1 h2 ⊢ <;> linarith

/-- For all ticks `t`, `(double)t * TIMESTAMP_TO_MILLISECONS` is within
`t / 1000 / 2 ^ 51` of `t / 1000`. -/
theorem ticks_product_error (t : Nat) :
    |double_mul (to_double t) TIMESTAMP_TO_MILLISECONS - (t : ℚ) / 1000|
      ≤ (t : ℚ) / 1000 / 2 ^ 51 := by
  have ht0 : (0 : ℚ) ≤ t := by positivity
  have ha : |to_double t - (t : ℚ)| ≤ (t : ℚ) / 2 ^ 53 := by
    unfold to_double
    rcases eq_or_lt_of_le ht0 with h0 | hpos
    · rw [← h0]; simp [round_to_double_zero]
    · exact round_to_double_error _ hpos
  rw [abs_le] at ha
  obtain ⟨ha1, ha2⟩ := ha
  have hnn : 0 ≤ to_double t := by norm_num at ha1; linarith
  have h := double_mul_TIMESTAMP_TO_MILLISECONS_error (to_double t) hnn
  rw [abs_le] at h ⊢
  obtain ⟨h1, h2⟩ := h
  constructor <;> norm_num at h1 h2 ha1 ha2 ⊢ <;> linarith

/-- The product `(double)12345 * TIMESTAMP_TO_MILLISECONS` is the double
`6949617174986097 / 2 ^ 49`. -/
theorem ticks_product_12345 :
    double_mul (to_double 12345) TIMESTAMP_TO_MILLISECONS = 6949617174986097 / 2 ^ 49 := by
  rw [to_double_exact 12345 (by norm_num), TIMESTAMP_TO_MILLISECONS_value]
  unfold double_mul
  rw [round_to_double_of_near _ (-49) 6949617174986097 (by norm_num) (by norm_num)
    (by rw [abs_lt]; norm_num)]
  norm_num

/-- The double nearest to `12345 / 1000` is `6949617174986097 / 2 ^ 49`. -/
theorem nearest_double_12345 :
    round_to_double (12345 / 1000) = 6949617174986097 / 2 ^ 49 := by
  rw [round_to_double_of_near _ (-49) 6949617174986097 (by norm_num) (by norm_num)
    (by rw [abs_lt]; norm_num)]
  norm_num

/-- The product `(double)9 * TIMESTAMP_TO_MILLISECONS` is a tie between two doubles
and is rounded to the even significand: `5188146770730812 / 2 ^ 59`. -/
theorem ticks_product_9 :
    double_mul (to_double 9) TIMESTAMP_TO_MILLISECONS = 5188146770730812 / 2 ^ 59 := by
  rw [to_double_exact 9 (by norm_num), TIMESTAMP_TO_MILLISECONS_value]
  unfold double_mul
  rw [round_to_double_of_exponent _ (-59) (by norm_num) (by norm_num),
    round_half_even_of_tie _ 5188146770730811 (by norm_num)]
  norm_num

/-- The double nearest to `9 / 1000` is `5188146770730811 / 2 ^ 59`. -/
theorem nearest_double_9 : round_to_double (9 / 1000) = 5188146770730811 / 2 ^ 59 := by
  rw [round_to_double_of_near _ (-59) 5188146770730811 (by norm_num) (by norm_num)
    (by rw [abs_lt]; norm_num)]
  norm_num

/-- The product `(double)5000 * TIMESTAMP_TO_MILLISECONS` is the double 5. -/
theorem ticks_product_5000 :
    double_mul (to_double 5000) TIMESTAMP_TO_MILLISECONS = 5 := by
  rw [to_double_exact 5000 (by norm_num), TIMESTAMP_TO_MILLISECONS_value]
  unfold double_mul
  rw [round_to_double_of_near _ (-50) 5629499534213120 (by norm_num) (by norm_num)
    (by rw [abs_lt]; norm_num)]
  norm_num

/-! ## The probe -/

/-- The pin index is 0 or 1. -/
theorem from_metadata_pin_index_lt (mode : request_mapping) :
    ds5_timestamp_reader_from_metadata.pin_index mode < 2 := by
  unfold ds5_timestamp_reader_from_metadata.pin_index
  split <;> omega

/-- The flags after `get_frame_timestamp`: those before the call, with the probe's
answer stored at the pin if the pin's flag was not set and the probe returned. -/
theorem from_metadata_get_frame_timestamp_flags {σ : Type} (B : frame_timestamp_reader σ)
    (s : ds5_timestamp_reader_from_metadata σ) (now : rs2_time_t) (mode : request_mapping)
    (fo : frame_object) :
    (ds5_timestamp_reader_from_metadata.get_frame_timestamp B s now mode fo).self._has_metadata =
      if s._has_metadata.getD (ds5_timestamp_reader_from_metadata.pin_index mode) false then
        s._has_metadata
      else
        match ds5_timestamp_reader_from_metadata.has_metadata mode fo.metadata fo.metadata_size with
        | .error _ => s._has_metadata
        | .ok b => s._has_metadata.set (ds5_timestamp_reader_from_metadata.pin_index mode) b := by
  unfold ds5_timestamp_reader_from_metadata.get_frame_timestamp
    ds5_timestamp_reader_from_metadata.latch
  by_cases hflag : s._has_metadata.getD (ds5_timestamp_reader_from_metadata.pin_index mode) false
  · simp only [hflag, Bool.not_true, Bool.false_eq_true, if_false, if_true]
    split <;> rfl
  · simp only [hflag, Bool.not_false, if_true, if_false]
    cases hp : ds5_timestamp_reader_from_metadata.has_metadata mode fo.metadata fo.metadata_size with
    | error f => rfl
    | ok b =>
      simp only []
      split
      · split <;> rfl
      · split <;> rfl

/-- The member `get_frame_counter` leaves the flags as they are. -/
theorem from_metadata_get_frame_counter_flags {σ : Type} (B : frame_timestamp_reader σ)
    (s : ds5_timestamp_reader_from_metadata σ) (mode : request_mapping) (fo : frame_object) :
    (ds5_timestamp_reader_from_metadata.get_frame_counter B s mode fo).self._has_metadata =
      s._has_metadata := by
  unfold ds5_timestamp_reader_from_metadata.get_frame_counter
  split
  · split <;> rfl
  · rfl

/-- The member `get_frame_timestamp_domain` leaves the flags as they are. -/
theorem from_metadata_get_frame_timestamp_domain_flags {σ : Type}
    (B : frame_timestamp_reader σ) (s : ds5_timestamp_reader_from_metadata σ)
    (mode : request_mapping) (fo : frame_object) :
    (ds5_timestamp_reader_from_metadata.get_frame_timestamp_domain B s mode fo).self._has_metadata
      = s._has_metadata := by
  unfold ds5_timestamp_reader_from_metadata.get_frame_timestamp_domain
  split <;> rfl

/-- A flag that is set stays set over one call other than `reset`. -/
theorem from_metadata_flag_stays {σ : Type} (B : frame_timestamp_reader σ)
    (s : ds5_timestamp_reader_from_metadata σ) (c : reader_call) (p : Nat)
    (hc : c.is_reset = false) (h : s._has_metadata.getD p false = true) :
    (((ds5_timestamp_reader_from_metadata.interface B).after s c)._has_metadata).getD p false
      = true := by
  cases c with
  | reset => simp [reader_call.is_reset] at hc
  | get_frame_counter mode fo =>
    show ((ds5_timestamp_reader_from_metadata.get_frame_counter B s mode fo).self._has_metadata).getD
      p false = true
    rw [from_metadata_get_frame_counter_flags]; exact h
  | get_frame_timestamp_domain mode fo =>
    show ((ds5_timestamp_reader_from_metadata.get_frame_timestamp_domain B s mode
      fo).self._has_metadata).getD p false = true
    rw [from_metadata_get_frame_timestamp_domain_flags]; exact h
  | get_frame_timestamp now mode fo =>
    show ((ds5_timestamp_reader_from_metadata.get_frame_timestamp B s now mode
      fo).self._has_metadata).getD p false = true
    rw [from_metadata_get_frame_timestamp_flags]
    by_cases hflag : s._has_metadata.getD (ds5_timestamp_reader_from_metadata.pin_index mode) false
    · rw [if_pos hflag]; exact h
    · rw [if_neg hflag]
      split
      · exact h
      · have hne : ds5_timestamp_reader_from_metadata.pin_index mode ≠ p := by
          intro e; rw [e] at hflag; exact hflag h
        rw [List.getD_eq_getElem?_getD, List.getElem?_set_ne hne, ← List.getD_eq_getElem?_getD]
        exact h

/-- A flag that is set stays set over every sequence of calls without `reset`. -/
theorem from_metadata_flag_stays_run {σ : Type} (B : frame_timestamp_reader σ)
    (calls : List reader_call) (hcalls : ∀ c ∈ calls, c.is_reset = false) (p : Nat) :
    ∀ s : ds5_timestamp_reader_from_metadata σ, s._has_metadata.getD p false = true →
      (((ds5_timestamp_reader_from_metadata.interface B).run s calls)._has_metadata).getD p false
        = true := by
  induction calls with
  | nil => intro s h; exact h
  | cons c calls ih =>
    intro s h
    have hc : c.is_reset = false := hcalls c (List.mem_cons_self _ _)
    exact ih (fun d hd => hcalls d (List.mem_cons_of_mem _ hd)) _
      (from_metadata_flag_stays B s c p hc h)

/-- C2: sticky latch.  Let `get_frame_timestamp` be called with a frame whose probe
is true on a reader whose flag vector has its declared length.  After that call and
any sequence of later calls without `reset`, `get_frame_timestamp_domain` returns
`RS2_TIMESTAMP_DOMAIN_HARDWARE_CLOCK` for every routing descriptor of the same pin
and every frame, whatever its metadata. -/
theorem from_metadata_sticky_latch {σ : Type} (B : frame_timestamp_reader σ)
    (s : ds5_timestamp_reader_from_metadata σ) (now : rs2_time_t) (mode : request_mapping)
    (fo : frame_object) (calls : List reader_call) (mode' : request_mapping)
    (fo' : frame_object)
    (hlen : s._has_metadata.length = ds5_timestamp_reader_from_metadata.pins)
    (hprobe : ds5_timestamp_reader_from_metadata.has_metadata mode fo.metadata fo.metadata_size
      = .ok true)
    (hcalls : ∀ c ∈ calls, c.is_reset = false)
    (hpin : ds5_timestamp_reader_from_metadata.pin_index mode'
      = ds5_timestamp_reader_from_metadata.pin_index mode) :
    (ds5_timestamp_reader_from_metadata.get_frame_timestamp_domain B
      ((ds5_timestamp_reader_from_metadata.interface B).run
        (ds5_timestamp_reader_from_metadata.get_frame_timestamp B s now mode fo).self calls)
      mode' fo').value = .ok .RS2_TIMESTAMP_DOMAIN_HARDWARE_CLOCK := by
  have hlatched : ((ds5_timestamp_reader_from_metadata.get_frame_timestamp B s now mode
      fo).self._has_metadata).getD (ds5_timestamp_reader_from_metadata.pin_index mode) false
      = true := by
    rw [from_metadata_get_frame_timestamp_flags]
    by_cases hflag : s._has_metadata.getD (ds5_timestamp_reader_from_metadata.pin_index mode) false
    · rw [if_pos hflag]; exact hflag
    · rw [if_neg hflag, hprobe]
      have hlt := from_metadata_pin_index_lt mode
      have hlen2 : s._has_metadata.length = 2 := hlen
      simp only []
      rw [List.getD_eq_getElem?_getD, List.getElem?_set_self (by omega)]
      rfl
  have hrun := from_metadata_flag_stays_run B calls hcalls _ _ hlatched
  unfold ds5_timestamp_reader_from_metadata.get_frame_timestamp_domain
  rw [hpin, if_pos hrun]

/-- C2, an instance: a reader over a free-running fallback sees a frame with
metadata on the Z16 pin, then a frame without metadata and a counter query; the
domain of the Z16 pin is still the hardware clock for a frame without metadata. -/
theorem from_metadata_sticky_latch_witness :
    (ds5_timestamp_reader_from_metadata.get_frame_timestamp_domain ds5_timestamp_reader.interface
      ((ds5_timestamp_reader_from_metadata.interface ds5_timestamp_reader.interface).run
        (ds5_timestamp_reader_from_metadata.get_frame_timestamp ds5_timestamp_reader.interface
          (ds5_timestamp_reader_from_metadata.construct ds5_timestamp_reader.construct)
          0 ⟨Z16⟩ frame_with_metadata).self
        [.get_frame_timestamp 5 ⟨Z16⟩ frame_without_metadata,
         .get_frame_counter ⟨Z16⟩ frame_zero_metadata])
      ⟨Z16⟩ frame_without_metadata).value = .ok .RS2_TIMESTAMP_DOMAIN_HARDWARE_CLOCK :=
  from_metadata_sticky_latch ds5_timestamp_reader.interface
    (ds5_timestamp_reader_from_metadata.construct ds5_timestamp_reader.construct)
    0 ⟨Z16⟩ frame_with_metadata
    [.get_frame_timestamp 5 ⟨Z16⟩ frame_without_metadata,
     .get_frame_counter ⟨Z16⟩ frame_zero_metadata]
    ⟨Z16⟩ frame_without_metadata rfl (by decide)
    (by intro c hc; simp at hc; rcases hc with rfl | rfl <;> rfl) rfl

/-! ## The metadata-backed reader: the three ways through `get_frame_timestamp` -/

/-- Reading a slot that has just been written. -/
theorem getD_set_self_of_lt {α : Type} (l : List α) (i : Nat) (a d : α) (h : i < l.length) :
    (l.set i a).getD i d = a := by
  rw [List.getD_eq_getElem?_getD, List.getElem?_set_self h]
  rfl

/-- Writing the default into a slot makes the slot read as the default, whatever
the length of the list. -/
theorem getD_set_default {α : Type} (l : List α) (i : Nat) (d : α) :
    (l.set i d).getD i d = d := by
  by_cases h : i < l.length
  · exact getD_set_self_of_lt l i d d h
  · rw [List.getD_eq_getElem?_getD, List.getElem?_eq_none (by simpa using h)]
    rfl

/-- On a latched pin `get_frame_timestamp` decodes the header without probing. -/
theorem from_metadata_get_frame_timestamp_latched {σ : Type} (B : frame_timestamp_reader σ)
    (s : ds5_timestamp_reader_from_metadata σ) (now : rs2_time_t) (mode : request_mapping)
    (fo : frame_object)
    (hflag : s._has_metadata.getD (ds5_timestamp_reader_from_metadata.pin_index mode) false
      = true) :
    ds5_timestamp_reader_from_metadata.get_frame_timestamp B s now mode fo =
      match metadata.header_timestamp fo.metadata with
      | .error f => { value := .error f, log := [], self := s }
      | .ok t => { value := .ok (double_mul (to_double t) TIMESTAMP_TO_MILLISECONS), log := [],
                   self := s } := by
  unfold ds5_timestamp_reader_from_metadata.get_frame_timestamp
    ds5_timestamp_reader_from_metadata.latch
  simp only [hflag, Bool.not_true, Bool.false_eq_true, if_false, if_true]

/-- On a pin that is not latched, a frame that passes the probe latches the pin and
is decoded from its header. -/
theorem from_metadata_get_frame_timestamp_probe_true {σ : Type}
    (B : frame_timestamp_reader σ) (s : ds5_timestamp_reader_from_metadata σ)
    (now : rs2_time_t) (mode : request_mapping) (fo : frame_object)
    (hlen : s._has_metadata.length = ds5_timestamp_reader_from_metadata.pins)
    (hflag : s._has_metadata.getD (ds5_timestamp_reader_from_metadata.pin_index mode) false
      = false)
    (hprobe : ds5_timestamp_reader_from_metadata.has_metadata mode fo.metadata fo.metadata_size
      = .ok true) :
    ds5_timestamp_reader_from_metadata.get_frame_timestamp B s now mode fo =
      match metadata.header_timestamp fo.metadata with
      | .error f =>
        { value := .error f, log := [],
          self := { s with _has_metadata :=
            s._has_metadata.set (ds5_timestamp_reader_from_metadata.pin_index mode) true } }
      | .ok t =>
        { value := .ok (double_mul (to_double t) TIMESTAMP_TO_MILLISECONS), log := [],
          self := { s with _has_metadata :=
            s._has_metadata.set (ds5_timestamp_reader_from_metadata.pin_index mode) true } } := by
  have hlt := from_metadata_pin_index_lt mode
  have hlen2 : s._has_metadata.length = 2 := hlen
  unfold ds5_timestamp_reader_from_metadata.get_frame_timestamp
    ds5_timestamp_reader_from_metadata.latch
  have hset : (s._has_metadata.set (ds5_timestamp_reader_from_metadata.pin_index mode)
      true).getD (ds5_timestamp_reader_from_metadata.pin_index mode) false = true :=
    getD_set_self_of_lt s._has_metadata _ true false (by omega)
  simp only [hflag, hprobe, Bool.not_false, if_true, hset]

/-- On a pin that is not latched, a frame that fails the probe is handed to the
fallback reader, after the warning if it has not been logged yet. -/
theorem from_metadata_get_frame_timestamp_probe_false {σ : Type}
    (B : frame_timestamp_reader σ) (s : ds5_timestamp_reader_from_metadata σ)
    (now : rs2_time_t) (mode : request_mapping) (fo : frame_object)
    (hflag : s._has_metadata.getD (ds5_timestamp_reader_from_metadata.pin_index mode) false
      = false)
    (hprobe : ds5_timestamp_reader_from_metadata.has_metadata mode fo.metadata fo.metadata_size
      = .ok false) :
    ds5_timestamp_reader_from_metadata.get_frame_timestamp B s now mode fo =
      { value := (B.get_frame_timestamp s._backup_timestamp_reader now mode fo).value,
        log := (if s.started then []
                else ["UVC timestamp not found! please apply UVC metadata patch."]) ++
               (B.get_frame_timestamp s._backup_timestamp_reader now mode fo).log,
        self := { _backup_timestamp_reader :=
                    (B.get_frame_timestamp s._backup_timestamp_reader now mode fo).self,
                  _has_metadata :=
                    s._has_metadata.set (ds5_timestamp_reader_from_metadata.pin_index mode) false,
                  started := true } } := by
  unfold ds5_timestamp_reader_from_metadata.get_frame_timestamp
    ds5_timestamp_reader_from_metadata.latch
  simp only [hflag, hprobe, Bool.not_false, if_true, getD_set_default]
  cases hs : s.started <;> simp

/-- C3 (as amended): a pin without metadata is not decided.  While the flag of a
pin is not set, `get_frame_timestamp` probes every frame on that pin.  A frame
that fails the probe is handed to the fallback reader, the flag stays unset and
`get_frame_timestamp_domain` answers with the fallback's domain; a frame that
passes the probe sets the flag, is decoded from its own header without a call of
the fallback, and `get_frame_timestamp_domain` answers with the hardware clock. -/
theorem from_metadata_unlatched_pin_probes_again {σ : Type} (B : frame_timestamp_reader σ)
    (s : ds5_timestamp_reader_from_metadata σ) (now : rs2_time_t) (mode : request_mapping)
    (fo : frame_object)
    (hlen : s._has_metadata.length = ds5_timestamp_reader_from_metadata.pins)
    (hflag : s._has_metadata.getD (ds5_timestamp_reader_from_metadata.pin_index mode) false
      = false) :
    (ds5_timestamp_reader_from_metadata.has_metadata mode fo.metadata fo.metadata_size
        = .ok false →
      (ds5_timestamp_reader_from_metadata.get_frame_timestamp B s now mode fo).value
        = (B.get_frame_timestamp s._backup_timestamp_reader now mode fo).value ∧
      ((ds5_timestamp_reader_from_metadata.get_frame_timestamp B s now mode
        fo).self._has_metadata).getD (ds5_timestamp_reader_from_metadata.pin_index mode) false
        = false ∧
      ∀ fo', (ds5_timestamp_reader_from_metadata.get_frame_timestamp_domain B
          (ds5_timestamp_reader_from_metadata.get_frame_timestamp B s now mode fo).self
          mode fo').value
        = (B.get_frame_timestamp_domain
            (B.get_frame_timestamp s._backup_timestamp_reader now mode fo).self mode fo').value) ∧
    (ds5_timestamp_reader_from_metadata.has_metadata mode fo.metadata fo.metadata_size
        = .ok true →
      (ds5_timestamp_reader_from_metadata.get_frame_timestamp B s now mode fo).value
        = Except.map (fun t : Nat => double_mul (to_double t) TIMESTAMP_TO_MILLISECONS)
            (metadata.header_timestamp fo.metadata) ∧
      (ds5_timestamp_reader_from_metadata.get_frame_timestamp B s now mode
        fo).self._backup_timestamp_reader = s._backup_timestamp_reader ∧
      ((ds5_timestamp_reader_from_metadata.get_frame_timestamp B s now mode
        fo).self._has_metadata).getD (ds5_timestamp_reader_from_metadata.pin_index mode) false
        = true ∧
      ∀ fo', (ds5_timestamp_reader_from_metadata.get_frame_timestamp_domain B
          (ds5_timestamp_reader_from_metadata.get_frame_timestamp B s now mode fo).self
          mode fo').value = .ok .RS2_TIMESTAMP_DOMAIN_HARDWARE_CLOCK) := by
  constructor
  · intro hprobe
    rw [from_metadata_get_frame_timestamp_probe_false B s now mode fo hflag hprobe]
    refine ⟨rfl, getD_set_default _ _ _, ?_⟩
    intro fo'
    unfold ds5_timestamp_reader_from_metadata.get_frame_timestamp_domain
    simp only [getD_set_default, Bool.false_eq_true, if_false]
  · intro hprobe
    have hlt := from_metadata_pin_index_lt mode
    have hlen2 : s._has_metadata.length = 2 := hlen
    have hset : (s._has_metadata.set (ds5_timestamp_reader_from_metadata.pin_index mode)
        true).getD (ds5_timestamp_reader_from_metadata.pin_index mode) false = true :=
      getD_set_self_of_lt s._has_metadata _ true false (by omega)
    rw [from_metadata_get_frame_timestamp_probe_true B s now mode fo hlen hflag hprobe]
    cases hts : metadata.header_timestamp fo.metadata with
    | error f =>
      refine ⟨rfl, rfl, hset, ?_⟩
      intro fo'
      unfold ds5_timestamp_reader_from_metadata.get_frame_timestamp_domain
      simp only [hset, if_true]
    | ok t =>
      refine ⟨rfl, rfl, hset, ?_⟩
      intro fo'
      unfold ds5_timestamp_reader_from_metadata.get_frame_timestamp_domain
      simp only [hset, if_true]

/-- C3, an instance: a freshly constructed reader over a free-running fallback, its
pin 0, and a frame with metadata. -/
theorem from_metadata_unlatched_pin_probes_again_witness :
    (ds5_timestamp_reader_from_metadata.get_frame_timestamp ds5_timestamp_reader.interface
        (ds5_timestamp_reader_from_metadata.construct ds5_timestamp_reader.construct)
        9 ⟨0⟩ frame_with_metadata).value
      = Except.map (fun t : Nat => double_mul (to_double t) TIMESTAMP_TO_MILLISECONS)
          (metadata.header_timestamp frame_with_metadata.metadata) ∧
    (ds5_timestamp_reader_from_metadata.get_frame_timestamp ds5_timestamp_reader.interface
        (ds5_timestamp_reader_from_metadata.construct ds5_timestamp_reader.construct)
        9 ⟨0⟩ frame_without_metadata).value
      = (ds5_timestamp_reader.interface.get_frame_timestamp ds5_timestamp_reader.construct
          9 ⟨0⟩ frame_without_metadata).value :=
  ⟨((from_metadata_unlatched_pin_probes_again ds5_timestamp_reader.interface
      (ds5_timestamp_reader_from_metadata.construct ds5_timestamp_reader.construct)
      9 ⟨0⟩ frame_with_metadata rfl rfl).2 (by decide)).1,
   ((from_metadata_unlatched_pin_probes_again ds5_timestamp_reader.interface
      (ds5_timestamp_reader_from_metadata.construct ds5_timestamp_reader.construct)
      9 ⟨0⟩ frame_without_metadata rfl rfl).1 (by decide)).1⟩

/-- C3 refuted as stated: on a freshly constructed reader over a free-running
fallback, the first `get_frame_timestamp` on pin 0 probes a frame without metadata
and delegates (it returns the host clock reading 5).  The next frame on pin 0
carries metadata: it is probed again, its timestamp 12345 is decoded (the double
12.345, which is `6949617174986097 / 2 ^ 49`, not the host clock reading 9 the
fallback returns), and the domain of the pin is the hardware clock, not the
fallback's system time. -/
theorem from_metadata_no_metadata_terminal_counterexample :
    ds5_timestamp_reader_from_metadata.has_metadata ⟨0⟩ frame_without_metadata.metadata
        frame_without_metadata.metadata_size = .ok false ∧
    (ds5_timestamp_reader_from_metadata.get_frame_timestamp ds5_timestamp_reader.interface
        (ds5_timestamp_reader_from_metadata.construct ds5_timestamp_reader.construct)
        5 ⟨0⟩ frame_without_metadata).value = .ok 5 ∧
    (ds5_timestamp_reader_from_metadata.get_frame_timestamp ds5_timestamp_reader.interface
        (ds5_timestamp_reader_from_metadata.get_frame_timestamp ds5_timestamp_reader.interface
          (ds5_timestamp_reader_from_metadata.construct ds5_timestamp_reader.construct)
          5 ⟨0⟩ frame_without_metadata).self
        9 ⟨0⟩ frame_with_metadata).value = .ok (6949617174986097 / 2 ^ 49) ∧
    (ds5_timestamp_reader.interface.get_frame_timestamp
        (ds5_timestamp_reader_from_metadata.get_frame_timestamp ds5_timestamp_reader.interface
          (ds5_timestamp_reader_from_metadata.construct ds5_timestamp_reader.construct)
          5 ⟨0⟩ frame_without_metadata).self._backup_timestamp_reader
        9 ⟨0⟩ frame_with_metadata).value = .ok 9 ∧
    (ds5_timestamp_reader_from_metadata.get_frame_timestamp_domain ds5_timestamp_reader.interface
        (ds5_timestamp_reader_from_metadata.get_frame_timestamp ds5_timestamp_reader.interface
          (ds5_timestamp_reader_from_metadata.get_frame_timestamp ds5_timestamp_reader.interface
            (ds5_timestamp_reader_from_metadata.construct ds5_timestamp_reader.construct)
            5 ⟨0⟩ frame_without_metadata).self
          9 ⟨0⟩ frame_with_metadata).self
        ⟨0⟩ frame_with_metadata).value = .ok .RS2_TIMESTAMP_DOMAIN_HARDWARE_CLOCK ∧
    (6949617174986097 / 2 ^ 49 : rs2_time_t) ≠ 9 := by
  refine ⟨rfl, rfl, ?_, rfl, rfl, by norm_num⟩
  have h : (ds5_timestamp_reader_from_metadata.get_frame_timestamp
      ds5_timestamp_reader.interface
      (ds5_timestamp_reader_from_metadata.get_frame_timestamp ds5_timestamp_reader.interface
        (ds5_timestamp_reader_from_metadata.construct ds5_timestamp_reader.construct)
        5 ⟨0⟩ frame_without_metadata).self
      9 ⟨0⟩ frame_with_metadata).value
        = .ok (double_mul (to_double 12345) TIMESTAMP_TO_MILLISECONS) := rfl
  rw [h, ticks_product_12345]

/-! ## Decoding -/

/-- Four octets inside the buffer are read as their little-endian value. -/
theorem read_le_four (buf : List byte) (off : Nat) (h : off + 4 ≤ buf.length) :
    read_le (some buf) off 4 =
      .ok ((buf.getD off 0).val + 2 ^ 8 * (buf.getD (off + 1) 0).val
        + 2 ^ 16 * (buf.getD (off + 2) 0).val + 2 ^ 24 * (buf.getD (off + 3) 0).val) := by
  have h0 : off < buf.length := by omega
  have h1 : off + 1 < buf.length := by omega
  have h2 : off + 1 + 1 < buf.length := by omega
  have h3 : off + 1 + 1 + 1 < buf.length := by omega
  simp only [read_le, List.getElem?_eq_getElem h0, List.getElem?_eq_getElem h1,
    List.getElem?_eq_getElem h2, List.getElem?_eq_getElem h3, List.getD_eq_getElem _ _ h0,
    List.getD_eq_getElem _ _ h1, List.getD_eq_getElem _ _ h2,
    List.getD_eq_getElem _ _ h3]
  congr 1
  ring

/-- C4 refuted as stated: the value returned is a double product, not `t / 1000`.
The header with timestamp field 9 on the Z16 pin of a freshly constructed reader
passes the probe and holds more than 12 octets; `get_frame_timestamp` returns the
double `5188146770730812 / 2 ^ 59` (printed 0.009000000000000001).  That is not
`9 / 1000`, and it is not the double nearest to `9 / 1000` either, which is
`5188146770730811 / 2 ^ 59` (printed 0.009). -/
theorem from_metadata_get_frame_timestamp_decodes_counterexample :
    ds5_timestamp_reader_from_metadata.has_metadata ⟨Z16⟩ frame_with_timestamp_nine.metadata
        frame_with_timestamp_nine.metadata_size = .ok true ∧
    metadata.header_timestamp frame_with_timestamp_nine.metadata = .ok 9 ∧
    (ds5_timestamp_reader_from_metadata.get_frame_timestamp ds5_timestamp_reader.interface
        (ds5_timestamp_reader_from_metadata.construct ds5_timestamp_reader.construct)
        0 ⟨Z16⟩ frame_with_timestamp_nine).value = .ok (5188146770730812 / 2 ^ 59) ∧
    (ds5_timestamp_reader_from_metadata.get_frame_timestamp ds5_timestamp_reader.interface
        (ds5_timestamp_reader_from_metadata.construct ds5_timestamp_reader.construct)
        0 ⟨Z16⟩ frame_with_timestamp_nine).value ≠ .ok (9 / 1000) ∧
    (ds5_timestamp_reader_from_metadata.get_frame_timestamp ds5_timestamp_reader.interface
        (ds5_timestamp_reader_from_metadata.construct ds5_timestamp_reader.construct)
        0 ⟨Z16⟩ frame_with_timestamp_nine).value ≠ .ok (round_to_double (9 / 1000)) := by
  have h : (ds5_timestamp_reader_from_metadata.get_frame_timestamp
      ds5_timestamp_reader.interface
      (ds5_timestamp_reader_from_metadata.construct ds5_timestamp_reader.construct)
      0 ⟨Z16⟩ frame_with_timestamp_nine).value
        = .ok (double_mul (to_double 9) TIMESTAMP_TO_MILLISECONS) := rfl
  rw [h, ticks_product_9, nearest_double_9]
  refine ⟨by decide, rfl, rfl, ?_, ?_⟩
  · intro e
    have e2 : (5188146770730812 / 2 ^ 59 : rs2_time_t) = 9 / 1000 := Except.ok.inj e
    norm_num at e2
  · intro e
    have e2 : (5188146770730812 / 2 ^ 59 : rs2_time_t) = 5188146770730811 / 2 ^ 59 :=
      Except.ok.inj e
    norm_num at e2

/-- C4 (as amended): hardware timestamp decoding.  On a pin whose flag is set, or is
set by this call because the frame passes the probe, and for a metadata buffer of
at least 12 octets, `get_frame_timestamp` returns the double product
`(double)t * TIMESTAMP_TO_MILLISECONS`, where `t` is the little-endian value of
octets 2 to 5 of the buffer and `TIMESTAMP_TO_MILLISECONS` is the double nearest to
one thousandth: `t` is below `2 ^ 32`, its conversion to `double` is exact, and the
product is within `t / 1000 / 2 ^ 52` of `t / 1000`.  The call logs nothing and
leaves the fallback reader as it was.  For the header with timestamp field 12345
the result is the double nearest to 12.345. -/
theorem from_metadata_get_frame_timestamp_decodes :
    (∀ (σ : Type) (B : frame_timestamp_reader σ) (s : ds5_timestamp_reader_from_metadata σ)
      (now : rs2_time_t) (mode : request_mapping) (fo : frame_object) (buf : List byte),
      s._has_metadata.length = ds5_timestamp_reader_from_metadata.pins →
      fo.metadata = some buf → 12 ≤ buf.length →
      (s._has_metadata.getD (ds5_timestamp_reader_from_metadata.pin_index mode) false = true ∨
        ds5_timestamp_reader_from_metadata.has_metadata mode fo.metadata fo.metadata_size
          = .ok true) →
      (ds5_timestamp_reader_from_metadata.get_frame_timestamp B s now mode fo).value
        = .ok (double_mul
            (to_double ((buf.getD 2 0).val + 2 ^ 8 * (buf.getD 3 0).val
              + 2 ^ 16 * (buf.getD 4 0).val + 2 ^ 24 * (buf.getD 5 0).val))
            TIMESTAMP_TO_MILLISECONS) ∧
      (buf.getD 2 0).val + 2 ^ 8 * (buf.getD 3 0).val + 2 ^ 16 * (buf.getD 4 0).val
            + 2 ^ 24 * (buf.getD 5 0).val < 2 ^ 32 ∧
      to_double ((buf.getD 2 0).val + 2 ^ 8 * (buf.getD 3 0).val
          + 2 ^ 16 * (buf.getD 4 0).val + 2 ^ 24 * (buf.getD 5 0).val)
        = (((buf.getD 2 0).val + 2 ^ 8 * (buf.getD 3 0).val + 2 ^ 16 * (buf.getD 4 0).val
            + 2 ^ 24 * (buf.getD 5 0).val : Nat) : rs2_time_t) ∧
      |double_mul
          (to_double ((buf.getD 2 0).val + 2 ^ 8 * (buf.getD 3 0).val
            + 2 ^ 16 * (buf.getD 4 0).val + 2 ^ 24 * (buf.getD 5 0).val))
          TIMESTAMP_TO_MILLISECONS
        - (((buf.getD 2 0).val + 2 ^ 8 * (buf.getD 3 0).val + 2 ^ 16 * (buf.getD 4 0).val
            + 2 ^ 24 * (buf.getD 5 0).val : Nat) : rs2_time_t) / 1000|
        ≤ (((buf.getD 2 0).val + 2 ^ 8 * (buf.getD 3 0).val + 2 ^ 16 * (buf.getD 4 0).val
            + 2 ^ 24 * (buf.getD 5 0).val : Nat) : rs2_time_t) / 1000 / 2 ^ 52 ∧
      (ds5_timestamp_reader_from_metadata.get_frame_timestamp B s now mode fo).log = [] ∧
      (ds5_timestamp_reader_from_metadata.get_frame_timestamp B s now mode
        fo).self._backup_timestamp_reader = s._backup_timestamp_reader) ∧
    (ds5_timestamp_reader_from_metadata.get_frame_timestamp ds5_timestamp_reader.interface
        (ds5_timestamp_reader_from_metadata.construct ds5_timestamp_reader.construct)
        0 ⟨Z16⟩ frame_with_metadata).value = .ok (round_to_double (12345 / 1000)) := by
  constructor
  · intro σ B s now mode fo buf hlen hbuf h12 hpin
    have hdec : metadata.header_timestamp fo.metadata
        = .ok ((buf.getD 2 0).val + 2 ^ 8 * (buf.getD 3 0).val + 2 ^ 16 * (buf.getD 4 0).val
            + 2 ^ 24 * (buf.getD 5 0).val) := by
      rw [hbuf]
      exact read_le_four buf 2 (by omega)
    have hbound : (buf.getD 2 0).val + 2 ^ 8 * (buf.getD 3 0).val
        + 2 ^ 16 * (buf.getD 4 0).val + 2 ^ 24 * (buf.getD 5 0).val < 2 ^ 32 := by
      have h2 := (buf.getD 2 0).isLt
      have h3 := (buf.getD 3 0).isLt
      have h4 := (buf.getD 4 0).isLt
      have h5 := (buf.getD 5 0).isLt
      omega
    have h53 : (buf.getD 2 0).val + 2 ^ 8 * (buf.getD 3 0).val
        + 2 ^ 16 * (buf.getD 4 0).val + 2 ^ 24 * (buf.getD 5 0).val < 2 ^ 53 :=
      lt_trans hbound (by norm_num)
    by_cases hflag : s._has_metadata.getD (ds5_timestamp_reader_from_metadata.pin_index mode)
        false = true
    · rw [from_metadata_get_frame_timestamp_latched B s now mode fo hflag, hdec]
      exact ⟨rfl, hbound, to_double_exact _ h53, ticks_product_error_of_lt _ h53, rfl, rfl⟩
    · have hprobe := hpin.resolve_left hflag
      rw [from_metadata_get_frame_timestamp_probe_true B s now mode fo hlen
        (by simpa using hflag) hprobe, hdec]
      exact ⟨rfl, hbound, to_double_exact _ h53, ticks_product_error_of_lt _ h53, rfl, rfl⟩
  · have h : (ds5_timestamp_reader_from_metadata.get_frame_timestamp
        ds5_timestamp_reader.interface
        (ds5_timestamp_reader_from_metadata.construct ds5_timestamp_reader.construct)
        0 ⟨Z16⟩ frame_with_metadata).value
          = .ok (double_mul (to_double 12345) TIMESTAMP_TO_MILLISECONS) := rfl
    rw [h, ticks_product_12345, nearest_double_12345]

/-- C4, an instance: the frame with timestamp field 12345 on the Z16 pin of a
freshly constructed reader passes the probe and is decoded from octets 2 to 5. -/
theorem from_metadata_get_frame_timestamp_decodes_witness :
    (ds5_timestamp_reader_from_metadata.get_frame_timestamp ds5_timestamp_reader.interface
        (ds5_timestamp_reader_from_metadata.construct ds5_timestamp_reader.construct)
        0 ⟨Z16⟩ frame_with_metadata).value
      = .ok (double_mul
          (to_double ((57 : byte).val + 2 ^ 8 * (48 : byte).val + 2 ^ 16 * (0 : byte).val
            + 2 ^ 24 * (0 : byte).val))
          TIMESTAMP_TO_MILLISECONS) :=
  (from_metadata_get_frame_timestamp_decodes.1 ds5_timestamp_reader
    ds5_timestamp_reader.interface
    (ds5_timestamp_reader_from_metadata.construct ds5_timestamp_reader.construct)
    0 ⟨Z16⟩ frame_with_metadata _ rfl rfl (by decide) (Or.inr (by decide))).1

/-- C5: the frame counter of the metadata-backed reader.  The pin is 1 for the tag
`0x5a313620` and 0 for every other tag.  If the flag of that pin is set and the
metadata buffer holds at least 32 octets, `get_frame_counter` returns the
`frameCounter` field `c`, the two's complement value of the little-endian octets 28
to 31, converted to `unsigned long long` (which is `c` itself when `c ≥ 0`), and
leaves the whole reader, the fallback included, as it was.  If the flag is not
set it returns what the fallback's `get_frame_counter` returns for the same
arguments and keeps the fallback as that call left it; a free-running fallback has
then incremented its counter of that pin. -/
theorem from_metadata_get_frame_counter_spec {σ : Type} (B : frame_timestamp_reader σ)
    (s : ds5_timestamp_reader_from_metadata σ) (mode : request_mapping) (fo : frame_object) :
    (ds5_timestamp_reader_from_metadata.pin_index mode
        = if mode.fourcc = 0x5a313620 then 1 else 0) ∧
    (∀ buf : List byte,
      s._has_metadata.getD (ds5_timestamp_reader_from_metadata.pin_index mode) false = true →
      fo.metadata = some buf → 32 ≤ buf.length →
      ∃ c : Int,
        c = as_int32 ((buf.getD 28 0).val + 2 ^ 8 * (buf.getD 29 0).val
              + 2 ^ 16 * (buf.getD 30 0).val + 2 ^ 24 * (buf.getD 31 0).val) ∧
        -(2 ^ 31) ≤ c ∧ c < 2 ^ 31 ∧
        (ds5_timestamp_reader_from_metadata.get_frame_counter B s mode fo).value
          = .ok (to_unsigned_long_long c) ∧
        (0 ≤ c → ((to_unsigned_long_long c : Nat) : Int) = c) ∧
        (ds5_timestamp_reader_from_metadata.get_frame_counter B s mode fo).log = [] ∧
        (ds5_timestamp_reader_from_metadata.get_frame_counter B s mode fo).self = s) ∧
    (s._has_metadata.getD (ds5_timestamp_reader_from_metadata.pin_index mode) false = false →
      (ds5_timestamp_reader_from_metadata.get_frame_counter B s mode fo).value
        = (B.get_frame_counter s._backup_timestamp_reader mode fo).value ∧
      (ds5_timestamp_reader_from_metadata.get_frame_counter B s mode
        fo).self._backup_timestamp_reader
        = (B.get_frame_counter s._backup_timestamp_reader mode fo).self) ∧
    (∀ r : ds5_timestamp_reader,
      (ds5_timestamp_reader.interface.get_frame_counter r mode fo).self.counter
        = r.counter.set (ds5_timestamp_reader_from_metadata.pin_index mode)
            (wrap_int64 (r.counter.getD (ds5_timestamp_reader_from_metadata.pin_index mode) 0
              + 1))) := by
  refine ⟨rfl, ?_, ?_, fun _ => rfl⟩
  · intro buf hflag hbuf h32
    have hdec : metadata.frameCounter fo.metadata
        = .ok (as_int32 ((buf.getD 28 0).val + 2 ^ 8 * (buf.getD 29 0).val
              + 2 ^ 16 * (buf.getD 30 0).val + 2 ^ 24 * (buf.getD 31 0).val)) := by
      unfold metadata.frameCounter
      rw [hbuf]
      have := read_le_four buf 28 (by omega)
      simp only [uvc_header.sizeof, metadata_capture_timing.frameCounter_offset,
        metadata_header.sizeof]
      rw [this]
    have h28 := (buf.getD 28 0).isLt
    have h29 := (buf.getD 29 0).isLt
    have h30 := (buf.getD 30 0).isLt
    have h31 := (buf.getD 31 0).isLt
    refine ⟨_, rfl, ?_, ?_, ?_, ?_, ?_, ?_⟩
    · unfold as_int32; split <;> omega
    · unfold as_int32; split <;> omega
    · unfold ds5_timestamp_reader_from_metadata.get_frame_counter
      rw [if_pos hflag, hdec]
    · intro hc
      unfold to_unsigned_long_long
      have hlt : as_int32 ((buf.getD 28 0).val + 2 ^ 8 * (buf.getD 29 0).val
              + 2 ^ 16 * (buf.getD 30 0).val + 2 ^ 24 * (buf.getD 31 0).val) < 2 ^ 64 := by
        unfold as_int32; split <;> omega
      rw [Int.emod_eq_of_lt hc hlt]
      exact Int.toNat_of_nonneg hc
    · unfold ds5_timestamp_reader_from_metadata.get_frame_counter
      rw [if_pos hflag, hdec]
    · unfold ds5_timestamp_reader_from_metadata.get_frame_counter
      rw [if_pos hflag, hdec]
  · intro hflag
    unfold ds5_timestamp_reader_from_metadata.get_frame_counter
    simp only [hflag, Bool.false_eq_true, if_false, and_self]

/-- C5, an instance: on the Z16 pin latched by the sample frame the counter field 7
is returned; on a freshly constructed reader the free-running fallback answers. -/
theorem from_metadata_get_frame_counter_spec_witness :
    (∃ c : Int, c = 7 ∧
      (ds5_timestamp_reader_from_metadata.get_frame_counter ds5_timestamp_reader.interface
        (ds5_timestamp_reader_from_metadata.get_frame_timestamp ds5_timestamp_reader.interface
          (ds5_timestamp_reader_from_metadata.construct ds5_timestamp_reader.construct)
          0 ⟨Z16⟩ frame_with_metadata).self ⟨Z16⟩ frame_with_metadata).value
        = .ok (to_unsigned_long_long c)) ∧
    (ds5_timestamp_reader_from_metadata.get_frame_counter ds5_timestamp_reader.interface
        (ds5_timestamp_reader_from_metadata.construct ds5_timestamp_reader.construct)
        ⟨0⟩ frame_without_metadata).value
      = (ds5_timestamp_reader.interface.get_frame_counter ds5_timestamp_reader.construct
          ⟨0⟩ frame_without_metadata).value :=
  ⟨match (from_metadata_get_frame_counter_spec ds5_timestamp_reader.interface
      (ds5_timestamp_reader_from_metadata.get_frame_timestamp ds5_timestamp_reader.interface
        (ds5_timestamp_reader_from_metadata.construct ds5_timestamp_reader.construct)
        0 ⟨Z16⟩ frame_with_metadata).self ⟨Z16⟩ frame_with_metadata).2.1 _ rfl rfl
      (by decide) with
    | ⟨c, hc, _, _, hv, _⟩ => ⟨c, hc.trans (by decide), hv⟩,
   ((from_metadata_get_frame_counter_spec ds5_timestamp_reader.interface
      (ds5_timestamp_reader_from_metadata.construct ds5_timestamp_reader.construct)
      ⟨0⟩ frame_without_metadata).2.2.1 rfl).1⟩

/-! ## Counters -/

/-- Storing twice in an `int64_t` on the way to an increment is storing once. -/
theorem wrap_int64_succ (a : Int) : wrap_int64 (wrap_int64 a + 1) = wrap_int64 (a + 1) := by
  unfold wrap_int64
  omega

/-- A value in the range of `int64_t` is stored as it is. -/
theorem wrap_int64_of_range (a : Int) (h0 : -(2 ^ 63) ≤ a) (h1 : a < 2 ^ 63) :
    wrap_int64 a = a := by
  unfold wrap_int64
  omega

/-- A count below `2 ^ 63` is returned as it is. -/
theorem to_unsigned_long_long_wrap_int64 (k : Nat) (h : k < 2 ^ 63) :
    to_unsigned_long_long (wrap_int64 (k : Int)) = k := by
  rw [wrap_int64_of_range _ (by omega) (by omega)]
  unfold to_unsigned_long_long
  omega

/-- Counters along a run.  Let `cnt` read the counter vector of a reader whose
`get_frame_counter` increments the slot `pin_of mode` and whose other calls, bar
`reset`, leave the vector alone.  Over a sequence of calls without `reset` the
vector keeps its length and slot `p` advances by the number of `get_frame_counter`
calls that were sent to pin `p`. -/
theorem counter_after_run {σ : Type} (R : frame_timestamp_reader σ) (cnt : σ → List Int)
    (pin_of : request_mapping → Nat)
    (hcounter : ∀ s mode fo, cnt (R.get_frame_counter s mode fo).self
      = (cnt s).set (pin_of mode) (wrap_int64 ((cnt s).getD (pin_of mode) 0 + 1)))
    (htimestamp : ∀ s now mode fo, cnt (R.get_frame_timestamp s now mode fo).self = cnt s)
    (hdomain : ∀ s mode fo, cnt (R.get_frame_timestamp_domain s mode fo).self = cnt s)
    (p : Nat) (calls : List reader_call) (hcalls : ∀ c ∈ calls, c.is_reset = false) :
    ∀ (s : σ) (z : Int), p < (cnt s).length → (cnt s).getD p 0 = wrap_int64 z →
      (cnt (R.run s calls)).length = (cnt s).length ∧
      (cnt (R.run s calls)).getD p 0 = wrap_int64 (z + calls_on_pin pin_of p calls) := by
  induction calls with
  | nil =>
    intro s z _ hz
    exact ⟨rfl, by simpa [calls_on_pin] using hz⟩
  | cons c calls ih =>
    intro s z hp hz
    have hc : c.is_reset = false := hcalls c (List.mem_cons_self _ _)
    have hrest : ∀ d ∈ calls, d.is_reset = false := fun d hd =>
      hcalls d (List.mem_cons_of_mem _ hd)
    have hrun : R.run s (c :: calls) = R.run (R.after s c) calls := rfl
    rw [hrun]
    cases c with
    | reset => simp [reader_call.is_reset] at hc
    | get_frame_timestamp now mode fo =>
      have hs : cnt (R.after s (.get_frame_timestamp now mode fo)) = cnt s := htimestamp _ _ _ _
      have := ih hrest (R.after s (.get_frame_timestamp now mode fo)) z (by rw [hs]; exact hp)
        (by rw [hs]; exact hz)
      rw [hs] at this
      simpa [calls_on_pin] using this
    | get_frame_timestamp_domain mode fo =>
      have hs : cnt (R.after s (.get_frame_timestamp_domain mode fo)) = cnt s := hdomain _ _ _
      have := ih hrest (R.after s (.get_frame_timestamp_domain mode fo)) z (by rw [hs]; exact hp)
        (by rw [hs]; exact hz)
      rw [hs] at this
      simpa [calls_on_pin] using this
    | get_frame_counter mode fo =>
      have hs : cnt (R.after s (.get_frame_counter mode fo))
          = (cnt s).set (pin_of mode) (wrap_int64 ((cnt s).getD (pin_of mode) 0 + 1)) :=
        hcounter _ _ _
      have hlen : (cnt (R.after s (.get_frame_counter mode fo))).length = (cnt s).length := by
        rw [hs, List.length_set]
      by_cases hpin : pin_of mode = p
      · have hz' : (cnt (R.after s (.get_frame_counter mode fo))).getD p 0
            = wrap_int64 (z + 1) := by
          rw [hs, hpin, getD_set_self_of_lt _ _ _ _ hp, hz, wrap_int64_succ]
        have := ih hrest _ (z + 1) (by rw [hlen]; exact hp) hz'
        rw [hlen] at this
        refine ⟨this.1, ?_⟩
        rw [this.2]
        simp only [calls_on_pin, hpin, if_true]
        congr 1
        push_cast
        ring
      · have hz' : (cnt (R.after s (.get_frame_counter mode fo))).getD p 0 = wrap_int64 z := by
          rw [hs, List.getD_eq_getElem?_getD, List.getElem?_set_ne hpin,
            ← List.getD_eq_getElem?_getD, hz]
        have := ih hrest _ z (by rw [hlen]; exact hp) hz'
        rw [hlen] at this
        refine ⟨this.1, ?_⟩
        rw [this.2]
        simp only [calls_on_pin, hpin, if_false]
        congr 1
        push_cast
        ring

/-- The pin index of the free-running reader is 0 or 1. -/
theorem free_running_pin_index_lt (mode : request_mapping) :
    ds5_timestamp_reader.pin_index mode < 2 := by
  unfold ds5_timestamp_reader.pin_index
  split <;> omega

/-- The slot index of the HID motion reader is 0 or 1. -/
theorem iio_hid_index_lt (mode : request_mapping) :
    ds5_iio_hid_timestamp_reader.index mode < 2 := by
  unfold ds5_iio_hid_timestamp_reader.index
  split <;> omega

/-- The counter vector of the HID motion reader after `get_frame_timestamp`. -/
theorem iio_hid_get_frame_timestamp_counter (s : ds5_iio_hid_timestamp_reader)
    (now : rs2_time_t) (mode : request_mapping) (fo : frame_object) :
    (ds5_iio_hid_timestamp_reader.get_frame_timestamp s now mode fo).self.counter
      = s.counter := by
  unfold ds5_iio_hid_timestamp_reader.get_frame_timestamp
  split
  · split <;> rfl
  · simp only []
    split <;> rfl

/-- The HID motion reader after `get_frame_timestamp_domain`. -/
theorem iio_hid_get_frame_timestamp_domain_self (s : ds5_iio_hid_timestamp_reader)
    (mode : request_mapping) (fo : frame_object) :
    (ds5_iio_hid_timestamp_reader.get_frame_timestamp_domain s mode fo).self = s := by
  unfold ds5_iio_hid_timestamp_reader.get_frame_timestamp_domain
  split <;> rfl

/-- C6: per-pin counters of the free-running reader and of the HID motion reader.
The pin is 1 for the tag `0x5a313620` (free-running) or `'GYRO'` (HID motion) and 0
for every other tag.  After construction and any sequence of calls without
`reset` that holds `k - 1` calls of `get_frame_counter` for the pin of `mode`, the
next `get_frame_counter` for `mode` returns `k` (for `k` in the range of the
`int64_t` slot).  A `get_frame_counter` call leaves the slots of other pins as
they are, and `get_frame_timestamp` and `get_frame_timestamp_domain` leave every
slot as it is. -/
theorem per_pin_counters (calls : List reader_call) (mode : request_mapping)
    (fo : frame_object) (hcalls : ∀ c ∈ calls, c.is_reset = false) :
    ((ds5_timestamp_reader.pin_index mode = if mode.fourcc = 0x5a313620 then 1 else 0) ∧
      (calls_on_pin ds5_timestamp_reader.pin_index (ds5_timestamp_reader.pin_index mode) calls
          + 1 < 2 ^ 63 →
        (ds5_timestamp_reader.get_frame_counter
          (ds5_timestamp_reader.interface.run ds5_timestamp_reader.construct calls)
          mode fo).value
        = .ok (calls_on_pin ds5_timestamp_reader.pin_index
            (ds5_timestamp_reader.pin_index mode) calls + 1)) ∧
      (∀ (s : ds5_timestamp_reader) (p : Nat), p ≠ ds5_timestamp_reader.pin_index mode →
        (ds5_timestamp_reader.get_frame_counter s mode fo).self.counter.getD p 0
          = s.counter.getD p 0) ∧
      (∀ (s : ds5_timestamp_reader) (now : rs2_time_t),
        (ds5_timestamp_reader.get_frame_timestamp s now mode fo).self = s ∧
        (ds5_timestamp_reader.get_frame_timestamp_domain s mode fo).self = s)) ∧
    ((ds5_iio_hid_timestamp_reader.index mode = if mode.fourcc = 0x4759524f then 1 else 0) ∧
      (calls_on_pin ds5_iio_hid_timestamp_reader.index
          (ds5_iio_hid_timestamp_reader.index mode) calls + 1 < 2 ^ 63 →
        (ds5_iio_hid_timestamp_reader.get_frame_counter
          (ds5_iio_hid_timestamp_reader.interface.run ds5_iio_hid_timestamp_reader.construct
            calls) mode fo).value
        = .ok (calls_on_pin ds5_iio_hid_timestamp_reader.index
            (ds5_iio_hid_timestamp_reader.index mode) calls + 1)) ∧
      (∀ (s : ds5_iio_hid_timestamp_reader) (p : Nat),
        p ≠ ds5_iio_hid_timestamp_reader.index mode →
        (ds5_iio_hid_timestamp_reader.get_frame_counter s mode fo).self.counter.getD p 0
          = s.counter.getD p 0) ∧
      (∀ (s : ds5_iio_hid_timestamp_reader) (now : rs2_time_t),
        (ds5_iio_hid_timestamp_reader.get_frame_timestamp s now mode fo).self.counter
          = s.counter ∧
        (ds5_iio_hid_timestamp_reader.get_frame_timestamp_domain s mode fo).self.counter
          = s.counter)) := by
  refine ⟨⟨rfl, ?_, ?_, fun _ _ => ⟨rfl, rfl⟩⟩, ⟨rfl, ?_, ?_, ?_⟩⟩
  · intro hk
    have hrun := (counter_after_run ds5_timestamp_reader.interface (fun s => s.counter)
      ds5_timestamp_reader.pin_index (fun _ _ _ => rfl) (fun _ _ _ _ => rfl)
      (fun _ _ _ => rfl) (ds5_timestamp_reader.pin_index mode) calls hcalls
      ds5_timestamp_reader.construct 0 (free_running_pin_index_lt mode)
      (by
        have h := free_running_pin_index_lt mode
        have h01 : ds5_timestamp_reader.pin_index mode = 0
            ∨ ds5_timestamp_reader.pin_index mode = 1 := by omega
        rcases h01 with h0 | h1
        · rw [h0]; rfl
        · rw [h1]; rfl)).2
    unfold ds5_timestamp_reader.get_frame_counter
    simp only []
    rw [hrun, wrap_int64_succ]
    have := to_unsigned_long_long_wrap_int64
      (calls_on_pin ds5_timestamp_reader.pin_index (ds5_timestamp_reader.pin_index mode) calls
        + 1) hk
    push_cast at this
    rw [zero_add, this]
  · intro s p hp
    unfold ds5_timestamp_reader.get_frame_counter
    simp only []
    rw [List.getD_eq_getElem?_getD, List.getElem?_set_ne (Ne.symm hp),
      ← List.getD_eq_getElem?_getD]
  · intro hk
    have hrun := (counter_after_run ds5_iio_hid_timestamp_reader.interface (fun s => s.counter)
      ds5_iio_hid_timestamp_reader.index (fun _ _ _ => rfl)
      (fun s now mode fo => iio_hid_get_frame_timestamp_counter s now mode fo)
      (fun s mode fo => by
        show (ds5_iio_hid_timestamp_reader.get_frame_timestamp_domain s mode fo).self.counter
          = s.counter
        rw [iio_hid_get_frame_timestamp_domain_self])
      (ds5_iio_hid_timestamp_reader.index mode) calls hcalls
      ds5_iio_hid_timestamp_reader.construct 0 (iio_hid_index_lt mode)
      (by
        have h := iio_hid_index_lt mode
        have h01 : ds5_iio_hid_timestamp_reader.index mode = 0
            ∨ ds5_iio_hid_timestamp_reader.index mode = 1 := by omega
        rcases h01 with h0 | h1
        · rw [h0]; rfl
        · rw [h1]; rfl)).2
    unfold ds5_iio_hid_timestamp_reader.get_frame_counter
    simp only []
    rw [hrun, wrap_int64_succ]
    have := to_unsigned_long_long_wrap_int64
      (calls_on_pin ds5_iio_hid_timestamp_reader.index
        (ds5_iio_hid_timestamp_reader.index mode) calls + 1) hk
    push_cast at this
    rw [zero_add, this]
  · intro s p hp
    unfold ds5_iio_hid_timestamp_reader.get_frame_counter
    simp only []
    rw [List.getD_eq_getElem?_getD, List.getElem?_set_ne (Ne.symm hp),
      ← List.getD_eq_getElem?_getD]
  · intro s now
    exact ⟨iio_hid_get_frame_timestamp_counter s now mode fo,
      by rw [iio_hid_get_frame_timestamp_domain_self]⟩

/-- C6, an instance: after two counter queries on the Z16 pin, one on pin 0 and a
timestamp query, the next counter query on the Z16 pin of a free-running reader
returns 3; after one counter query on the `'GYRO'` slot of a HID motion reader the
next one returns 2. -/
theorem per_pin_counters_witness :
    (ds5_timestamp_reader.get_frame_counter
      (ds5_timestamp_reader.interface.run ds5_timestamp_reader.construct
        [.get_frame_counter ⟨Z16⟩ frame_without_metadata,
         .get_frame_timestamp 3 ⟨Z16⟩ frame_without_metadata,
         .get_frame_counter ⟨0⟩ frame_without_metadata,
         .get_frame_counter ⟨Z16⟩ frame_with_metadata])
      ⟨Z16⟩ frame_without_metadata).value = .ok 3 ∧
    (ds5_iio_hid_timestamp_reader.get_frame_counter
      (ds5_iio_hid_timestamp_reader.interface.run ds5_iio_hid_timestamp_reader.construct
        [.get_frame_counter ⟨GYRO⟩ frame_without_metadata])
      ⟨GYRO⟩ frame_without_metadata).value = .ok 2 :=
  ⟨(per_pin_counters
      [.get_frame_counter ⟨Z16⟩ frame_without_metadata,
       .get_frame_timestamp 3 ⟨Z16⟩ frame_without_metadata,
       .get_frame_counter ⟨0⟩ frame_without_metadata,
       .get_frame_counter ⟨Z16⟩ frame_with_metadata]
      ⟨Z16⟩ frame_without_metadata
      (by intro c hc; simp at hc; rcases hc with rfl | rfl | rfl | rfl <;> rfl)).1.2.1
      (by decide),
   (per_pin_counters [.get_frame_counter ⟨GYRO⟩ frame_without_metadata]
      ⟨GYRO⟩ frame_without_metadata
      (by intro c hc; simp at hc; rcases hc with rfl; rfl)).2.2.1 (by decide)⟩

/-! ## `reset` -/

/-- Writing into slots does not change the length of a vector. -/
theorem foldl_set_length {α : Type} (x : α) (l : List Nat) :
    ∀ v : List α, (l.foldl (fun w i => w.set i x) v).length = v.length := by
  induction l with
  | nil => intro v; rfl
  | cons i l ih =>
    intro v
    rw [List.foldl_cons, ih, List.length_set]

/-- The loop of `reset` keeps the length of the vector. -/
theorem fill_first_length {α : Type} (n : Nat) (x : α) (v : List α) :
    (fill_first n x v).length = v.length :=
  foldl_set_length x (List.range n) v

/-- The loop of `reset` over a vector of two slots. -/
theorem fill_first_two {α : Type} (x : α) (v : List α) (h : v.length = 2) :
    fill_first 2 x v = [x, x] := by
  match v, h with
  | [_, _], _ => rfl

/-- The loop of `reset` over a vector of four slots. -/
theorem fill_first_four {α : Type} (x : α) (v : List α) (h : v.length = 4) :
    fill_first 4 x v = [x, x, x, x] := by
  match v, h with
  | [_, _, _, _], _ => rfl

/-- A quantity that every call preserves is the same after a run as before it. -/
theorem run_preserves {σ β : Type} (R : frame_timestamp_reader σ) (f : σ → β)
    (h : ∀ s c, f (R.after s c) = f s) (calls : List reader_call) :
    ∀ s, f (R.run s calls) = f s := by
  induction calls with
  | nil => intro s; rfl
  | cons c calls ih =>
    intro s
    have hrun : R.run s (c :: calls) = R.run (R.after s c) calls := rfl
    rw [hrun, ih, h]

/-- The counter vector of a free-running reader has two slots at all times. -/
theorem free_running_counter_length (calls : List reader_call) :
    (ds5_timestamp_reader.interface.run ds5_timestamp_reader.construct calls).counter.length
      = 2 := by
  rw [run_preserves ds5_timestamp_reader.interface (fun s => s.counter.length)]
  · rfl
  · intro s c
    cases c with
    | reset => exact fill_first_length _ _ _
    | get_frame_timestamp now mode fo => rfl
    | get_frame_timestamp_domain mode fo => rfl
    | get_frame_counter mode fo => exact List.length_set _ _ _

/-- The counter vector of a HID motion reader has two slots at all times. -/
theorem iio_hid_counter_length (calls : List reader_call) :
    (ds5_iio_hid_timestamp_reader.interface.run ds5_iio_hid_timestamp_reader.construct
      calls).counter.length = 2 := by
  rw [run_preserves ds5_iio_hid_timestamp_reader.interface (fun s => s.counter.length)]
  · rfl
  · intro s c
    cases c with
    | reset => exact fill_first_length _ _ _
    | get_frame_timestamp now mode fo =>
      exact congrArg List.length (iio_hid_get_frame_timestamp_counter s now mode fo)
    | get_frame_timestamp_domain mode fo =>
      exact congrArg (fun t : ds5_iio_hid_timestamp_reader => t.counter.length)
        (iio_hid_get_frame_timestamp_domain_self s mode fo)
    | get_frame_counter mode fo => exact List.length_set _ _ _

/-- The custom-HID reader after `get_frame_timestamp`. -/
theorem custom_hid_get_frame_timestamp_self (s : ds5_custom_hid_timestamp_reader)
    (now : rs2_time_t) (mode : request_mapping) (fo : frame_object) :
    (ds5_custom_hid_timestamp_reader.get_frame_timestamp s now mode fo).self = s := by
  unfold ds5_custom_hid_timestamp_reader.get_frame_timestamp
  split <;> rfl

/-- The counter vector of a custom-HID reader has four slots at all times. -/
theorem custom_hid_counter_length (calls : List reader_call) :
    (ds5_custom_hid_timestamp_reader.interface.run ds5_custom_hid_timestamp_reader.construct
      calls).counter.length = 4 := by
  rw [run_preserves ds5_custom_hid_timestamp_reader.interface (fun s => s.counter.length)]
  · rfl
  · intro s c
    cases c with
    | reset => exact fill_first_length _ _ _
    | get_frame_timestamp now mode fo =>
      exact congrArg (fun t : ds5_custom_hid_timestamp_reader => t.counter.length)
        (custom_hid_get_frame_timestamp_self s now mode fo)
    | get_frame_timestamp_domain mode fo => rfl
    | get_frame_counter mode fo => exact List.length_set _ _ _

/-- C7: `reset` restores the initial counter state of the free-running, HID motion
and custom-HID readers.  Whatever calls were made since construction, after
`reset` the reader equals a freshly constructed one: every counter slot is 0 (and
the warn-once flag of the HID motion reader is false), so the next
`get_frame_counter` returns 1 for every routing descriptor and frame. -/
theorem reset_restores_initial_state (calls : List reader_call) (mode : request_mapping)
    (fo : frame_object) :
    (ds5_timestamp_reader.reset
        (ds5_timestamp_reader.interface.run ds5_timestamp_reader.construct calls)
        = ds5_timestamp_reader.construct ∧
      ds5_timestamp_reader.construct.counter = [0, 0] ∧
      (ds5_timestamp_reader.get_frame_counter
        (ds5_timestamp_reader.reset
          (ds5_timestamp_reader.interface.run ds5_timestamp_reader.construct calls))
        mode fo).value = .ok 1) ∧
    (ds5_iio_hid_timestamp_reader.reset
        (ds5_iio_hid_timestamp_reader.interface.run ds5_iio_hid_timestamp_reader.construct calls)
        = ds5_iio_hid_timestamp_reader.construct ∧
      ds5_iio_hid_timestamp_reader.construct.counter = [0, 0] ∧
      ds5_iio_hid_timestamp_reader.construct.started = false ∧
      (ds5_iio_hid_timestamp_reader.get_frame_counter
        (ds5_iio_hid_timestamp_reader.reset
          (ds5_iio_hid_timestamp_reader.interface.run ds5_iio_hid_timestamp_reader.construct
            calls)) mode fo).value = .ok 1) ∧
    (ds5_custom_hid_timestamp_reader.reset
        (ds5_custom_hid_timestamp_reader.interface.run
          ds5_custom_hid_timestamp_reader.construct calls)
        = ds5_custom_hid_timestamp_reader.construct ∧
      ds5_custom_hid_timestamp_reader.construct.counter = [0, 0, 0, 0] ∧
      (ds5_custom_hid_timestamp_reader.get_frame_counter
        (ds5_custom_hid_timestamp_reader.reset
          (ds5_custom_hid_timestamp_reader.interface.run
            ds5_custom_hid_timestamp_reader.construct calls)) mode fo).value = .ok 1) := by
  have hfree : ds5_timestamp_reader.reset
      (ds5_timestamp_reader.interface.run ds5_timestamp_reader.construct calls)
      = ds5_timestamp_reader.construct := by
    unfold ds5_timestamp_reader.reset
    have h := fill_first_two (0 : Int) _ (free_running_counter_length calls)
    simp only [ds5_timestamp_reader.pins, h]
    rfl
  have hhid : ds5_iio_hid_timestamp_reader.reset
      (ds5_iio_hid_timestamp_reader.interface.run ds5_iio_hid_timestamp_reader.construct calls)
      = ds5_iio_hid_timestamp_reader.construct := by
    unfold ds5_iio_hid_timestamp_reader.reset
    have h := fill_first_two (0 : Int) _ (iio_hid_counter_length calls)
    simp only [ds5_iio_hid_timestamp_reader.sensors, h]
    rfl
  have hcustom : ds5_custom_hid_timestamp_reader.reset
      (ds5_custom_hid_timestamp_reader.interface.run
        ds5_custom_hid_timestamp_reader.construct calls)
      = ds5_custom_hid_timestamp_reader.construct := by
    unfold ds5_custom_hid_timestamp_reader.reset
    have h := fill_first_four (0 : Int) _ (custom_hid_counter_length calls)
    simp only [ds5_custom_hid_timestamp_reader.sensors, h]
    rfl
  refine ⟨⟨hfree, rfl, ?_⟩, ⟨hhid, rfl, rfl, ?_⟩, ⟨hcustom, rfl, ?_⟩⟩
  · rw [hfree]
    have h := free_running_pin_index_lt mode
    have h01 : ds5_timestamp_reader.pin_index mode = 0
        ∨ ds5_timestamp_reader.pin_index mode = 1 := by omega
    unfold ds5_timestamp_reader.get_frame_counter
    rcases h01 with h0 | h1
    · rw [h0]; rfl
    · rw [h1]; rfl
  · rw [hhid]
    have h := iio_hid_index_lt mode
    have h01 : ds5_iio_hid_timestamp_reader.index mode = 0
        ∨ ds5_iio_hid_timestamp_reader.index mode = 1 := by omega
    unfold ds5_iio_hid_timestamp_reader.get_frame_counter
    rcases h01 with h0 | h1
    · rw [h0]; rfl
    · rw [h1]; rfl
  · rw [hcustom]
    rfl

/-- C8 at its failing input: `reset` of the metadata-backed reader does not reach
the fallback reader it owns.  On a reader over a free-running fallback, with frames
that carry no metadata, `get_frame_counter` on pin 0 returns 1; after `reset` the
next `get_frame_counter` on pin 0 returns 2, not 1.  In general `reset` leaves the
fallback reader as it was. -/
theorem from_metadata_reset_keeps_fallback_counter :
    (ds5_timestamp_reader_from_metadata.get_frame_counter ds5_timestamp_reader.interface
        (ds5_timestamp_reader_from_metadata.construct ds5_timestamp_reader.construct)
        ⟨0⟩ frame_without_metadata).value = .ok 1 ∧
    (ds5_timestamp_reader_from_metadata.get_frame_counter ds5_timestamp_reader.interface
        (ds5_timestamp_reader_from_metadata.reset
          (ds5_timestamp_reader_from_metadata.get_frame_counter ds5_timestamp_reader.interface
            (ds5_timestamp_reader_from_metadata.construct ds5_timestamp_reader.construct)
            ⟨0⟩ frame_without_metadata).self)
        ⟨0⟩ frame_without_metadata).value = .ok 2 ∧
    (∀ (σ : Type) (s : ds5_timestamp_reader_from_metadata σ),
      (ds5_timestamp_reader_from_metadata.reset s)._backup_timestamp_reader
        = s._backup_timestamp_reader) :=
  ⟨rfl, rfl, fun _ _ => rfl⟩

/-- C9: `reset` of the metadata-backed reader re-arms the probe.  For a reader whose
flag vector has its declared length, after `reset` both flags and the warn-once
flag are false, whatever they were.  So `get_frame_timestamp_domain` answers with
the fallback's domain for every pin; the next `get_frame_timestamp` stores the
probe's answer for its frame in the flag of its pin; and a frame that fails the
probe is handed to the fallback reader with the warning logged again. -/
theorem from_metadata_reset_rearms {σ : Type} (B : frame_timestamp_reader σ)
    (s : ds5_timestamp_reader_from_metadata σ)
    (hlen : s._has_metadata.length = ds5_timestamp_reader_from_metadata.pins) :
    (ds5_timestamp_reader_from_metadata.reset s)._has_metadata = [false, false] ∧
    (ds5_timestamp_reader_from_metadata.reset s).started = false ∧
    (∀ mode fo,
      (ds5_timestamp_reader_from_metadata.get_frame_timestamp_domain B
          (ds5_timestamp_reader_from_metadata.reset s) mode fo).value
        = (B.get_frame_timestamp_domain s._backup_timestamp_reader mode fo).value) ∧
    (∀ now mode fo b,
      ds5_timestamp_reader_from_metadata.has_metadata mode fo.metadata fo.metadata_size
        = .ok b →
      (ds5_timestamp_reader_from_metadata.get_frame_timestamp B
          (ds5_timestamp_reader_from_metadata.reset s) now mode fo).self._has_metadata
        = [false, false].set (ds5_timestamp_reader_from_metadata.pin_index mode) b) ∧
    (∀ now mode fo,
      ds5_timestamp_reader_from_metadata.has_metadata mode fo.metadata fo.metadata_size
        = .ok false →
      (ds5_timestamp_reader_from_metadata.get_frame_timestamp B
          (ds5_timestamp_reader_from_metadata.reset s) now mode fo).value
        = (B.get_frame_timestamp s._backup_timestamp_reader now mode fo).value ∧
      (ds5_timestamp_reader_from_metadata.get_frame_timestamp B
          (ds5_timestamp_reader_from_metadata.reset s) now mode fo).log
        = "UVC timestamp not found! please apply UVC metadata patch." ::
          (B.get_frame_timestamp s._backup_timestamp_reader now mode fo).log) := by
  have hflags : (ds5_timestamp_reader_from_metadata.reset s)._has_metadata = [false, false] :=
    fill_first_two false _ hlen
  have hpin : ∀ mode : request_mapping,
      (ds5_timestamp_reader_from_metadata.reset s)._has_metadata.getD
        (ds5_timestamp_reader_from_metadata.pin_index mode) false = false := by
    intro mode
    rw [hflags]
    have h := from_metadata_pin_index_lt mode
    have h01 : ds5_timestamp_reader_from_metadata.pin_index mode = 0
        ∨ ds5_timestamp_reader_from_metadata.pin_index mode = 1 := by omega
    rcases h01 with h0 | h1
    · rw [h0]; rfl
    · rw [h1]; rfl
  refine ⟨hflags, rfl, ?_, ?_, ?_⟩
  · intro mode fo
    unfold ds5_timestamp_reader_from_metadata.get_frame_timestamp_domain
    rw [if_neg (by rw [hpin mode]; exact Bool.false_ne_true)]
    rfl
  · intro now mode fo b hprobe
    rw [from_metadata_get_frame_timestamp_flags, if_neg (by rw [hpin mode]; exact Bool.false_ne_true),
      hprobe, hflags]
  · intro now mode fo hprobe
    rw [from_metadata_get_frame_timestamp_probe_false B _ now mode fo (hpin mode) hprobe]
    exact ⟨rfl, rfl⟩

/-- C9, an instance: a reader over a free-running fallback whose Z16 pin was latched
and whose warning was logged; after `reset` the flags are clear and a frame without
metadata on the Z16 pin gets the fallback's host clock reading, with the warning. -/
theorem from_metadata_reset_rearms_witness :
    (ds5_timestamp_reader_from_metadata.reset
      ({ _backup_timestamp_reader := ds5_timestamp_reader.construct,
         _has_metadata := [false, true], started := true } :
        ds5_timestamp_reader_from_metadata ds5_timestamp_reader))._has_metadata
      = [false, false] ∧
    (ds5_timestamp_reader_from_metadata.get_frame_timestamp ds5_timestamp_reader.interface
      (ds5_timestamp_reader_from_metadata.reset
        { _backup_timestamp_reader := ds5_timestamp_reader.construct,
          _has_metadata := [false, true], started := true })
      9 ⟨Z16⟩ frame_without_metadata).log
      = ["UVC timestamp not found! please apply UVC metadata patch."] :=
  ⟨(from_metadata_reset_rearms ds5_timestamp_reader.interface
      { _backup_timestamp_reader := ds5_timestamp_reader.construct,
        _has_metadata := [false, true], started := true } rfl).1,
   ((from_metadata_reset_rearms ds5_timestamp_reader.interface
      { _backup_timestamp_reader := ds5_timestamp_reader.construct,
        _has_metadata := [false, true], started := true } rfl).2.2.2.2
      9 ⟨Z16⟩ frame_without_metadata (by decide)).2⟩

/-! ## The domain query and the time source -/

/-- The two ways out of `get_frame_timestamp`, for a reader with its two flags and a
frame on a pin that is latched or whose probe returns.  Either the flag of the pin
is set after the call, the value is the decoding of the frame's header (or the
fault of that read), nothing is logged and the fallback was not called; or the
flag was not set before and is not set after the call, the probe returned `false`,
and the value is the fallback's. -/
theorem from_metadata_get_frame_timestamp_cases {σ : Type} (B : frame_timestamp_reader σ)
    (s : ds5_timestamp_reader_from_metadata σ) (now : rs2_time_t) (mode : request_mapping)
    (fo : frame_object)
    (hlen : s._has_metadata.length = ds5_timestamp_reader_from_metadata.pins)
    (hprobe : s._has_metadata.getD (ds5_timestamp_reader_from_metadata.pin_index mode) false
        = true ∨
      ∃ b, ds5_timestamp_reader_from_metadata.has_metadata mode fo.metadata fo.metadata_size
        = .ok b) :
    (((ds5_timestamp_reader_from_metadata.get_frame_timestamp B s now mode
          fo).self._has_metadata).getD (ds5_timestamp_reader_from_metadata.pin_index mode) false
        = true ∧
      (ds5_timestamp_reader_from_metadata.get_frame_timestamp B s now mode fo).value
        = Except.map (fun t : Nat => double_mul (to_double t) TIMESTAMP_TO_MILLISECONS)
            (metadata.header_timestamp fo.metadata) ∧
      (ds5_timestamp_reader_from_metadata.get_frame_timestamp B s now mode fo).log = [] ∧
      (ds5_timestamp_reader_from_metadata.get_frame_timestamp B s now mode
        fo).self._backup_timestamp_reader = s._backup_timestamp_reader) ∨
    (((ds5_timestamp_reader_from_metadata.get_frame_timestamp B s now mode
          fo).self._has_metadata).getD (ds5_timestamp_reader_from_metadata.pin_index mode) false
        = false ∧
      s._has_metadata.getD (ds5_timestamp_reader_from_metadata.pin_index mode) false = false ∧
      ds5_timestamp_reader_from_metadata.has_metadata mode fo.metadata fo.metadata_size
        = .ok false ∧
      (ds5_timestamp_reader_from_metadata.get_frame_timestamp B s now mode fo).value
        = (B.get_frame_timestamp s._backup_timestamp_reader now mode fo).value ∧
      (ds5_timestamp_reader_from_metadata.get_frame_timestamp B s now mode
        fo).self._backup_timestamp_reader
        = (B.get_frame_timestamp s._backup_timestamp_reader now mode fo).self) := by
  by_cases hflag : s._has_metadata.getD (ds5_timestamp_reader_from_metadata.pin_index mode)
      false = true
  · left
    rw [from_metadata_get_frame_timestamp_latched B s now mode fo hflag]
    cases hts : metadata.header_timestamp fo.metadata with
    | error f => exact ⟨hflag, rfl, rfl, rfl⟩
    | ok t => exact ⟨hflag, rfl, rfl, rfl⟩
  · have hflag' : s._has_metadata.getD (ds5_timestamp_reader_from_metadata.pin_index mode)
        false = false := by simpa using hflag
    obtain ⟨b, hb⟩ := hprobe.resolve_left hflag
    cases b with
    | true =>
      left
      have hlt := from_metadata_pin_index_lt mode
      have hlen2 : s._has_metadata.length = 2 := hlen
      have hset : (s._has_metadata.set (ds5_timestamp_reader_from_metadata.pin_index mode)
          true).getD (ds5_timestamp_reader_from_metadata.pin_index mode) false = true :=
        getD_set_self_of_lt s._has_metadata _ true false (by omega)
      rw [from_metadata_get_frame_timestamp_probe_true B s now mode fo hlen hflag' hb]
      cases hts : metadata.header_timestamp fo.metadata with
      | error f => exact ⟨hset, rfl, rfl, rfl⟩
      | ok t => exact ⟨hset, rfl, rfl, rfl⟩
    | false =>
      right
      rw [from_metadata_get_frame_timestamp_probe_false B s now mode fo hflag' hb]
      exact ⟨getD_set_default _ _ _, hflag', hb, rfl, rfl⟩

/-- C10 at its failing input: a frame without metadata on a latched pin.  Pin 0 of a
reader over a free-running fallback is latched by a frame with metadata.  For the
next frame on pin 0, whose metadata pointer is null, `get_frame_timestamp` does not
probe (line 95) and does not fall back, although the fallback would return the host
clock reading 9 and the path of a pin that is not latched guards this very case
through `has_metadata`: it reads `md->header.timestamp` through the null pointer
(lines 102-103), and the call fails.  The domain query still answers with the
hardware clock. -/
theorem from_metadata_missing_metadata_on_latched_pin :
    ((ds5_timestamp_reader_from_metadata.get_frame_timestamp ds5_timestamp_reader.interface
        (ds5_timestamp_reader_from_metadata.construct ds5_timestamp_reader.construct)
        0 ⟨0⟩ frame_with_metadata).self._has_metadata).getD 0 false = true ∧
    (ds5_timestamp_reader_from_metadata.get_frame_timestamp ds5_timestamp_reader.interface
        (ds5_timestamp_reader_from_metadata.get_frame_timestamp ds5_timestamp_reader.interface
          (ds5_timestamp_reader_from_metadata.construct ds5_timestamp_reader.construct)
          0 ⟨0⟩ frame_with_metadata).self
        9 ⟨0⟩ frame_without_metadata).value = .error .bad_read ∧
    (ds5_timestamp_reader.interface.get_frame_timestamp ds5_timestamp_reader.construct
        9 ⟨0⟩ frame_without_metadata).value = .ok 9 ∧
    (ds5_timestamp_reader_from_metadata.get_frame_timestamp_domain ds5_timestamp_reader.interface
        (ds5_timestamp_reader_from_metadata.get_frame_timestamp ds5_timestamp_reader.interface
          (ds5_timestamp_reader_from_metadata.get_frame_timestamp ds5_timestamp_reader.interface
            (ds5_timestamp_reader_from_metadata.construct ds5_timestamp_reader.construct)
            0 ⟨0⟩ frame_with_metadata).self
          9 ⟨0⟩ frame_without_metadata).self
        ⟨0⟩ frame_without_metadata).value = .ok .RS2_TIMESTAMP_DOMAIN_HARDWARE_CLOCK :=
  ⟨rfl, rfl, rfl, rfl⟩

/-- The domain query and the time source, for the calls of `get_frame_timestamp`
that get as far as the flag test of line 100.  Take a
metadata-backed reader over a free-running fallback, with its two flags, and a
frame on a pin that is latched or whose probe returns.  After
`get_frame_timestamp`, `get_frame_timestamp_domain` for the same routing descriptor
answers `RS2_TIMESTAMP_DOMAIN_HARDWARE_CLOCK` if and only if the flag of the pin is
set, and then the outcome of `get_frame_timestamp` is the decoding of the frame's
header (or the fault of the read of the header) and the fallback was not called;
it answers
`RS2_TIMESTAMP_DOMAIN_SYSTEM_TIME` if and only if the flag is not set, and then the
value is the fallback's host clock reading.  On a pin that was not latched before
the call, a frame whose metadata pointer is null or whose metadata length is 0
never makes `get_frame_timestamp` fail: it returns the host clock reading. -/
theorem from_metadata_domain_tells_time_source
    (s : ds5_timestamp_reader_from_metadata ds5_timestamp_reader) (now : rs2_time_t)
    (mode : request_mapping) (fo fo' : frame_object)
    (hlen : s._has_metadata.length = ds5_timestamp_reader_from_metadata.pins)
    (hprobe : s._has_metadata.getD (ds5_timestamp_reader_from_metadata.pin_index mode) false
        = true ∨
      ∃ b, ds5_timestamp_reader_from_metadata.has_metadata mode fo.metadata fo.metadata_size
        = .ok b) :
    ((ds5_timestamp_reader_from_metadata.get_frame_timestamp_domain ds5_timestamp_reader.interface
        (ds5_timestamp_reader_from_metadata.get_frame_timestamp ds5_timestamp_reader.interface
          s now mode fo).self mode fo').value = .ok .RS2_TIMESTAMP_DOMAIN_HARDWARE_CLOCK
      ↔ ((ds5_timestamp_reader_from_metadata.get_frame_timestamp ds5_timestamp_reader.interface
          s now mode fo).self._has_metadata).getD
            (ds5_timestamp_reader_from_metadata.pin_index mode) false = true) ∧
    ((ds5_timestamp_reader_from_metadata.get_frame_timestamp_domain ds5_timestamp_reader.interface
        (ds5_timestamp_reader_from_metadata.get_frame_timestamp ds5_timestamp_reader.interface
          s now mode fo).self mode fo').value = .ok .RS2_TIMESTAMP_DOMAIN_SYSTEM_TIME
      ↔ ((ds5_timestamp_reader_from_metadata.get_frame_timestamp ds5_timestamp_reader.interface
          s now mode fo).self._has_metadata).getD
            (ds5_timestamp_reader_from_metadata.pin_index mode) false = false) ∧
    (((ds5_timestamp_reader_from_metadata.get_frame_timestamp ds5_timestamp_reader.interface
          s now mode fo).self._has_metadata).getD
            (ds5_timestamp_reader_from_metadata.pin_index mode) false = true →
      (ds5_timestamp_reader_from_metadata.get_frame_timestamp ds5_timestamp_reader.interface
          s now mode fo).value
        = Except.map (fun t : Nat => double_mul (to_double t) TIMESTAMP_TO_MILLISECONS)
            (metadata.header_timestamp fo.metadata) ∧
      (ds5_timestamp_reader_from_metadata.get_frame_timestamp ds5_timestamp_reader.interface
          s now mode fo).self._backup_timestamp_reader = s._backup_timestamp_reader) ∧
    (((ds5_timestamp_reader_from_metadata.get_frame_timestamp ds5_timestamp_reader.interface
          s now mode fo).self._has_metadata).getD
            (ds5_timestamp_reader_from_metadata.pin_index mode) false = false →
      (ds5_timestamp_reader_from_metadata.get_frame_timestamp ds5_timestamp_reader.interface
          s now mode fo).value = .ok now) ∧
    (s._has_metadata.getD (ds5_timestamp_reader_from_metadata.pin_index mode) false = false →
      fo.metadata = none ∨ fo.metadata_size = 0 →
      (ds5_timestamp_reader_from_metadata.get_frame_timestamp ds5_timestamp_reader.interface
          s now mode fo).value = .ok now) := by
  have hdom : ∀ t : ds5_timestamp_reader_from_metadata ds5_timestamp_reader,
      (ds5_timestamp_reader_from_metadata.get_frame_timestamp_domain
        ds5_timestamp_reader.interface t mode fo').value
      = if t._has_metadata.getD (ds5_timestamp_reader_from_metadata.pin_index mode) false
        then .ok .RS2_TIMESTAMP_DOMAIN_HARDWARE_CLOCK
        else .ok .RS2_TIMESTAMP_DOMAIN_SYSTEM_TIME := by
    intro t
    unfold ds5_timestamp_reader_from_metadata.get_frame_timestamp_domain
    split <;> rfl
  have hnull : s._has_metadata.getD (ds5_timestamp_reader_from_metadata.pin_index mode) false
      = false → fo.metadata = none ∨ fo.metadata_size = 0 →
      (ds5_timestamp_reader_from_metadata.get_frame_timestamp ds5_timestamp_reader.interface
          s now mode fo).value = .ok now := by
    intro hflag hmissing
    have hfalse : ds5_timestamp_reader_from_metadata.has_metadata mode fo.metadata
        fo.metadata_size = .ok false := by
      rcases hmissing with h | h
      · rw [h]; rfl
      · rw [h]
        cases fo.metadata <;> simp [ds5_timestamp_reader_from_metadata.has_metadata]
    rw [from_metadata_get_frame_timestamp_probe_false _ s now mode fo hflag hfalse]
    rfl
  rw [hdom]
  rcases from_metadata_get_frame_timestamp_cases ds5_timestamp_reader.interface s now mode fo
    hlen hprobe with ⟨hafter, hvalue, _, hbackup⟩ | ⟨hafter, _, _, hvalue, _⟩
  · rw [hafter]
    refine ⟨?_, ?_, fun _ => ⟨hvalue, hbackup⟩, ?_, hnull⟩
    · simp
    · simp
    · intro h; cases h
  · rw [hafter]
    refine ⟨?_, ?_, ?_, fun _ => hvalue, hnull⟩
    · simp
    · simp
    · intro h; cases h

/-- An instance: on a freshly constructed reader a frame without metadata gets the
host clock reading 9 and the domain of its pin is the system time. -/
theorem from_metadata_domain_tells_time_source_instance :
    (ds5_timestamp_reader_from_metadata.get_frame_timestamp ds5_timestamp_reader.interface
        (ds5_timestamp_reader_from_metadata.construct ds5_timestamp_reader.construct)
        9 ⟨0⟩ frame_without_metadata).value = .ok 9 ∧
    (ds5_timestamp_reader_from_metadata.get_frame_timestamp_domain ds5_timestamp_reader.interface
        (ds5_timestamp_reader_from_metadata.get_frame_timestamp ds5_timestamp_reader.interface
          (ds5_timestamp_reader_from_metadata.construct ds5_timestamp_reader.construct)
          9 ⟨0⟩ frame_without_metadata).self ⟨0⟩ frame_with_metadata).value
      = .ok .RS2_TIMESTAMP_DOMAIN_SYSTEM_TIME :=
  ⟨(from_metadata_domain_tells_time_source
      (ds5_timestamp_reader_from_metadata.construct ds5_timestamp_reader.construct)
      9 ⟨0⟩ frame_without_metadata frame_with_metadata rfl
      (Or.inr ⟨false, by decide⟩)).2.2.2.2 rfl (Or.inl rfl),
   (from_metadata_domain_tells_time_source
      (ds5_timestamp_reader_from_metadata.construct ds5_timestamp_reader.construct)
      9 ⟨0⟩ frame_without_metadata frame_with_metadata rfl
      (Or.inr ⟨false, by decide⟩)).2.1.mpr rfl⟩

/-! ## The HID motion reader -/

/-- C11: the domain of the HID motion reader is evaluated afresh at every call.  For
every reader and every frame `get_frame_timestamp_domain` returns
`RS2_TIMESTAMP_DOMAIN_HARDWARE_CLOCK` if and only if the metadata pointer is not
null and the metadata length is greater than 0, and
`RS2_TIMESTAMP_DOMAIN_SYSTEM_TIME` otherwise; it leaves the reader as it is, and its
answer is the same after any sequence of earlier calls.  Eight zero octets count as
metadata, and a frame with metadata followed by one without gives the hardware
clock and then the system time. -/
theorem iio_hid_domain_per_call (s : ds5_iio_hid_timestamp_reader) (mode : request_mapping)
    (fo : frame_object) :
    ((ds5_iio_hid_timestamp_reader.get_frame_timestamp_domain s mode fo).value
        = .ok .RS2_TIMESTAMP_DOMAIN_HARDWARE_CLOCK
      ↔ fo.metadata ≠ none ∧ 0 < fo.metadata_size) ∧
    ((ds5_iio_hid_timestamp_reader.get_frame_timestamp_domain s mode fo).value
        = .ok .RS2_TIMESTAMP_DOMAIN_SYSTEM_TIME
      ↔ ¬ (fo.metadata ≠ none ∧ 0 < fo.metadata_size)) ∧
    (ds5_iio_hid_timestamp_reader.get_frame_timestamp_domain s mode fo).self = s ∧
    (∀ calls : List reader_call,
      (ds5_iio_hid_timestamp_reader.get_frame_timestamp_domain
        (ds5_iio_hid_timestamp_reader.interface.run s calls) mode fo).value
      = (ds5_iio_hid_timestamp_reader.get_frame_timestamp_domain s mode fo).value) ∧
    (ds5_iio_hid_timestamp_reader.get_frame_timestamp_domain s mode
        frame_hid_zero_metadata).value = .ok .RS2_TIMESTAMP_DOMAIN_HARDWARE_CLOCK ∧
    (ds5_iio_hid_timestamp_reader.get_frame_timestamp_domain s mode frame_hid_metadata).value
      = .ok .RS2_TIMESTAMP_DOMAIN_HARDWARE_CLOCK ∧
    (ds5_iio_hid_timestamp_reader.get_frame_timestamp_domain
        (ds5_iio_hid_timestamp_reader.get_frame_timestamp_domain s mode
          frame_hid_metadata).self mode frame_without_metadata).value
      = .ok .RS2_TIMESTAMP_DOMAIN_SYSTEM_TIME := by
  have hdom : ∀ t : ds5_iio_hid_timestamp_reader,
      (ds5_iio_hid_timestamp_reader.get_frame_timestamp_domain t mode fo).value
      = if fo.metadata ≠ none ∧ 0 < fo.metadata_size
        then .ok .RS2_TIMESTAMP_DOMAIN_HARDWARE_CLOCK
        else .ok .RS2_TIMESTAMP_DOMAIN_SYSTEM_TIME := by
    intro t
    unfold ds5_iio_hid_timestamp_reader.get_frame_timestamp_domain
      ds5_iio_hid_timestamp_reader.has_metadata
    by_cases h : fo.metadata ≠ none ∧ 0 < fo.metadata_size
    · have h' : fo.metadata ≠ none ∧ fo.metadata_size > 0 := h
      rw [if_pos h', if_pos rfl, if_pos h]
    · have h' : ¬ (fo.metadata ≠ none ∧ fo.metadata_size > 0) := h
      rw [if_neg h', if_neg Bool.false_ne_true, if_neg h]
  refine ⟨?_, ?_, iio_hid_get_frame_timestamp_domain_self s mode fo, ?_, rfl, rfl, rfl⟩
  · rw [hdom]
    by_cases h : fo.metadata ≠ none ∧ 0 < fo.metadata_size
    · rw [if_pos h]
      exact ⟨fun _ => h, fun _ => rfl⟩
    · rw [if_neg h]
      exact ⟨fun e => (by cases e), fun h2 => absurd h2 h⟩
  · rw [hdom]
    by_cases h : fo.metadata ≠ none ∧ 0 < fo.metadata_size
    · rw [if_pos h]
      exact ⟨fun e => (by cases e), fun h2 => absurd h h2⟩
    · rw [if_neg h]
      exact ⟨fun _ => h, fun _ => rfl⟩
  · intro calls
    rw [hdom, hdom]

/-- Eight octets inside the buffer are read as their little-endian value. -/
theorem read_le_eight (buf : List byte) (off : Nat) (h : off + 8 ≤ buf.length) :
    read_le (some buf) off 8 =
      .ok ((buf.getD off 0).val + 2 ^ 8 * (buf.getD (off + 1) 0).val
        + 2 ^ 16 * (buf.getD (off + 2) 0).val + 2 ^ 24 * (buf.getD (off + 3) 0).val
        + 2 ^ 32 * (buf.getD (off + 4) 0).val + 2 ^ 40 * (buf.getD (off + 5) 0).val
        + 2 ^ 48 * (buf.getD (off + 6) 0).val + 2 ^ 56 * (buf.getD (off + 7) 0).val) := by
  have h0 : off < buf.length := by omega
  have h1 : off + 1 < buf.length := by omega
  have h2 : off + 1 + 1 < buf.length := by omega
  have h3 : off + 1 + 1 + 1 < buf.length := by omega
  have h4 : off + 1 + 1 + 1 + 1 < buf.length := by omega
  have h5 : off + 1 + 1 + 1 + 1 + 1 < buf.length := by omega
  have h6 : off + 1 + 1 + 1 + 1 + 1 + 1 < buf.length := by omega
  have h7 : off + 1 + 1 + 1 + 1 + 1 + 1 + 1 < buf.length := by omega
  simp only [read_le, List.getElem?_eq_getElem h0, List.getElem?_eq_getElem h1,
    List.getElem?_eq_getElem h2, List.getElem?_eq_getElem h3, List.getElem?_eq_getElem h4,
    List.getElem?_eq_getElem h5, List.getElem?_eq_getElem h6, List.getElem?_eq_getElem h7,
    List.getD_eq_getElem _ _ h0, List.getD_eq_getElem _ _ h1, List.getD_eq_getElem _ _ h2,
    List.getD_eq_getElem _ _ h3, List.getD_eq_getElem _ _ h4, List.getD_eq_getElem _ _ h5,
    List.getD_eq_getElem _ _ h6, List.getD_eq_getElem _ _ h7]
  congr 1
  ring

/-- The little-endian value of eight octets is below `2 ^ 64`. -/
theorem le_eight_lt (b0 b1 b2 b3 b4 b5 b6 b7 : byte) :
    b0.val + 2 ^ 8 * b1.val + 2 ^ 16 * b2.val + 2 ^ 24 * b3.val + 2 ^ 32 * b4.val
      + 2 ^ 40 * b5.val + 2 ^ 48 * b6.val + 2 ^ 56 * b7.val < 2 ^ 64 := by
  have h0 := b0.isLt
  have h1 := b1.isLt
  have h2 := b2.isLt
  have h3 := b3.isLt
  have h4 := b4.isLt
  have h5 := b5.isLt
  have h6 := b6.isLt
  have h7 := b7.isLt
  omega

/-- The HID motion reader's `get_frame_timestamp` on a frame with metadata: the
decoding of the first eight octets, no warning, the reader left as it is. -/
theorem iio_hid_get_frame_timestamp_with_metadata (s : ds5_iio_hid_timestamp_reader)
    (now : rs2_time_t) (mode : request_mapping) (fo : frame_object)
    (h : fo.metadata ≠ none ∧ fo.metadata_size > 0) :
    ds5_iio_hid_timestamp_reader.get_frame_timestamp s now mode fo =
      match read_le fo.metadata 0 8 with
      | .error f => { value := .error f, log := [], self := s }
      | .ok timestamp =>
        { value := .ok (double_mul (to_double timestamp) TIMESTAMP_TO_MILLISECONS), log := [],
          self := s } := by
  unfold ds5_iio_hid_timestamp_reader.get_frame_timestamp
    ds5_iio_hid_timestamp_reader.has_metadata
  rw [if_pos h, if_pos rfl]

/-- The HID motion reader's `get_frame_timestamp` on a frame without metadata: the
host clock reading, with the warning if it has not been logged yet. -/
theorem iio_hid_get_frame_timestamp_without_metadata (s : ds5_iio_hid_timestamp_reader)
    (now : rs2_time_t) (mode : request_mapping) (fo : frame_object)
    (h : ¬ (fo.metadata ≠ none ∧ fo.metadata_size > 0)) :
    ds5_iio_hid_timestamp_reader.get_frame_timestamp s now mode fo =
      { value := .ok now,
        log := if s.started then [] else ["HID timestamp not found! please apply HID patch."],
        self := { s with started := true } } := by
  unfold ds5_iio_hid_timestamp_reader.get_frame_timestamp
    ds5_iio_hid_timestamp_reader.has_metadata
  rw [if_neg h, if_neg Bool.false_ne_true]
  cases s with
  | mk started counter => cases started <;> rfl

/-- C12 refuted as stated: the value returned is a double product, not `t / 1000`.
Eight octets of metadata holding 9 give the double `5188146770730812 / 2 ^ 59`
(printed 0.009000000000000001), which is neither `9 / 1000` nor the double nearest
to it.  The conversion of the 64-bit value to `double` rounds as well: the metadata
holding `2 ^ 53 + 1` and the metadata holding `2 ^ 53` give the same timestamp. -/
theorem iio_hid_get_frame_timestamp_decodes_counterexample :
    read_le frame_hid_nine.metadata 0 8 = .ok 9 ∧
    (ds5_iio_hid_timestamp_reader.get_frame_timestamp ds5_iio_hid_timestamp_reader.construct
        0 ⟨GYRO⟩ frame_hid_nine).value = .ok (5188146770730812 / 2 ^ 59) ∧
    (ds5_iio_hid_timestamp_reader.get_frame_timestamp ds5_iio_hid_timestamp_reader.construct
        0 ⟨GYRO⟩ frame_hid_nine).value ≠ .ok (9 / 1000) ∧
    (ds5_iio_hid_timestamp_reader.get_frame_timestamp ds5_iio_hid_timestamp_reader.construct
        0 ⟨GYRO⟩ frame_hid_nine).value ≠ .ok (round_to_double (9 / 1000)) ∧
    read_le frame_hid_two_pow_53.metadata 0 8 = .ok (2 ^ 53) ∧
    read_le frame_hid_two_pow_53_plus_one.metadata 0 8 = .ok (2 ^ 53 + 1) ∧
    (ds5_iio_hid_timestamp_reader.get_frame_timestamp ds5_iio_hid_timestamp_reader.construct
        0 ⟨GYRO⟩ frame_hid_two_pow_53_plus_one).value
      = (ds5_iio_hid_timestamp_reader.get_frame_timestamp
          ds5_iio_hid_timestamp_reader.construct 0 ⟨GYRO⟩ frame_hid_two_pow_53).value := by
  have h : (ds5_iio_hid_timestamp_reader.get_frame_timestamp
      ds5_iio_hid_timestamp_reader.construct 0 ⟨GYRO⟩ frame_hid_nine).value
        = .ok (double_mul (to_double 9) TIMESTAMP_TO_MILLISECONS) := rfl
  have h1 : (ds5_iio_hid_timestamp_reader.get_frame_timestamp
      ds5_iio_hid_timestamp_reader.construct 0 ⟨GYRO⟩ frame_hid_two_pow_53_plus_one).value
        = .ok (double_mul (to_double 9007199254740993) TIMESTAMP_TO_MILLISECONS) := rfl
  have h0 : (ds5_iio_hid_timestamp_reader.get_frame_timestamp
      ds5_iio_hid_timestamp_reader.construct 0 ⟨GYRO⟩ frame_hid_two_pow_53).value
        = .ok (double_mul (to_double 9007199254740992) TIMESTAMP_TO_MILLISECONS) := rfl
  rw [h, h1, h0, ticks_product_9, nearest_double_9, to_double_two_pow_53_plus_one,
    to_double_two_pow_53]
  refine ⟨rfl, rfl, ?_, ?_, rfl, rfl, rfl⟩
  · intro e
    have e2 : (5188146770730812 / 2 ^ 59 : rs2_time_t) = 9 / 1000 := Except.ok.inj e
    norm_num at e2
  · intro e
    have e2 : (5188146770730812 / 2 ^ 59 : rs2_time_t) = 5188146770730811 / 2 ^ 59 :=
      Except.ok.inj e
    norm_num at e2

/-- C12 (as amended): timestamp decoding of the HID motion reader.  For a frame whose
metadata pointer is not null, whose metadata length is not 0 and whose metadata
buffer holds at least 8 octets, `get_frame_timestamp` returns the double product
`static_cast<rs2_time_t>(t) * TIMESTAMP_TO_MILLISECONS`, where `t` is the
little-endian value of the first 8 octets and `TIMESTAMP_TO_MILLISECONS` is the
double nearest to one thousandth: `t` is below `2 ^ 64`, its conversion to `double`
is exact when `t` is below `2 ^ 53`, and the product is within
`t / 1000 / 2 ^ 51` of `t / 1000`.  The call logs nothing and leaves the reader, its
warn-once flag included, as it is.  The host clock reading is returned when the
metadata pointer is null or the metadata length is 0, and in no other case: then
the value is the decoding of the first eight octets (or the fault of that read). -/
theorem iio_hid_get_frame_timestamp_decodes (s : ds5_iio_hid_timestamp_reader)
    (now : rs2_time_t) (mode : request_mapping) (fo : frame_object) :
    (∀ buf : List byte, fo.metadata = some buf → 0 < fo.metadata_size → 8 ≤ buf.length →
      (ds5_iio_hid_timestamp_reader.get_frame_timestamp s now mode fo).value
        = .ok (double_mul
            (to_double ((buf.getD 0 0).val + 2 ^ 8 * (buf.getD 1 0).val + 2 ^ 16 * (buf.getD 2 0).val
              + 2 ^ 24 * (buf.getD 3 0).val + 2 ^ 32 * (buf.getD 4 0).val
              + 2 ^ 40 * (buf.getD 5 0).val + 2 ^ 48 * (buf.getD 6 0).val
              + 2 ^ 56 * (buf.getD 7 0).val))
            TIMESTAMP_TO_MILLISECONS) ∧
      (buf.getD 0 0).val + 2 ^ 8 * (buf.getD 1 0).val + 2 ^ 16 * (buf.getD 2 0).val
            + 2 ^ 24 * (buf.getD 3 0).val + 2 ^ 32 * (buf.getD 4 0).val
            + 2 ^ 40 * (buf.getD 5 0).val + 2 ^ 48 * (buf.getD 6 0).val
            + 2 ^ 56 * (buf.getD 7 0).val < 2 ^ 64 ∧
      ((buf.getD 0 0).val + 2 ^ 8 * (buf.getD 1 0).val + 2 ^ 16 * (buf.getD 2 0).val
            + 2 ^ 24 * (buf.getD 3 0).val + 2 ^ 32 * (buf.getD 4 0).val
            + 2 ^ 40 * (buf.getD 5 0).val + 2 ^ 48 * (buf.getD 6 0).val
            + 2 ^ 56 * (buf.getD 7 0).val < 2 ^ 53 →
        to_double ((buf.getD 0 0).val + 2 ^ 8 * (buf.getD 1 0).val + 2 ^ 16 * (buf.getD 2 0).val
            + 2 ^ 24 * (buf.getD 3 0).val + 2 ^ 32 * (buf.getD 4 0).val
            + 2 ^ 40 * (buf.getD 5 0).val + 2 ^ 48 * (buf.getD 6 0).val
            + 2 ^ 56 * (buf.getD 7 0).val)
          = (((buf.getD 0 0).val + 2 ^ 8 * (buf.getD 1 0).val + 2 ^ 16 * (buf.getD 2 0).val
            + 2 ^ 24 * (buf.getD 3 0).val + 2 ^ 32 * (buf.getD 4 0).val
            + 2 ^ 40 * (buf.getD 5 0).val + 2 ^ 48 * (buf.getD 6 0).val
            + 2 ^ 56 * (buf.getD 7 0).val : Nat) : rs2_time_t)) ∧
      |double_mul
          (to_double ((buf.getD 0 0).val + 2 ^ 8 * (buf.getD 1 0).val + 2 ^ 16 * (buf.getD 2 0).val
            + 2 ^ 24 * (buf.getD 3 0).val + 2 ^ 32 * (buf.getD 4 0).val
            + 2 ^ 40 * (buf.getD 5 0).val + 2 ^ 48 * (buf.getD 6 0).val
            + 2 ^ 56 * (buf.getD 7 0).val))
          TIMESTAMP_TO_MILLISECONS
        - (((buf.getD 0 0).val + 2 ^ 8 * (buf.getD 1 0).val + 2 ^ 16 * (buf.getD 2 0).val
            + 2 ^ 24 * (buf.getD 3 0).val + 2 ^ 32 * (buf.getD 4 0).val
            + 2 ^ 40 * (buf.getD 5 0).val + 2 ^ 48 * (buf.getD 6 0).val
            + 2 ^ 56 * (buf.getD 7 0).val : Nat) : rs2_time_t) / 1000|
        ≤ (((buf.getD 0 0).val + 2 ^ 8 * (buf.getD 1 0).val + 2 ^ 16 * (buf.getD 2 0).val
            + 2 ^ 24 * (buf.getD 3 0).val + 2 ^ 32 * (buf.getD 4 0).val
            + 2 ^ 40 * (buf.getD 5 0).val + 2 ^ 48 * (buf.getD 6 0).val
            + 2 ^ 56 * (buf.getD 7 0).val : Nat) : rs2_time_t) / 1000 / 2 ^ 51 ∧
      (ds5_iio_hid_timestamp_reader.get_frame_timestamp s now mode fo).log = [] ∧
      (ds5_iio_hid_timestamp_reader.get_frame_timestamp s now mode fo).self = s) ∧
    (fo.metadata = none ∨ fo.metadata_size = 0 →
      (ds5_iio_hid_timestamp_reader.get_frame_timestamp s now mode fo).value = .ok now) ∧
    (¬ (fo.metadata = none ∨ fo.metadata_size = 0) →
      (ds5_iio_hid_timestamp_reader.get_frame_timestamp s now mode fo).value
        = Except.map (fun t : Nat => double_mul (to_double t) TIMESTAMP_TO_MILLISECONS)
            (read_le fo.metadata 0 8) ∧
      (ds5_iio_hid_timestamp_reader.get_frame_timestamp s now mode fo).log = [] ∧
      (ds5_iio_hid_timestamp_reader.get_frame_timestamp s now mode fo).self = s) := by
  refine ⟨?_, ?_, ?_⟩
  · intro buf hbuf hsize h8
    have h : fo.metadata ≠ none ∧ fo.metadata_size > 0 := ⟨by rw [hbuf]; simp, hsize⟩
    have hdec := read_le_eight buf 0 (by omega)
    simp only [zero_add] at hdec
    rw [iio_hid_get_frame_timestamp_with_metadata s now mode fo h, hbuf, hdec]
    exact ⟨rfl, le_eight_lt _ _ _ _ _ _ _ _, fun h53 => to_double_exact _ h53,
      ticks_product_error _, rfl, rfl⟩
  · intro hmissing
    have h : ¬ (fo.metadata ≠ none ∧ fo.metadata_size > 0) := by
      rintro ⟨h1, h2⟩
      rcases hmissing with h | h
      · exact h1 h
      · omega
    rw [iio_hid_get_frame_timestamp_without_metadata s now mode fo h]
  · intro hpresent
    have h : fo.metadata ≠ none ∧ fo.metadata_size > 0 := by
      constructor
      · intro h; exact hpresent (Or.inl h)
      · rcases Nat.eq_zero_or_pos fo.metadata_size with h | h
        · exact absurd (Or.inr h) hpresent
        · exact h
    rw [iio_hid_get_frame_timestamp_with_metadata s now mode fo h]
    cases read_le fo.metadata 0 8 with
    | error f => exact ⟨rfl, rfl, rfl⟩
    | ok t => exact ⟨rfl, rfl, rfl⟩

/-- C12, an instance: eight octets holding 5000 on a freshly constructed reader are
decoded, and nothing is logged. -/
theorem iio_hid_get_frame_timestamp_decodes_witness :
    (ds5_iio_hid_timestamp_reader.get_frame_timestamp ds5_iio_hid_timestamp_reader.construct
        9 ⟨GYRO⟩ frame_hid_metadata).value
      = .ok (double_mul
          (to_double ((136 : byte).val + 2 ^ 8 * (19 : byte).val + 2 ^ 16 * (0 : byte).val
            + 2 ^ 24 * (0 : byte).val + 2 ^ 32 * (0 : byte).val
            + 2 ^ 40 * (0 : byte).val + 2 ^ 48 * (0 : byte).val
            + 2 ^ 56 * (0 : byte).val))
          TIMESTAMP_TO_MILLISECONS) ∧
    (ds5_iio_hid_timestamp_reader.get_frame_timestamp ds5_iio_hid_timestamp_reader.construct
        9 ⟨GYRO⟩ frame_hid_metadata).log = [] ∧
    (ds5_iio_hid_timestamp_reader.get_frame_timestamp ds5_iio_hid_timestamp_reader.construct
        9 ⟨GYRO⟩ frame_without_metadata).value = .ok 9 :=
  ⟨((iio_hid_get_frame_timestamp_decodes ds5_iio_hid_timestamp_reader.construct 9 ⟨GYRO⟩
      frame_hid_metadata).1 _ rfl (by decide) (by decide)).1,
   ((iio_hid_get_frame_timestamp_decodes ds5_iio_hid_timestamp_reader.construct 9 ⟨GYRO⟩
      frame_hid_metadata).1 _ rfl (by decide) (by decide)).2.2.2.2.1,
   (iio_hid_get_frame_timestamp_decodes ds5_iio_hid_timestamp_reader.construct 9 ⟨GYRO⟩
      frame_without_metadata).2.1 (Or.inl rfl)⟩

/-! ## The custom-HID reader -/

/-- C13 refuted as stated: the value returned is a double product, not `t / 1000`.
The 25-octet report whose octets 17 to 24 hold 9 gives the double
`5188146770730812 / 2 ^ 59` (printed 0.009000000000000001), which is neither
`9 / 1000` nor the double nearest to it. -/
theorem custom_hid_get_frame_timestamp_decodes_counterexample :
    read_le frame_custom_report_nine.pixels ds5_custom_hid_timestamp_reader.timestamp_offset 8
      = .ok 9 ∧
    (ds5_custom_hid_timestamp_reader.get_frame_timestamp
        ds5_custom_hid_timestamp_reader.construct 0 ⟨0⟩ frame_custom_report_nine).value
      = .ok (5188146770730812 / 2 ^ 59) ∧
    (ds5_custom_hid_timestamp_reader.get_frame_timestamp
        ds5_custom_hid_timestamp_reader.construct 0 ⟨0⟩ frame_custom_report_nine).value
      ≠ .ok (9 / 1000) ∧
    (ds5_custom_hid_timestamp_reader.get_frame_timestamp
        ds5_custom_hid_timestamp_reader.construct 0 ⟨0⟩ frame_custom_report_nine).value
      ≠ .ok (round_to_double (9 / 1000)) := by
  have h : (ds5_custom_hid_timestamp_reader.get_frame_timestamp
      ds5_custom_hid_timestamp_reader.construct 0 ⟨0⟩ frame_custom_report_nine).value
        = .ok (double_mul (to_double 9) TIMESTAMP_TO_MILLISECONS) := rfl
  rw [h, ticks_product_9, nearest_double_9]
  refine ⟨rfl, rfl, ?_, ?_⟩
  · intro e
    have e2 : (5188146770730812 / 2 ^ 59 : rs2_time_t) = 9 / 1000 := Except.ok.inj e
    norm_num at e2
  · intro e
    have e2 : (5188146770730812 / 2 ^ 59 : rs2_time_t) = 5188146770730811 / 2 ^ 59 :=
      Except.ok.inj e
    norm_num at e2

/-- C13 (as amended): timestamp decoding of the custom-HID reader.  For every reader,
routing descriptor and frame whose payload holds at least 25 octets,
`get_frame_timestamp` returns the double product
`static_cast<rs2_time_t>(t) * TIMESTAMP_TO_MILLISECONS`, where `t` is the
little-endian value of octets 17 to 24 of the payload and
`TIMESTAMP_TO_MILLISECONS` is the double nearest to one thousandth: `t` is below
`2 ^ 64`, its conversion to `double` is exact when `t` is below `2 ^ 53`, and the
product is within `t / 1000 / 2 ^ 51` of `t / 1000`.  The call logs nothing and
leaves the reader as it is.  The value is the same for every other reader state,
host clock reading, routing descriptor and frame with the same payload, whatever
its metadata. -/
theorem custom_hid_get_frame_timestamp_decodes (s : ds5_custom_hid_timestamp_reader)
    (now : rs2_time_t) (mode : request_mapping) (fo : frame_object) (payload : List byte)
    (hpixels : fo.pixels = some payload) (h25 : 25 ≤ payload.length) :
    (ds5_custom_hid_timestamp_reader.get_frame_timestamp s now mode fo).value
      = .ok (double_mul
          (to_double ((payload.getD 17 0).val + 2 ^ 8 * (payload.getD 18 0).val
            + 2 ^ 16 * (payload.getD 19 0).val + 2 ^ 24 * (payload.getD 20 0).val
            + 2 ^ 32 * (payload.getD 21 0).val + 2 ^ 40 * (payload.getD 22 0).val
            + 2 ^ 48 * (payload.getD 23 0).val + 2 ^ 56 * (payload.getD 24 0).val))
          TIMESTAMP_TO_MILLISECONS) ∧
    (payload.getD 17 0).val + 2 ^ 8 * (payload.getD 18 0).val
          + 2 ^ 16 * (payload.getD 19 0).val + 2 ^ 24 * (payload.getD 20 0).val
          + 2 ^ 32 * (payload.getD 21 0).val + 2 ^ 40 * (payload.getD 22 0).val
          + 2 ^ 48 * (payload.getD 23 0).val + 2 ^ 56 * (payload.getD 24 0).val < 2 ^ 64 ∧
    ((payload.getD 17 0).val + 2 ^ 8 * (payload.getD 18 0).val
          + 2 ^ 16 * (payload.getD 19 0).val + 2 ^ 24 * (payload.getD 20 0).val
          + 2 ^ 32 * (payload.getD 21 0).val + 2 ^ 40 * (payload.getD 22 0).val
          + 2 ^ 48 * (payload.getD 23 0).val + 2 ^ 56 * (payload.getD 24 0).val < 2 ^ 53 →
      to_double ((payload.getD 17 0).val + 2 ^ 8 * (payload.getD 18 0).val
          + 2 ^ 16 * (payload.getD 19 0).val + 2 ^ 24 * (payload.getD 20 0).val
          + 2 ^ 32 * (payload.getD 21 0).val + 2 ^ 40 * (payload.getD 22 0).val
          + 2 ^ 48 * (payload.getD 23 0).val + 2 ^ 56 * (payload.getD 24 0).val)
        = (((payload.getD 17 0).val + 2 ^ 8 * (payload.getD 18 0).val
          + 2 ^ 16 * (payload.getD 19 0).val + 2 ^ 24 * (payload.getD 20 0).val
          + 2 ^ 32 * (payload.getD 21 0).val + 2 ^ 40 * (payload.getD 22 0).val
          + 2 ^ 48 * (payload.getD 23 0).val + 2 ^ 56 * (payload.getD 24 0).val : Nat) : rs2_time_t)) ∧
    |double_mul
        (to_double ((payload.getD 17 0).val + 2 ^ 8 * (payload.getD 18 0).val
          + 2 ^ 16 * (payload.getD 19 0).val + 2 ^ 24 * (payload.getD 20 0).val
          + 2 ^ 32 * (payload.getD 21 0).val + 2 ^ 40 * (payload.getD 22 0).val
          + 2 ^ 48 * (payload.getD 23 0).val + 2 ^ 56 * (payload.getD 24 0).val))
        TIMESTAMP_TO_MILLISECONS
      - (((payload.getD 17 0).val + 2 ^ 8 * (payload.getD 18 0).val
          + 2 ^ 16 * (payload.getD 19 0).val + 2 ^ 24 * (payload.getD 20 0).val
          + 2 ^ 32 * (payload.getD 21 0).val + 2 ^ 40 * (payload.getD 22 0).val
          + 2 ^ 48 * (payload.getD 23 0).val + 2 ^ 56 * (payload.getD 24 0).val : Nat) : rs2_time_t) / 1000|
      ≤ (((payload.getD 17 0).val + 2 ^ 8 * (payload.getD 18 0).val
          + 2 ^ 16 * (payload.getD 19 0).val + 2 ^ 24 * (payload.getD 20 0).val
          + 2 ^ 32 * (payload.getD 21 0).val + 2 ^ 40 * (payload.getD 22 0).val
          + 2 ^ 48 * (payload.getD 23 0).val + 2 ^ 56 * (payload.getD 24 0).val : Nat) : rs2_time_t) / 1000 / 2 ^ 51 ∧
    (ds5_custom_hid_timestamp_reader.get_frame_timestamp s now mode fo).log = [] ∧
    (ds5_custom_hid_timestamp_reader.get_frame_timestamp s now mode fo).self = s ∧
    (∀ (s' : ds5_custom_hid_timestamp_reader) (now' : rs2_time_t) (mode' : request_mapping)
      (fo' : frame_object), fo'.pixels = fo.pixels →
      (ds5_custom_hid_timestamp_reader.get_frame_timestamp s' now' mode' fo').value
        = (ds5_custom_hid_timestamp_reader.get_frame_timestamp s now mode fo).value) := by
  have hdec : read_le fo.pixels ds5_custom_hid_timestamp_reader.timestamp_offset 8
      = .ok ((payload.getD 17 0).val + 2 ^ 8 * (payload.getD 18 0).val
          + 2 ^ 16 * (payload.getD 19 0).val + 2 ^ 24 * (payload.getD 20 0).val
          + 2 ^ 32 * (payload.getD 21 0).val + 2 ^ 40 * (payload.getD 22 0).val
          + 2 ^ 48 * (payload.getD 23 0).val + 2 ^ 56 * (payload.getD 24 0).val) := by
    rw [hpixels]
    exact read_le_eight payload 17 (by omega)
  refine ⟨?_, le_eight_lt _ _ _ _ _ _ _ _, fun h53 => to_double_exact _ h53,
    ticks_product_error _, ?_, ?_, ?_⟩
  · unfold ds5_custom_hid_timestamp_reader.get_frame_timestamp
    rw [hdec]
  · unfold ds5_custom_hid_timestamp_reader.get_frame_timestamp
    rw [hdec]
  · exact custom_hid_get_frame_timestamp_self s now mode fo
  · intro s' now' mode' fo' hsame
    unfold ds5_custom_hid_timestamp_reader.get_frame_timestamp
    rw [hsame, hdec]

/-- C13, an instance: the 25-octet report whose octets 17 to 24 hold 5000. -/
theorem custom_hid_get_frame_timestamp_decodes_witness :
    (ds5_custom_hid_timestamp_reader.get_frame_timestamp
        ds5_custom_hid_timestamp_reader.construct 9 ⟨0⟩ frame_custom_report).value
      = .ok (double_mul
          (to_double ((136 : byte).val + 2 ^ 8 * (19 : byte).val + 2 ^ 16 * (0 : byte).val
            + 2 ^ 24 * (0 : byte).val + 2 ^ 32 * (0 : byte).val
            + 2 ^ 40 * (0 : byte).val + 2 ^ 48 * (0 : byte).val
            + 2 ^ 56 * (0 : byte).val))
          TIMESTAMP_TO_MILLISECONS) :=
  (custom_hid_get_frame_timestamp_decodes ds5_custom_hid_timestamp_reader.construct 9 ⟨0⟩
    frame_custom_report _ rfl (by decide)).1

/-- A property that every call keeps holds after a run if it holds before it. -/
theorem run_invariant {σ : Type} (R : frame_timestamp_reader σ) (P : σ → Prop)
    (h : ∀ s c, P s → P (R.after s c)) (calls : List reader_call) :
    ∀ s, P s → P (R.run s calls) := by
  induction calls with
  | nil => intro s hs; exact hs
  | cons c calls ih =>
    intro s hs
    have hrun : R.run s (c :: calls) = R.run (R.after s c) calls := rfl
    rw [hrun]
    exact ih _ (h s c hs)

/-- The slots 1, 2 and 3 of the custom-HID reader stay 0 from construction on. -/
theorem custom_hid_other_slots (calls : List reader_call) :
    (ds5_custom_hid_timestamp_reader.interface.run ds5_custom_hid_timestamp_reader.construct
      calls).counter.drop 1 = [0, 0, 0] := by
  refine run_invariant ds5_custom_hid_timestamp_reader.interface
    (fun s => s.counter.drop 1 = [0, 0, 0]) ?_ calls _ rfl
  intro s c hs
  have hlen : s.counter.length = 4 := by
    have := congrArg List.length hs
    simp only [List.length_drop, List.length_cons, List.length_nil] at this
    omega
  cases c with
  | reset =>
    show (fill_first 4 (0 : Int) s.counter).drop 1 = [0, 0, 0]
    rw [fill_first_four 0 s.counter hlen]
    rfl
  | get_frame_timestamp now mode fo =>
    show (ds5_custom_hid_timestamp_reader.get_frame_timestamp s now mode fo).self.counter.drop 1
      = [0, 0, 0]
    rw [custom_hid_get_frame_timestamp_self]
    exact hs
  | get_frame_timestamp_domain mode fo => exact hs
  | get_frame_counter mode fo =>
    show (s.counter.set 0 _).drop 1 = [0, 0, 0]
    match hc : s.counter, hlen with
    | [a, b, c, d], _ =>
      rw [hc] at hs
      simpa using hs

/-- C14: the custom-HID reader has one shared counter.  After construction and any
sequence of calls without `reset` that holds `k - 1` calls of `get_frame_counter`,
with whatever routing descriptors and frames, the next `get_frame_counter` returns
`k` for every routing descriptor and frame (for `k` in the range of the `int64_t`
slot).  The vector keeps its four slots, the slots 1, 2 and 3 stay 0, and a
`get_frame_counter` call changes no slot but slot 0. -/
theorem custom_hid_shared_counter (calls : List reader_call) (mode : request_mapping)
    (fo : frame_object) (hcalls : ∀ c ∈ calls, c.is_reset = false) :
    (calls_on_pin (fun _ => 0) 0 calls + 1 < 2 ^ 63 →
      (ds5_custom_hid_timestamp_reader.get_frame_counter
        (ds5_custom_hid_timestamp_reader.interface.run
          ds5_custom_hid_timestamp_reader.construct calls) mode fo).value
      = .ok (calls_on_pin (fun _ => 0) 0 calls + 1)) ∧
    (ds5_custom_hid_timestamp_reader.interface.run ds5_custom_hid_timestamp_reader.construct
      calls).counter.length = 4 ∧
    (ds5_custom_hid_timestamp_reader.interface.run ds5_custom_hid_timestamp_reader.construct
      calls).counter.drop 1 = [0, 0, 0] ∧
    (∀ (s : ds5_custom_hid_timestamp_reader) (p : Nat), p ≠ 0 →
      (ds5_custom_hid_timestamp_reader.get_frame_counter s mode fo).self.counter.getD p 0
        = s.counter.getD p 0) := by
  refine ⟨?_, custom_hid_counter_length calls, custom_hid_other_slots calls, ?_⟩
  · intro hk
    have hrun := (counter_after_run ds5_custom_hid_timestamp_reader.interface
      (fun s => s.counter) (fun _ => 0) (fun _ _ _ => rfl)
      (fun s now mode fo => congrArg (fun t : ds5_custom_hid_timestamp_reader => t.counter)
        (custom_hid_get_frame_timestamp_self s now mode fo))
      (fun _ _ _ => rfl) 0 calls hcalls
      ds5_custom_hid_timestamp_reader.construct 0 (by decide) rfl).2
    unfold ds5_custom_hid_timestamp_reader.get_frame_counter
    simp only []
    rw [hrun, wrap_int64_succ]
    have := to_unsigned_long_long_wrap_int64 (calls_on_pin (fun _ => 0) 0 calls + 1) hk
    push_cast at this
    rw [zero_add, this]
  · intro s p hp
    unfold ds5_custom_hid_timestamp_reader.get_frame_counter
    simp only []
    rw [List.getD_eq_getElem?_getD, List.getElem?_set_ne (Ne.symm hp),
      ← List.getD_eq_getElem?_getD]

/-- C14, an instance: after three counter queries with three different routing
descriptors, a fourth query returns 4. -/
theorem custom_hid_shared_counter_witness :
    (ds5_custom_hid_timestamp_reader.get_frame_counter
      (ds5_custom_hid_timestamp_reader.interface.run ds5_custom_hid_timestamp_reader.construct
        [.get_frame_counter ⟨0⟩ frame_custom_report,
         .get_frame_counter ⟨GYRO⟩ frame_without_metadata,
         .get_frame_timestamp 3 ⟨0⟩ frame_custom_report,
         .get_frame_counter ⟨Z16⟩ frame_custom_report])
      ⟨7⟩ frame_custom_report).value = .ok 4 :=
  (custom_hid_shared_counter
    [.get_frame_counter ⟨0⟩ frame_custom_report,
     .get_frame_counter ⟨GYRO⟩ frame_without_metadata,
     .get_frame_timestamp 3 ⟨0⟩ frame_custom_report,
     .get_frame_counter ⟨Z16⟩ frame_custom_report]
    ⟨7⟩ frame_custom_report
    (by intro c hc; simp at hc; rcases hc with rfl | rfl | rfl | rfl <;> rfl)).1 (by decide)

/-- The values the custom-HID reader returns over a sequence of calls without
`reset`, from a reader whose slot 0 holds the count `z`: the counts `z + 1`,
`z + 2`, and so on, one for each `get_frame_counter` call. -/
theorem custom_hid_counter_values (calls : List reader_call)
    (hcalls : ∀ c ∈ calls, c.is_reset = false) :
    ∀ (s : ds5_custom_hid_timestamp_reader) (z : Int), 0 < s.counter.length →
      s.counter.getD 0 0 = wrap_int64 z →
      ds5_custom_hid_timestamp_reader.interface.counter_values s calls
        = (List.range (calls_on_pin (fun _ => 0) 0 calls)).map
            (fun i => .ok (to_unsigned_long_long (wrap_int64 (z + (i : Int) + 1)))) := by
  induction calls with
  | nil => intro s z _ _; rfl
  | cons c calls ih =>
    intro s z hlen hz
    have hrest : ∀ d ∈ calls, d.is_reset = false := fun d hd =>
      hcalls d (List.mem_cons_of_mem _ hd)
    have hc : c.is_reset = false := hcalls c (List.mem_cons_self _ _)
    cases c with
    | reset => simp [reader_call.is_reset] at hc
    | get_frame_timestamp now mode fo =>
      have hs : ds5_custom_hid_timestamp_reader.interface.after s
          (.get_frame_timestamp now mode fo) = s :=
        custom_hid_get_frame_timestamp_self s now mode fo
      simp only [frame_timestamp_reader.counter_values, calls_on_pin, hs]
      exact ih hrest s z hlen hz
    | get_frame_timestamp_domain mode fo =>
      simp only [frame_timestamp_reader.counter_values, calls_on_pin]
      exact ih hrest s z hlen hz
    | get_frame_counter mode fo =>
      have hafter : (ds5_custom_hid_timestamp_reader.interface.after s
          (.get_frame_counter mode fo)).counter
          = s.counter.set 0 (wrap_int64 (s.counter.getD 0 0 + 1)) := rfl
      have hvalue : (ds5_custom_hid_timestamp_reader.interface.get_frame_counter s mode fo).value
          = .ok (to_unsigned_long_long (wrap_int64 (z + 1))) := by
        show Except.ok (to_unsigned_long_long (wrap_int64 (s.counter.getD 0 0 + 1))) = _
        rw [hz, wrap_int64_succ]
      have hnext := ih hrest (ds5_custom_hid_timestamp_reader.interface.after s
        (.get_frame_counter mode fo)) (z + 1)
        (by rw [hafter, List.length_set]; exact hlen)
        (by rw [hafter, getD_set_self_of_lt _ _ _ _ hlen, hz, wrap_int64_succ])
      simp only [frame_timestamp_reader.counter_values, calls_on_pin, if_true, hvalue, hnext]
      rw [Nat.add_comm 1, List.range_succ_eq_map, List.map_cons, List.map_map]
      simp only [Nat.cast_zero, add_zero, List.cons.injEq, true_and]
      apply List.map_congr_left
      intro i _
      simp only [Function.comp, Nat.succ_eq_add_one, Nat.cast_add, Nat.cast_one]
      congr 3
      ring

/-- After `reset` a custom-HID reader equals a freshly constructed one, whatever
calls came before. -/
theorem custom_hid_reset_run (calls : List reader_call) :
    ds5_custom_hid_timestamp_reader.reset
      (ds5_custom_hid_timestamp_reader.interface.run
        ds5_custom_hid_timestamp_reader.construct calls)
      = ds5_custom_hid_timestamp_reader.construct := by
  unfold ds5_custom_hid_timestamp_reader.reset
  have h := fill_first_four (0 : Int) _ (custom_hid_counter_length calls)
  simp only [ds5_custom_hid_timestamp_reader.sensors, h]
  rfl

/-- The values a freshly constructed custom-HID reader returns over a sequence of
calls without `reset` that holds `n < 2 ^ 63` calls of `get_frame_counter`. -/
theorem custom_hid_counter_values_construct (calls : List reader_call)
    (hcalls : ∀ c ∈ calls, c.is_reset = false)
    (hn : calls_on_pin (fun _ => 0) 0 calls < 2 ^ 63) :
    ds5_custom_hid_timestamp_reader.interface.counter_values
        ds5_custom_hid_timestamp_reader.construct calls
      = (List.range (calls_on_pin (fun _ => 0) 0 calls)).map (fun i => .ok (i + 1)) := by
  rw [custom_hid_counter_values calls hcalls ds5_custom_hid_timestamp_reader.construct 0
    (by decide) rfl]
  apply List.map_congr_left
  intro i hi
  have hi' : i < calls_on_pin (fun _ => 0) 0 calls := List.mem_range.mp hi
  have := to_unsigned_long_long_wrap_int64 (i + 1) (by omega)
  push_cast at this
  rw [zero_add, this]

/-- C15 refuted as stated: on a freshly constructed custom-HID reader the calls
`get_frame_counter`, `reset`, `get_frame_counter` return 1 and 1: the second value
is not greater than the first. -/
theorem custom_hid_counter_lifetime_counterexample :
    ds5_custom_hid_timestamp_reader.interface.counter_values
        ds5_custom_hid_timestamp_reader.construct
        [.get_frame_counter ⟨0⟩ frame_custom_report, .reset,
         .get_frame_counter ⟨0⟩ frame_custom_report]
      = [.ok 1, .ok 1] ∧
    ¬ ((1 : Nat) < 1) :=
  ⟨rfl, by decide⟩

/-- C15 (as amended): the frame counter of the custom-HID reader increases between
two resets.  After construction, or after a `reset` that follows any calls, the
`get_frame_counter` calls of a sequence of calls without `reset` return 1, 2, 3 and
so on (for counts in the range of the `int64_t` slot), whatever
`get_frame_timestamp` and `get_frame_timestamp_domain` calls lie between them: each
value is greater than every value returned earlier in the sequence.  A `reset`
starts the count again: the next `get_frame_counter` returns 1. -/
theorem custom_hid_counter_increases_between_resets (before calls : List reader_call)
    (mode : request_mapping) (fo : frame_object)
    (hcalls : ∀ c ∈ calls, c.is_reset = false)
    (hn : calls_on_pin (fun _ => 0) 0 calls < 2 ^ 63) :
    ds5_custom_hid_timestamp_reader.interface.counter_values
        ds5_custom_hid_timestamp_reader.construct calls
      = (List.range (calls_on_pin (fun _ => 0) 0 calls)).map (fun i => .ok (i + 1)) ∧
    ds5_custom_hid_timestamp_reader.interface.counter_values
        (ds5_custom_hid_timestamp_reader.reset
          (ds5_custom_hid_timestamp_reader.interface.run
            ds5_custom_hid_timestamp_reader.construct before)) calls
      = (List.range (calls_on_pin (fun _ => 0) 0 calls)).map (fun i => .ok (i + 1)) ∧
    List.Pairwise (fun a b => ∃ x y : Nat, a = Except.ok x ∧ b = Except.ok y ∧ x < y)
      (ds5_custom_hid_timestamp_reader.interface.counter_values
        (ds5_custom_hid_timestamp_reader.reset
          (ds5_custom_hid_timestamp_reader.interface.run
            ds5_custom_hid_timestamp_reader.construct before)) calls) ∧
    (ds5_custom_hid_timestamp_reader.get_frame_counter
        (ds5_custom_hid_timestamp_reader.reset
          (ds5_custom_hid_timestamp_reader.interface.run
            ds5_custom_hid_timestamp_reader.construct before)) mode fo).value = .ok 1 := by
  have hvalues := custom_hid_counter_values_construct calls hcalls hn
  rw [custom_hid_reset_run before]
  refine ⟨hvalues, hvalues, ?_, rfl⟩
  rw [hvalues, List.pairwise_map]
  exact (List.pairwise_lt_range _).imp (fun {a b} hab => ⟨a + 1, b + 1, rfl, rfl, by omega⟩)

/-- C15, an instance: after a counter query and a `reset`, three counter queries
with a timestamp query between them return 1, 2 and 3. -/
theorem custom_hid_counter_increases_between_resets_witness :
    ds5_custom_hid_timestamp_reader.interface.counter_values
        (ds5_custom_hid_timestamp_reader.reset
          (ds5_custom_hid_timestamp_reader.interface.run
            ds5_custom_hid_timestamp_reader.construct
            [.get_frame_counter ⟨0⟩ frame_custom_report]))
        [.get_frame_counter ⟨0⟩ frame_custom_report,
         .get_frame_timestamp 3 ⟨0⟩ frame_custom_report,
         .get_frame_counter ⟨GYRO⟩ frame_custom_report,
         .get_frame_counter ⟨Z16⟩ frame_custom_report]
      = [.ok 1, .ok 2, .ok 3] :=
  (custom_hid_counter_increases_between_resets
    [.get_frame_counter ⟨0⟩ frame_custom_report]
    [.get_frame_counter ⟨0⟩ frame_custom_report,
     .get_frame_timestamp 3 ⟨0⟩ frame_custom_report,
     .get_frame_counter ⟨GYRO⟩ frame_custom_report,
     .get_frame_counter ⟨Z16⟩ frame_custom_report]
    ⟨0⟩ frame_custom_report
    (by intro c hc; simp at hc; rcases hc with rfl | rfl | rfl | rfl <;> rfl)
    (by decide)).2.1

/-- C16: for every reader, routing descriptor and frame, the custom-HID reader's
`get_frame_timestamp_domain` returns `RS2_TIMESTAMP_DOMAIN_HARDWARE_CLOCK`, logs
nothing and leaves the reader as it is, and its `has_metadata` returns `true` for
every routing descriptor, metadata pointer and metadata length. -/
theorem custom_hid_domain_always_hardware (s : ds5_custom_hid_timestamp_reader)
    (mode : request_mapping) (fo : frame_object) (metadata : Option (List byte))
    (metadata_size : Nat) :
    (ds5_custom_hid_timestamp_reader.get_frame_timestamp_domain s mode fo).value
      = .ok .RS2_TIMESTAMP_DOMAIN_HARDWARE_CLOCK ∧
    (ds5_custom_hid_timestamp_reader.get_frame_timestamp_domain s mode fo).log = [] ∧
    (ds5_custom_hid_timestamp_reader.get_frame_timestamp_domain s mode fo).self = s ∧
    ds5_custom_hid_timestamp_reader.has_metadata mode metadata metadata_size = true :=
  ⟨rfl, rfl, rfl, rfl⟩

/-! ## Vector lengths and pin indices -/

/-- Every call of the metadata-backed reader keeps the length of the flag vector. -/
theorem from_metadata_after_flags_length {σ : Type} (B : frame_timestamp_reader σ)
    (s : ds5_timestamp_reader_from_metadata σ) (c : reader_call) :
    ((ds5_timestamp_reader_from_metadata.interface B).after s c)._has_metadata.length
      = s._has_metadata.length := by
  cases c with
  | reset => exact fill_first_length _ _ _
  | get_frame_counter mode fo =>
    exact congrArg List.length (from_metadata_get_frame_counter_flags B s mode fo)
  | get_frame_timestamp_domain mode fo =>
    exact congrArg List.length (from_metadata_get_frame_timestamp_domain_flags B s mode fo)
  | get_frame_timestamp now mode fo =>
    show (ds5_timestamp_reader_from_metadata.get_frame_timestamp B s now mode
      fo).self._has_metadata.length = s._has_metadata.length
    rw [from_metadata_get_frame_timestamp_flags]
    split
    · rfl
    · split
      · rfl
      · exact List.length_set _ _ _

/-- The flag vector of a metadata-backed reader has two slots at all times. -/
theorem from_metadata_flags_length {σ : Type} (B : frame_timestamp_reader σ) (backup : σ)
    (calls : List reader_call) :
    ((ds5_timestamp_reader_from_metadata.interface B).run
      (ds5_timestamp_reader_from_metadata.construct backup) calls)._has_metadata.length = 2 := by
  rw [run_preserves (ds5_timestamp_reader_from_metadata.interface B)
    (fun s => s._has_metadata.length) (from_metadata_after_flags_length B)]
  rfl

/-- C17: pin indexing never goes out of bounds.  After construction and after every
sequence of calls, `reset` included, the flag vector of the metadata-backed reader
(over any fallback) and the counter vectors of the free-running and HID motion
readers have 2 slots and the counter vector of the custom-HID reader has 4.  For
every format tag the pin index of the first three readers is 0 or 1, and 0 for
every tag other than `0x5a313620` (`'GYRO'` for the HID motion reader); the
custom-HID reader uses slot 0.  So every index used is below the length of the
vector it indexes. -/
theorem pin_index_in_bounds (calls : List reader_call) (mode : request_mapping) :
    ((∀ (σ : Type) (B : frame_timestamp_reader σ) (backup : σ),
        ((ds5_timestamp_reader_from_metadata.interface B).run
          (ds5_timestamp_reader_from_metadata.construct backup) calls)._has_metadata.length
          = ds5_timestamp_reader_from_metadata.pins ∧
        ds5_timestamp_reader_from_metadata.pin_index mode
          < ((ds5_timestamp_reader_from_metadata.interface B).run
            (ds5_timestamp_reader_from_metadata.construct backup) calls)._has_metadata.length) ∧
      ds5_timestamp_reader_from_metadata.pins = 2 ∧
      (ds5_timestamp_reader_from_metadata.pin_index mode = 0
        ∨ ds5_timestamp_reader_from_metadata.pin_index mode = 1) ∧
      (mode.fourcc ≠ 0x5a313620 → ds5_timestamp_reader_from_metadata.pin_index mode = 0)) ∧
    ((ds5_timestamp_reader.interface.run ds5_timestamp_reader.construct calls).counter.length
        = ds5_timestamp_reader.pins ∧
      ds5_timestamp_reader.pins = 2 ∧
      ds5_timestamp_reader.pin_index mode
        < (ds5_timestamp_reader.interface.run ds5_timestamp_reader.construct
            calls).counter.length ∧
      (ds5_timestamp_reader.pin_index mode = 0 ∨ ds5_timestamp_reader.pin_index mode = 1) ∧
      (mode.fourcc ≠ 0x5a313620 → ds5_timestamp_reader.pin_index mode = 0)) ∧
    ((ds5_iio_hid_timestamp_reader.interface.run ds5_iio_hid_timestamp_reader.construct
        calls).counter.length = ds5_iio_hid_timestamp_reader.sensors ∧
      ds5_iio_hid_timestamp_reader.sensors = 2 ∧
      ds5_iio_hid_timestamp_reader.index mode
        < (ds5_iio_hid_timestamp_reader.interface.run ds5_iio_hid_timestamp_reader.construct
            calls).counter.length ∧
      (ds5_iio_hid_timestamp_reader.index mode = 0
        ∨ ds5_iio_hid_timestamp_reader.index mode = 1) ∧
      (mode.fourcc ≠ 0x4759524f → ds5_iio_hid_timestamp_reader.index mode = 0)) ∧
    ((ds5_custom_hid_timestamp_reader.interface.run ds5_custom_hid_timestamp_reader.construct
        calls).counter.length = ds5_custom_hid_timestamp_reader.sensors ∧
      ds5_custom_hid_timestamp_reader.sensors = 4 ∧
      0 < (ds5_custom_hid_timestamp_reader.interface.run
            ds5_custom_hid_timestamp_reader.construct calls).counter.length) := by
  have hmeta := from_metadata_pin_index_lt mode
  have hfree := free_running_pin_index_lt mode
  have hhid := iio_hid_index_lt mode
  refine ⟨⟨?_, rfl, by omega, ?_⟩, ⟨free_running_counter_length calls, rfl, ?_, by omega, ?_⟩,
    ⟨iio_hid_counter_length calls, rfl, ?_, by omega, ?_⟩,
    ⟨custom_hid_counter_length calls, rfl, ?_⟩⟩
  · intro σ B backup
    rw [from_metadata_flags_length B backup calls]
    exact ⟨rfl, hmeta⟩
  · intro h
    exact if_neg h
  · rw [free_running_counter_length calls]; exact hfree
  · intro h
    exact if_neg h
  · rw [iio_hid_counter_length calls]; exact hhid
  · intro h
    exact if_neg h
  · rw [custom_hid_counter_length calls]; decide

/-- C17, an instance: after a `reset` between two counter queries the vectors have
their declared lengths, and the tag 7 is sent to pin 0. -/
theorem pin_index_in_bounds_witness :
    (ds5_timestamp_reader.interface.run ds5_timestamp_reader.construct
      [.get_frame_counter ⟨Z16⟩ frame_without_metadata, .reset,
       .get_frame_counter ⟨7⟩ frame_without_metadata]).counter.length = 2 ∧
    ds5_timestamp_reader_from_metadata.pin_index ⟨7⟩ = 0 ∧
    ds5_iio_hid_timestamp_reader.index ⟨7⟩ = 0 :=
  ⟨((pin_index_in_bounds
      [.get_frame_counter ⟨Z16⟩ frame_without_metadata, .reset,
       .get_frame_counter ⟨7⟩ frame_without_metadata] ⟨7⟩).2.1).1,
   ((pin_index_in_bounds [] ⟨7⟩).1).2.2.2 (by decide),
   ((pin_index_in_bounds [] ⟨7⟩).2.2.1).2.2.2.2 (by decide)⟩

/-! ## The warning -/

/-- The warnings of a sequence of calls made after another one. -/
theorem logs_append {σ : Type} (R : frame_timestamp_reader σ) (pre post : List reader_call) :
    ∀ s : σ, R.logs s (pre ++ post) = R.logs s pre ++ R.logs (R.run s pre) post := by
  induction pre with
  | nil => intro s; rfl
  | cons c pre ih =>
    intro s
    show R.log_of s c ++ R.logs (R.after s c) (pre ++ post)
      = (R.log_of s c ++ R.logs (R.after s c) pre) ++ R.logs (R.run (R.after s c) pre) post
    rw [ih, List.append_assoc]

/-- Warn-once along a run.  Let `started` read the warn-once flag of a reader and
`fallback` tell whether a call takes the fallback path, and let every call other
than `reset` log the warning `w` exactly when it takes the fallback path with the
flag not set, and set the flag exactly when it takes the fallback path.  Then over
calls without `reset`: once the flag is set nothing is logged and the flag stays
set; and while no call takes the fallback path nothing is logged and the flag
stays as it is. -/
theorem warn_once_run {σ : Type} (R : frame_timestamp_reader σ) (started : σ → Bool)
    (fallback : σ → reader_call → Bool) (w : String)
    (hstep : ∀ s c, c.is_reset = false →
      R.log_of s c = (if fallback s c && !started s then [w] else []) ∧
      started (R.after s c) = (started s || fallback s c))
    (calls : List reader_call) (hcalls : ∀ c ∈ calls, c.is_reset = false) :
    ∀ s : σ,
      (started s = true → R.logs s calls = [] ∧ started (R.run s calls) = true) ∧
      ((∀ before c after, calls = before ++ c :: after → fallback (R.run s before) c = false) →
        R.logs s calls = [] ∧ started (R.run s calls) = started s) := by
  induction calls with
  | nil => intro s; exact ⟨fun h => ⟨rfl, h⟩, fun _ => ⟨rfl, rfl⟩⟩
  | cons c calls ih =>
    intro s
    have hc : c.is_reset = false := hcalls c (List.mem_cons_self _ _)
    have hrest : ∀ d ∈ calls, d.is_reset = false := fun d hd =>
      hcalls d (List.mem_cons_of_mem _ hd)
    have hrun : R.run s (c :: calls) = R.run (R.after s c) calls := rfl
    obtain ⟨hlog, hstarted⟩ := hstep s c hc
    constructor
    · intro hs
      have hnext : started (R.after s c) = true := by rw [hstarted, hs]; rfl
      obtain ⟨h1, h2⟩ := (ih hrest (R.after s c)).1 hnext
      refine ⟨?_, by rw [hrun]; exact h2⟩
      simp only [frame_timestamp_reader.logs, hlog, hs, h1, Bool.not_true, Bool.and_false,
        Bool.false_eq_true, if_false, List.append_nil]
    · intro hnone
      have hfc : fallback s c = false := hnone [] c calls rfl
      have hnext : ∀ before d after, calls = before ++ d :: after →
          fallback (R.run (R.after s c) before) d = false := by
        intro before d after hsplit
        exact hnone (c :: before) d after (by rw [hsplit]; rfl)
      obtain ⟨h1, h2⟩ := (ih hrest (R.after s c)).2 hnext
      refine ⟨?_, by rw [hrun, h2, hstarted, hfc, Bool.or_false]⟩
      simp only [frame_timestamp_reader.logs, hlog, hfc, h1, Bool.false_and,
        Bool.false_eq_true, if_false, List.append_nil]

/-- The statement of lines 95-98 leaves the warn-once flag as it is. -/
theorem from_metadata_latch_started {σ : Type} (s s1 : ds5_timestamp_reader_from_metadata σ)
    (mode : request_mapping) (fo : frame_object)
    (h : ds5_timestamp_reader_from_metadata.latch s mode fo = .ok s1) :
    s1.started = s.started := by
  unfold ds5_timestamp_reader_from_metadata.latch at h
  split at h
  · split at h
    · cases h
    · injection h with h
      rw [← h]
  · injection h with h
    rw [← h]

/-- One call of the metadata-backed reader over a fallback that logs nothing: the
warning is logged exactly when the call takes the fallback path with the
warn-once flag not set, and the flag is set exactly when the call takes the
fallback path. -/
theorem from_metadata_warning_step {σ : Type} (B : frame_timestamp_reader σ)
    (hq1 : ∀ t now mode fo, (B.get_frame_timestamp t now mode fo).log = [])
    (hq2 : ∀ t mode fo, (B.get_frame_counter t mode fo).log = [])
    (hq3 : ∀ t mode fo, (B.get_frame_timestamp_domain t mode fo).log = [])
    (s : ds5_timestamp_reader_from_metadata σ) (c : reader_call) (hc : c.is_reset = false) :
    (ds5_timestamp_reader_from_metadata.interface B).log_of s c
      = (if s.takes_fallback c && !s.started
          then ["UVC timestamp not found! please apply UVC metadata patch."] else []) ∧
    ((ds5_timestamp_reader_from_metadata.interface B).after s c).started
      = (s.started || s.takes_fallback c) := by
  cases c with
  | reset => simp [reader_call.is_reset] at hc
  | get_frame_counter mode fo =>
    show (ds5_timestamp_reader_from_metadata.get_frame_counter B s mode fo).log = _ ∧
      (ds5_timestamp_reader_from_metadata.get_frame_counter B s mode fo).self.started = _
    unfold ds5_timestamp_reader_from_metadata.get_frame_counter
      ds5_timestamp_reader_from_metadata.takes_fallback
    split
    · split <;> simp
    · simp [hq2]
  | get_frame_timestamp_domain mode fo =>
    show (ds5_timestamp_reader_from_metadata.get_frame_timestamp_domain B s mode fo).log = _ ∧
      (ds5_timestamp_reader_from_metadata.get_frame_timestamp_domain B s mode fo).self.started
        = _
    unfold ds5_timestamp_reader_from_metadata.get_frame_timestamp_domain
      ds5_timestamp_reader_from_metadata.takes_fallback
    split
    · simp
    · simp [hq3]
  | get_frame_timestamp now mode fo =>
    show (ds5_timestamp_reader_from_metadata.get_frame_timestamp B s now mode fo).log = _ ∧
      (ds5_timestamp_reader_from_metadata.get_frame_timestamp B s now mode fo).self.started = _
    cases hl : ds5_timestamp_reader_from_metadata.latch s mode fo with
    | error f =>
      have htf : s.takes_fallback (.get_frame_timestamp now mode fo) = false := by
        simp only [ds5_timestamp_reader_from_metadata.takes_fallback, hl]
      have hres : ds5_timestamp_reader_from_metadata.get_frame_timestamp B s now mode fo
          = { value := .error f, log := [], self := s } := by
        simp only [ds5_timestamp_reader_from_metadata.get_frame_timestamp, hl]
      rw [htf, hres]
      exact ⟨rfl, (Bool.or_false _).symm⟩
    | ok s1 =>
      have hs1 := from_metadata_latch_started s s1 mode fo hl
      by_cases hflag : s1._has_metadata.getD (ds5_timestamp_reader_from_metadata.pin_index mode)
          false = true
      · have htf : s.takes_fallback (.get_frame_timestamp now mode fo) = false := by
          simp only [ds5_timestamp_reader_from_metadata.takes_fallback, hl, hflag, Bool.not_true]
        rw [htf]
        unfold ds5_timestamp_reader_from_metadata.get_frame_timestamp
        simp only [hl, hflag, if_true]
        split <;> exact ⟨rfl, by rw [Bool.or_false]; exact hs1⟩
      · have hflag' : s1._has_metadata.getD (ds5_timestamp_reader_from_metadata.pin_index mode)
            false = false := by simpa using hflag
        have htf : s.takes_fallback (.get_frame_timestamp now mode fo) = true := by
          simp only [ds5_timestamp_reader_from_metadata.takes_fallback, hl, hflag',
            Bool.not_false]
        rw [htf]
        unfold ds5_timestamp_reader_from_metadata.get_frame_timestamp
        simp only [hl, hflag', Bool.false_eq_true, if_false, hq1, List.append_nil, hs1,
          Bool.true_and, Bool.or_true]
        cases hst : s.started <;> simp [hs1, hst]

/-- One call of the HID motion reader: the warning is logged exactly when the call
takes the fallback path with the warn-once flag not set, and the flag is set
exactly when the call takes the fallback path. -/
theorem iio_hid_warning_step (s : ds5_iio_hid_timestamp_reader) (c : reader_call)
    (hc : c.is_reset = false) :
    ds5_iio_hid_timestamp_reader.interface.log_of s c
      = (if s.takes_fallback c && !s.started
          then ["HID timestamp not found! please apply HID patch."] else []) ∧
    (ds5_iio_hid_timestamp_reader.interface.after s c).started
      = (s.started || s.takes_fallback c) := by
  cases c with
  | reset => simp [reader_call.is_reset] at hc
  | get_frame_counter mode fo => exact ⟨rfl, (Bool.or_false _).symm⟩
  | get_frame_timestamp_domain mode fo =>
    show (ds5_iio_hid_timestamp_reader.get_frame_timestamp_domain s mode fo).log = _ ∧
      (ds5_iio_hid_timestamp_reader.get_frame_timestamp_domain s mode fo).self.started = _
    rw [iio_hid_get_frame_timestamp_domain_self]
    refine ⟨?_, (Bool.or_false _).symm⟩
    unfold ds5_iio_hid_timestamp_reader.get_frame_timestamp_domain
    split <;> rfl
  | get_frame_timestamp now mode fo =>
    show (ds5_iio_hid_timestamp_reader.get_frame_timestamp s now mode fo).log = _ ∧
      (ds5_iio_hid_timestamp_reader.get_frame_timestamp s now mode fo).self.started = _
    by_cases h : fo.metadata ≠ none ∧ fo.metadata_size > 0
    · have htf : s.takes_fallback (.get_frame_timestamp now mode fo) = false := by
        simp only [ds5_iio_hid_timestamp_reader.takes_fallback,
          ds5_iio_hid_timestamp_reader.has_metadata, if_pos h, Bool.not_true]
      rw [htf, iio_hid_get_frame_timestamp_with_metadata s now mode fo h]
      split <;> exact ⟨rfl, (Bool.or_false _).symm⟩
    · have htf : s.takes_fallback (.get_frame_timestamp now mode fo) = true := by
        simp only [ds5_iio_hid_timestamp_reader.takes_fallback,
          ds5_iio_hid_timestamp_reader.has_metadata, if_neg h, Bool.not_false]
      rw [htf, iio_hid_get_frame_timestamp_without_metadata s now mode fo h]
      cases hst : s.started <;> simp

/-- The warning along a run that is split at the first call that takes the fallback
path, under the assumptions of `warn_once_run` and from a reader whose warn-once
flag is not set: nothing is logged before that call, the call logs the warning,
nothing is logged after it, and the warning is all the run logs. -/
theorem warn_once_split {σ : Type} (R : frame_timestamp_reader σ) (started : σ → Bool)
    (fallback : σ → reader_call → Bool) (w : String)
    (hstep : ∀ s c, c.is_reset = false →
      R.log_of s c = (if fallback s c && !started s then [w] else []) ∧
      started (R.after s c) = (started s || fallback s c))
    (s : σ) (before : List reader_call) (c : reader_call) (after : List reader_call)
    (hcalls : ∀ d ∈ before ++ c :: after, d.is_reset = false)
    (hstarted : started s = false)
    (hfirst : ∀ b1 d b2, before = b1 ++ d :: b2 → fallback (R.run s b1) d = false)
    (hc : fallback (R.run s before) c = true) :
    R.logs s before = [] ∧ R.log_of (R.run s before) c = [w] ∧
    R.logs (R.after (R.run s before) c) after = [] ∧
    R.logs s (before ++ c :: after) = [w] := by
  have hbefore : ∀ d ∈ before, d.is_reset = false := fun d hd =>
    hcalls d (List.mem_append_left _ hd)
  have hcr : c.is_reset = false :=
    hcalls c (List.mem_append_right _ (List.mem_cons_self _ _))
  have hafter : ∀ d ∈ after, d.is_reset = false := fun d hd =>
    hcalls d (List.mem_append_right _ (List.mem_cons_of_mem _ hd))
  obtain ⟨h1, h2⟩ := (warn_once_run R started fallback w hstep before hbefore s).2 hfirst
  obtain ⟨h3, h4⟩ := hstep (R.run s before) c hcr
  have hlogc : R.log_of (R.run s before) c = [w] := by
    rw [h3, hc, h2, hstarted]
    rfl
  have hnext : started (R.after (R.run s before) c) = true := by
    rw [h4, hc, Bool.or_true]
  obtain ⟨h5, _⟩ := (warn_once_run R started fallback w hstep after hafter _).1 hnext
  refine ⟨h1, hlogc, h5, ?_⟩
  rw [logs_append, h1]
  show [] ++ (R.log_of (R.run s before) c ++ R.logs (R.after (R.run s before) c) after) = [w]
  rw [hlogc, h5]
  rfl

/-- C18: warn-once.  Take a metadata-backed reader over a fallback that logs nothing
of its own, or a HID motion reader, whose warn-once flag is not set (as after
construction and after `reset`), and a sequence of calls without `reset`.  If the
call `c` is the first that takes the fallback path, then nothing is logged before
`c`, `c` logs the fallback warning, nothing is logged after `c`, on whichever pin,
and the warning is all the sequence logs.  If no call takes the fallback path, or
the warn-once flag is set at the start, nothing is logged. -/
theorem warning_logged_once :
    (∀ (σ : Type) (B : frame_timestamp_reader σ),
      (∀ t now mode fo, (B.get_frame_timestamp t now mode fo).log = []) →
      (∀ t mode fo, (B.get_frame_counter t mode fo).log = []) →
      (∀ t mode fo, (B.get_frame_timestamp_domain t mode fo).log = []) →
      (∀ (s : ds5_timestamp_reader_from_metadata σ) (before : List reader_call)
        (c : reader_call) (after : List reader_call),
        (∀ d ∈ before ++ c :: after, d.is_reset = false) → s.started = false →
        (∀ b1 d b2, before = b1 ++ d :: b2 →
          ((ds5_timestamp_reader_from_metadata.interface B).run s b1).takes_fallback d
            = false) →
        ((ds5_timestamp_reader_from_metadata.interface B).run s before).takes_fallback c
          = true →
        (ds5_timestamp_reader_from_metadata.interface B).logs s before = [] ∧
        (ds5_timestamp_reader_from_metadata.interface B).log_of
            ((ds5_timestamp_reader_from_metadata.interface B).run s before) c
          = ["UVC timestamp not found! please apply UVC metadata patch."] ∧
        (ds5_timestamp_reader_from_metadata.interface B).logs
            ((ds5_timestamp_reader_from_metadata.interface B).after
              ((ds5_timestamp_reader_from_metadata.interface B).run s before) c) after = [] ∧
        (ds5_timestamp_reader_from_metadata.interface B).logs s (before ++ c :: after)
          = ["UVC timestamp not found! please apply UVC metadata patch."]) ∧
      (∀ (s : ds5_timestamp_reader_from_metadata σ) (calls : List reader_call),
        (∀ d ∈ calls, d.is_reset = false) →
        (s.started = true ∨
          ∀ b1 d b2, calls = b1 ++ d :: b2 →
            ((ds5_timestamp_reader_from_metadata.interface B).run s b1).takes_fallback d
              = false) →
        (ds5_timestamp_reader_from_metadata.interface B).logs s calls = []) ∧
      (∀ s : ds5_timestamp_reader_from_metadata σ,
        (ds5_timestamp_reader_from_metadata.reset s).started = false) ∧
      (∀ backup : σ, (ds5_timestamp_reader_from_metadata.construct backup).started = false)) ∧
    ((∀ (s : ds5_iio_hid_timestamp_reader) (before : List reader_call)
        (c : reader_call) (after : List reader_call),
        (∀ d ∈ before ++ c :: after, d.is_reset = false) → s.started = false →
        (∀ b1 d b2, before = b1 ++ d :: b2 →
          (ds5_iio_hid_timestamp_reader.interface.run s b1).takes_fallback d = false) →
        (ds5_iio_hid_timestamp_reader.interface.run s before).takes_fallback c = true →
        ds5_iio_hid_timestamp_reader.interface.logs s before = [] ∧
        ds5_iio_hid_timestamp_reader.interface.log_of
            (ds5_iio_hid_timestamp_reader.interface.run s before) c
          = ["HID timestamp not found! please apply HID patch."] ∧
        ds5_iio_hid_timestamp_reader.interface.logs
            (ds5_iio_hid_timestamp_reader.interface.after
              (ds5_iio_hid_timestamp_reader.interface.run s before) c) after = [] ∧
        ds5_iio_hid_timestamp_reader.interface.logs s (before ++ c :: after)
          = ["HID timestamp not found! please apply HID patch."]) ∧
      (∀ (s : ds5_iio_hid_timestamp_reader) (calls : List reader_call),
        (∀ d ∈ calls, d.is_reset = false) →
        (s.started = true ∨
          ∀ b1 d b2, calls = b1 ++ d :: b2 →
            (ds5_iio_hid_timestamp_reader.interface.run s b1).takes_fallback d = false) →
        ds5_iio_hid_timestamp_reader.interface.logs s calls = []) ∧
      (∀ s : ds5_iio_hid_timestamp_reader,
        (ds5_iio_hid_timestamp_reader.reset s).started = false) ∧
      ds5_iio_hid_timestamp_reader.construct.started = false) := by
  constructor
  · intro σ B hq1 hq2 hq3
    refine ⟨?_, ?_, fun _ => rfl, fun _ => rfl⟩
    · intro s before c after hcalls hstarted hfirst hc
      exact warn_once_split (ds5_timestamp_reader_from_metadata.interface B)
        (fun t => t.started) (fun t d => t.takes_fallback d) _
        (from_metadata_warning_step B hq1 hq2 hq3) s before c after hcalls hstarted hfirst hc
    · intro s calls hcalls h
      have hrun := warn_once_run (ds5_timestamp_reader_from_metadata.interface B)
        (fun t => t.started) (fun t d => t.takes_fallback d) _
        (from_metadata_warning_step B hq1 hq2 hq3) calls hcalls s
      rcases h with h | h
      · exact (hrun.1 h).1
      · exact (hrun.2 h).1
  · refine ⟨?_, ?_, fun _ => rfl, rfl⟩
    · intro s before c after hcalls hstarted hfirst hc
      exact warn_once_split ds5_iio_hid_timestamp_reader.interface
        (fun t => t.started) (fun t d => t.takes_fallback d) _
        iio_hid_warning_step s before c after hcalls hstarted hfirst hc
    · intro s calls hcalls h
      have hrun := warn_once_run ds5_iio_hid_timestamp_reader.interface
        (fun t => t.started) (fun t d => t.takes_fallback d) _
        iio_hid_warning_step calls hcalls s
      rcases h with h | h
      · exact (hrun.1 h).1
      · exact (hrun.2 h).1

/-- C18, an instance: on a freshly constructed reader over a free-running fallback a
frame with metadata on the Z16 pin logs nothing, the first frame without metadata
(pin 0) logs the warning, and the frames without metadata that follow, on pin 0 and
on the Z16 pin, log nothing more.  The same for two frames without metadata on a
HID motion reader. -/
theorem warning_logged_once_witness :
    (ds5_timestamp_reader_from_metadata.interface ds5_timestamp_reader.interface).logs
      (ds5_timestamp_reader_from_metadata.construct ds5_timestamp_reader.construct)
      ([] ++ .get_frame_timestamp 2 ⟨0⟩ frame_without_metadata ::
        [.get_frame_timestamp 3 ⟨0⟩ frame_without_metadata,
         .get_frame_counter ⟨0⟩ frame_without_metadata,
         .get_frame_timestamp 4 ⟨Z16⟩ frame_zero_metadata])
      = ["UVC timestamp not found! please apply UVC metadata patch."] ∧
    ds5_iio_hid_timestamp_reader.interface.logs ds5_iio_hid_timestamp_reader.construct
      ([] ++ .get_frame_timestamp 2 ⟨GYRO⟩ frame_without_metadata ::
        [.get_frame_timestamp 3 ⟨0⟩ frame_without_metadata])
      = ["HID timestamp not found! please apply HID patch."] :=
  ⟨((warning_logged_once.1 ds5_timestamp_reader ds5_timestamp_reader.interface
      (fun _ _ _ _ => rfl) (fun _ _ _ => rfl) (fun _ _ _ => rfl)).1
      (ds5_timestamp_reader_from_metadata.construct ds5_timestamp_reader.construct) []
      (.get_frame_timestamp 2 ⟨0⟩ frame_without_metadata)
      [.get_frame_timestamp 3 ⟨0⟩ frame_without_metadata,
       .get_frame_counter ⟨0⟩ frame_without_metadata,
       .get_frame_timestamp 4 ⟨Z16⟩ frame_zero_metadata]
      (by intro d hd; simp at hd; rcases hd with rfl | rfl | rfl | rfl <;> rfl) rfl
      (by intro b1 d b2 h; simp at h) (by decide)).2.2.2,
   (warning_logged_once.2.1 ds5_iio_hid_timestamp_reader.construct []
      (.get_frame_timestamp 2 ⟨GYRO⟩ frame_without_metadata)
      [.get_frame_timestamp 3 ⟨0⟩ frame_without_metadata]
      (by intro d hd; simp at hd; rcases hd with rfl | rfl <;> rfl) rfl
      (by intro b1 d b2 h; simp at h) (by decide)).2.2.2⟩

/-! ## The temperature options -/

/-- C19: temperature options queried while the endpoint is not streaming.  For
every option id and every answer the hardware would give, `query` of the
ASIC/projector temperature option throws `wrong_api_call_sequence_exception`,
returns no value and sends no request to the hardware; and so does `query` of the
motion-module temperature option, for every buffer the hardware would return and
every behaviour of `std::stof`. -/
theorem temperature_query_not_streaming :
    (∀ (ep : uvc_endpoint) (opt : rs2_option), ep.is_streaming = false →
      (asic_and_projector_temperature_options.query { _ep := ep, _option := opt }).value
        = .error .wrong_api_call_sequence_exception ∧
      (∀ x, (asic_and_projector_temperature_options.query { _ep := ep, _option := opt }).value
        ≠ .ok x) ∧
      (asic_and_projector_temperature_options.query { _ep := ep, _option := opt }).requests
        = []) ∧
    (∀ (stof : List byte → Except librealsense_exception float) (ep : hid_endpoint),
      ep.is_streaming = false →
      (motion_module_temperature_option.query stof { _ep := ep }).value
        = .error .wrong_api_call_sequence_exception ∧
      (∀ x, (motion_module_temperature_option.query stof { _ep := ep }).value ≠ .ok x) ∧
      (motion_module_temperature_option.query stof { _ep := ep }).requests = []) := by
  constructor
  · intro ep opt h
    have hq : asic_and_projector_temperature_options.query { _ep := ep, _option := opt }
        = { value := .error .wrong_api_call_sequence_exception, requests := [] } := by
      unfold asic_and_projector_temperature_options.query
        asic_and_projector_temperature_options.is_enabled
      simp only [h, Bool.not_false, if_true]
    rw [hq]
    exact ⟨rfl, fun x e => (by cases e), rfl⟩
  · intro stof ep h
    have hq : motion_module_temperature_option.query stof { _ep := ep }
        = { value := .error .wrong_api_call_sequence_exception, requests := [] } := by
      unfold motion_module_temperature_option.query
        motion_module_temperature_option.is_enabled
      simp only [h, Bool.not_false, if_true]
    rw [hq]
    exact ⟨rfl, fun x e => (by cases e), rfl⟩

/-- C19, an instance: an idle endpoint whose hardware would report a valid ASIC
temperature of 40, and an idle HID endpoint. -/
theorem temperature_query_not_streaming_witness :
    (asic_and_projector_temperature_options.query
      { _ep := { is_streaming := false,
                 get_xu_temperatures := some
                   { is_projector_valid := 1, is_asic_valid := 1,
                     projector_temperature := 35, asic_temperature := 40 } },
        _option := .RS2_OPTION_ASIC_TEMPERATURE }).value
      = .error .wrong_api_call_sequence_exception ∧
    (motion_module_temperature_option.query (fun _ => .ok 21)
      { _ep := { is_streaming := false, get_custom_report_data := fun _ => [50, 49, 0] } }).requests
      = [] :=
  ⟨(temperature_query_not_streaming.1 _ _ rfl).1,
   (temperature_query_not_streaming.2 (fun _ => .ok 21)
      { is_streaming := false, get_custom_report_data := fun _ => [50, 49, 0] } rfl).2.2⟩

/-- The ASIC/projector temperature `query` on a streaming endpoint whose hardware
answers the request. -/
theorem temperature_query_streaming (ep : uvc_endpoint) (opt : rs2_option) (t : temperature)
    (hstreaming : ep.is_streaming = true) (hreply : ep.get_xu_temperatures = some t) :
    asic_and_projector_temperature_options.query { _ep := ep, _option := opt } =
      match asic_and_projector_temperature_options.select_fields opt with
      | .error e => { value := .error e, requests := [.get_xu_asic_and_projector_temperatures] }
      | .ok (feild, is_valid_feild) =>
        if is_valid_feild t = 0 then
          { value := .error .invalid_value_exception,
            requests := [.get_xu_asic_and_projector_temperatures] }
        else
          { value := .ok ((as_int8 (feild t) : Int) : float),
            requests := [.get_xu_asic_and_projector_temperatures] } := by
  unfold asic_and_projector_temperature_options.query
    asic_and_projector_temperature_options.is_enabled
  simp only [hstreaming, hreply, Bool.not_true, Bool.false_eq_true, if_false]

/-- C20: the ASIC/projector temperature `query` while streaming.  Let the hardware
answer the request with the four octets `t`.  For the ASIC option `query` returns
`asic_temperature`, read as a signed 8-bit value, if `is_asic_valid` is not 0, and
throws `invalid_value_exception` if it is 0; for the projector option the same with
`projector_temperature` and `is_projector_valid`; for every other option id it
throws `invalid_value_exception`.  The result for one sensor is the same for any
two answers that agree on that sensor's two fields. -/
theorem temperature_query_while_streaming (ep : uvc_endpoint) (t : temperature)
    (hstreaming : ep.is_streaming = true) (hreply : ep.get_xu_temperatures = some t) :
    (t.is_asic_valid ≠ 0 →
      (asic_and_projector_temperature_options.query
        { _ep := ep, _option := .RS2_OPTION_ASIC_TEMPERATURE }).value
        = .ok ((as_int8 t.asic_temperature : Int) : float)) ∧
    (t.is_asic_valid = 0 →
      (asic_and_projector_temperature_options.query
        { _ep := ep, _option := .RS2_OPTION_ASIC_TEMPERATURE }).value
        = .error .invalid_value_exception) ∧
    (t.is_projector_valid ≠ 0 →
      (asic_and_projector_temperature_options.query
        { _ep := ep, _option := .RS2_OPTION_PROJECTOR_TEMPERATURE }).value
        = .ok ((as_int8 t.projector_temperature : Int) : float)) ∧
    (t.is_projector_valid = 0 →
      (asic_and_projector_temperature_options.query
        { _ep := ep, _option := .RS2_OPTION_PROJECTOR_TEMPERATURE }).value
        = .error .invalid_value_exception) ∧
    (∀ id, (asic_and_projector_temperature_options.query
        { _ep := ep, _option := .other id }).value = .error .invalid_value_exception) ∧
    (-(2 ^ 7) ≤ as_int8 t.asic_temperature ∧ as_int8 t.asic_temperature < 2 ^ 7 ∧
      -(2 ^ 7) ≤ as_int8 t.projector_temperature ∧ as_int8 t.projector_temperature < 2 ^ 7) ∧
    (∀ (ep' : uvc_endpoint) (t' : temperature), ep'.is_streaming = true →
      ep'.get_xu_temperatures = some t' →
      (t'.is_asic_valid = t.is_asic_valid → t'.asic_temperature = t.asic_temperature →
        (asic_and_projector_temperature_options.query
          { _ep := ep', _option := .RS2_OPTION_ASIC_TEMPERATURE }).value
        = (asic_and_projector_temperature_options.query
          { _ep := ep, _option := .RS2_OPTION_ASIC_TEMPERATURE }).value) ∧
      (t'.is_projector_valid = t.is_projector_valid →
        t'.projector_temperature = t.projector_temperature →
        (asic_and_projector_temperature_options.query
          { _ep := ep', _option := .RS2_OPTION_PROJECTOR_TEMPERATURE }).value
        = (asic_and_projector_temperature_options.query
          { _ep := ep, _option := .RS2_OPTION_PROJECTOR_TEMPERATURE }).value)) := by
  have hasic : ∀ (e : uvc_endpoint) (u : temperature), e.is_streaming = true →
      e.get_xu_temperatures = some u →
      (asic_and_projector_temperature_options.query
        { _ep := e, _option := .RS2_OPTION_ASIC_TEMPERATURE }).value
      = if u.is_asic_valid = 0 then .error .invalid_value_exception
        else .ok ((as_int8 u.asic_temperature : Int) : float) := by
    intro e u h1 h2
    rw [temperature_query_streaming e _ u h1 h2]
    simp only [asic_and_projector_temperature_options.select_fields]
    split <;> rfl
  have hproj : ∀ (e : uvc_endpoint) (u : temperature), e.is_streaming = true →
      e.get_xu_temperatures = some u →
      (asic_and_projector_temperature_options.query
        { _ep := e, _option := .RS2_OPTION_PROJECTOR_TEMPERATURE }).value
      = if u.is_projector_valid = 0 then .error .invalid_value_exception
        else .ok ((as_int8 u.projector_temperature : Int) : float) := by
    intro e u h1 h2
    rw [temperature_query_streaming e _ u h1 h2]
    simp only [asic_and_projector_temperature_options.select_fields]
    split <;> rfl
  have hrange : ∀ b : byte, -(2 ^ 7) ≤ as_int8 b ∧ as_int8 b < 2 ^ 7 := by
    intro b
    have := b.isLt
    unfold as_int8
    split <;> constructor <;> omega
  refine ⟨?_, ?_, ?_, ?_, ?_, ⟨(hrange _).1, (hrange _).2, (hrange _).1, (hrange _).2⟩, ?_⟩
  · intro h
    rw [hasic ep t hstreaming hreply, if_neg h]
  · intro h
    rw [hasic ep t hstreaming hreply, if_pos h]
  · intro h
    rw [hproj ep t hstreaming hreply, if_neg h]
  · intro h
    rw [hproj ep t hstreaming hreply, if_pos h]
  · intro id
    rw [temperature_query_streaming ep _ t hstreaming hreply]
    rfl
  · intro ep' t' h1 h2
    constructor
    · intro hv ht
      rw [hasic ep t hstreaming hreply, hasic ep' t' h1 h2, hv, ht]
    · intro hv ht
      rw [hproj ep t hstreaming hreply, hproj ep' t' h1 h2, hv, ht]

/-- C20, an instance: the hardware reports a valid ASIC temperature of -3 (octet 253)
and an invalid projector temperature. -/
theorem temperature_query_while_streaming_witness :
    (asic_and_projector_temperature_options.query
      { _ep := { is_streaming := true,
                 get_xu_temperatures := some
                   { is_projector_valid := 0, is_asic_valid := 1,
                     projector_temperature := 35, asic_temperature := 253 } },
        _option := .RS2_OPTION_ASIC_TEMPERATURE }).value
      = .ok ((as_int8 253 : Int) : float) ∧
    (asic_and_projector_temperature_options.query
      { _ep := { is_streaming := true,
                 get_xu_temperatures := some
                   { is_projector_valid := 0, is_asic_valid := 1,
                     projector_temperature := 35, asic_temperature := 253 } },
        _option := .RS2_OPTION_PROJECTOR_TEMPERATURE }).value
      = .error .invalid_value_exception ∧
    as_int8 253 = -3 :=
  ⟨(temperature_query_while_streaming _ _ rfl rfl).1 (by decide),
   (temperature_query_while_streaming
      { is_streaming := true,
        get_xu_temperatures := some
          { is_projector_valid := 0, is_asic_valid := 1,
            projector_temperature := 35, asic_temperature := 253 } } _ rfl rfl).2.2.2.1 rfl,
   by decide⟩

/-! ## The emitter option -/

/-- The truncation toward zero of `val` is the integer `n ≥ 0` exactly when `val`
lies in `[n, n + 1)`, for `n ≥ 1`. -/
theorem static_cast_int_eq_pos (val : float) (n : Int) (hn : 1 ≤ n) :
    static_cast_int val = n ↔ (n : float) ≤ val ∧ val < (n : float) + 1 := by
  unfold static_cast_int
  have hn' : (1 : float) ≤ (n : float) := by exact_mod_cast hn
  by_cases h : 0 ≤ val
  · rw [if_pos h, Int.floor_eq_iff]
  · rw [if_neg h]
    have hneg : val < 0 := lt_of_not_le h
    constructor
    · intro hc
      have := (Int.ceil_eq_iff.mp hc).1
      linarith
    · rintro ⟨h1, _⟩
      linarith

/-- The truncation toward zero of `val` is 0 exactly when `val` lies strictly
between -1 and 1. -/
theorem static_cast_int_eq_zero (val : float) :
    static_cast_int val = 0 ↔ -1 < val ∧ val < 1 := by
  unfold static_cast_int
  by_cases h : 0 ≤ val
  · rw [if_pos h, Int.floor_eq_iff]
    constructor
    · rintro ⟨_, h2⟩
      exact ⟨by linarith, by simpa using h2⟩
    · rintro ⟨_, h2⟩
      exact ⟨by simpa using h, by simpa using h2⟩
  · rw [if_neg h, Int.ceil_eq_iff]
    have hneg : val < 0 := lt_of_not_le h
    constructor
    · rintro ⟨h1, _⟩
      exact ⟨by simpa using h1, by linarith⟩
    · rintro ⟨h1, _⟩
      exact ⟨by simpa using h1, by simpa using hneg.le⟩

/-- C21 (as amended): the value description of the emitter option.  The value is
truncated toward zero: `get_value_description` returns "Off" for every value
strictly between -1 and 1, "On" for every value in `[1, 2)` and "Auto" for every
value in `[2, 3)`, and throws `invalid_value_exception` for every value at most -1
or at least 3 (within the range in which the conversion to `int` is defined).  In
particular it returns "Off", "On" and "Auto" for 0, 1 and 2 and throws for 3. -/
theorem emitter_value_description (val : float) :
    (-1 < val ∧ val < 1 → emitter_option.get_value_description val = .ok "Off") ∧
    (1 ≤ val ∧ val < 2 → emitter_option.get_value_description val = .ok "On") ∧
    (2 ≤ val ∧ val < 3 → emitter_option.get_value_description val = .ok "Auto") ∧
    ((-2 ^ 31 - 1 < val ∧ val ≤ -1) ∨ (3 ≤ val ∧ val < 2 ^ 31) →
      emitter_option.get_value_description val = .error .invalid_value_exception) ∧
    emitter_option.get_value_description 0 = .ok "Off" ∧
    emitter_option.get_value_description 1 = .ok "On" ∧
    emitter_option.get_value_description 2 = .ok "Auto" ∧
    emitter_option.get_value_description 3 = .error .invalid_value_exception := by
  have h0 := static_cast_int_eq_zero
  have h1 := fun v => static_cast_int_eq_pos v 1 (le_refl 1)
  have h2 := fun v => static_cast_int_eq_pos v 2 (by norm_num)
  have hoff : ∀ v : float, -1 < v ∧ v < 1 →
      emitter_option.get_value_description v = .ok "Off" := by
    intro v hv
    unfold emitter_option.get_value_description
    rw [if_pos ((h0 v).mpr hv)]
  have hon : ∀ v : float, 1 ≤ v ∧ v < 2 →
      emitter_option.get_value_description v = .ok "On" := by
    intro v hv
    have hc : static_cast_int v = 1 := (h1 v).mpr ⟨by simpa using hv.1, by norm_num; exact hv.2⟩
    unfold emitter_option.get_value_description
    rw [hc]
    rfl
  have hauto : ∀ v : float, 2 ≤ v ∧ v < 3 →
      emitter_option.get_value_description v = .ok "Auto" := by
    intro v hv
    have hc : static_cast_int v = 2 := (h2 v).mpr ⟨by simpa using hv.1, by norm_num; exact hv.2⟩
    unfold emitter_option.get_value_description
    rw [hc]
    rfl
  have hbad : ∀ v : float, v ≤ -1 ∨ 3 ≤ v →
      emitter_option.get_value_description v = .error .invalid_value_exception := by
    intro v hv
    have n0 : static_cast_int v ≠ 0 := by
      intro hc
      have := (h0 v).mp hc
      rcases hv with h | h <;> linarith [this.1, this.2]
    have n1 : static_cast_int v ≠ 1 := by
      intro hc
      have := (h1 v).mp hc
      norm_num at this
      rcases hv with h | h <;> linarith [this.1, this.2]
    have n2 : static_cast_int v ≠ 2 := by
      intro hc
      have := (h2 v).mp hc
      norm_num at this
      rcases hv with h | h <;> linarith [this.1, this.2]
    unfold emitter_option.get_value_description
    rw [if_neg n0, if_neg n1, if_neg n2]
  refine ⟨hoff val, hon val, hauto val, ?_, hoff 0 (by norm_num), hon 1 (by norm_num),
    hauto 2 (by norm_num), hbad 3 (by norm_num)⟩
  rintro (⟨_, h⟩ | ⟨h, _⟩)
  · exact hbad val (Or.inl h)
  · exact hbad val (Or.inr h)

/-- C21, an instance: 2.5 is described as "Auto", -4 and 7 are rejected. -/
theorem emitter_value_description_witness :
    emitter_option.get_value_description (5 / 2) = .ok "Auto" ∧
    emitter_option.get_value_description (-4) = .error .invalid_value_exception ∧
    emitter_option.get_value_description 7 = .error .invalid_value_exception :=
  ⟨(emitter_value_description (5 / 2)).2.2.1 (by norm_num),
   (emitter_value_description (-4)).2.2.2.1 (Or.inl (by norm_num)),
   (emitter_value_description 7).2.2.2.1 (Or.inr (by norm_num))⟩

/-- C21 refuted as stated: 2.5 and -0.5 lie outside the range `[0, 2]`, and
`get_value_description` does not throw for them: 2.5 is truncated to 2 and
described as "Auto", -0.5 is truncated to 0 and described as "Off". -/
theorem emitter_value_description_counterexample :
    ¬ ((0 : float) ≤ 5 / 2 ∧ (5 / 2 : float) ≤ 2) ∧
    emitter_option.get_value_description (5 / 2) = .ok "Auto" ∧
    ¬ ((0 : float) ≤ -1 / 2 ∧ (-1 / 2 : float) ≤ 2) ∧
    emitter_option.get_value_description (-1 / 2) = .ok "Off" := by
  have ha : static_cast_int (5 / 2) = 2 :=
    (static_cast_int_eq_pos (5 / 2) 2 (by norm_num)).mpr (by norm_num)
  have hb : static_cast_int (-1 / 2) = 0 :=
    (static_cast_int_eq_zero (-1 / 2)).mpr (by norm_num)
  refine ⟨by norm_num, ?_, by norm_num, ?_⟩
  · unfold emitter_option.get_value_description
    rw [ha]
    rfl
  · unfold emitter_option.get_value_description
    rw [hb]
    rfl

/-! ## Read-only options -/

/-- C22: the temperature options are read-only.  For the ASIC/projector temperature
option and for the motion-module temperature option, whatever the option id, the
state of the endpoint (streaming or not) and the value, `set` throws
`not_implemented_exception`, sends no request to the hardware and leaves the
option and its endpoint as they are; and `is_read_only` is true. -/
theorem temperature_options_read_only (value : float) :
    (∀ self : asic_and_projector_temperature_options,
      (self.set value).1.value = .error .not_implemented_exception ∧
      (self.set value).1.requests = [] ∧
      (self.set value).2 = self ∧
      self.is_read_only = true) ∧
    (∀ self : motion_module_temperature_option,
      (self.set value).1.value = .error .not_implemented_exception ∧
      (self.set value).1.requests = [] ∧
      (self.set value).2 = self ∧
      self.is_read_only = true) :=
  ⟨fun _ => ⟨rfl, rfl, rfl, rfl⟩, fun _ => ⟨rfl, rfl, rfl, rfl⟩⟩

/-! ## The auto-exposure option -/

/-- A negative value is rejected by `set` and changes nothing. -/
theorem enable_auto_exposure_set_negative (s : enable_auto_exposure_option) (value : float)
    (h : value < 0) :
    s.set value = ({ value := .error .invalid_value_exception, requests := [] }, s) := by
  unfold enable_auto_exposure_option.set
  rw [if_pos h]

/-- A value that is not negative is accepted by `set`: the enabled state becomes
whether the value is not 0, and the forwarding flag is set on a change from
disabled to enabled, cleared on a change from enabled to disabled, and kept
otherwise. -/
theorem enable_auto_exposure_set_accepted (s : enable_auto_exposure_option) (value : float)
    (h : 0 ≤ value) :
    (s.set value).1.value = .ok () ∧
    (s.set value).2._auto_exposure_state.get_enable_auto_exposure = decide (value ≠ 0) ∧
    (s.set value).2._to_add_frames =
      (if decide (value ≠ 0) = s._auto_exposure_state.get_enable_auto_exposure
        then s._to_add_frames else decide (value ≠ 0)) := by
  have hdec : decide (0 < |value|) = decide (value ≠ 0) := by
    by_cases hv : value = 0
    · subst hv; simp
    · simp [hv]
  unfold enable_auto_exposure_option.set
  rw [if_neg (not_lt.mpr h), hdec]
  cases hnew : decide (value ≠ 0) <;>
    cases hprev : s._auto_exposure_state.get_enable_auto_exposure <;>
    simp [auto_exposure_state.get_enable_auto_exposure,
      auto_exposure_state.set_enable_auto_exposure] at hprev ⊢

/-- One `set` call keeps the forwarding flag equal to the enabled state. -/
theorem enable_auto_exposure_set_keeps_gate (s : enable_auto_exposure_option) (value : float)
    (h : s._to_add_frames = s._auto_exposure_state.get_enable_auto_exposure) :
    (s.set value).2._to_add_frames
      = (s.set value).2._auto_exposure_state.get_enable_auto_exposure := by
  by_cases hv : value < 0
  · rw [enable_auto_exposure_set_negative s value hv]
    exact h
  · obtain ⟨_, h2, h3⟩ := enable_auto_exposure_set_accepted s value (not_lt.mp hv)
    rw [h2, h3]
    split
    · next heq => rw [h, heq]
    · rfl

/-- Every sequence of `set` calls keeps the forwarding flag equal to the enabled
state. -/
theorem enable_auto_exposure_run_keeps_gate (values : List float) :
    ∀ s : enable_auto_exposure_option,
      s._to_add_frames = s._auto_exposure_state.get_enable_auto_exposure →
      (s.run_set values)._to_add_frames
        = (s.run_set values)._auto_exposure_state.get_enable_auto_exposure := by
  induction values with
  | nil => intro s h; exact h
  | cons value values ih =>
    intro s h
    exact ih _ (enable_auto_exposure_set_keeps_gate s value h)

/-- C23: auto-exposure frame forwarding is gated by the enabled state.  Let the
option be constructed on any auto-exposure state and let any sequence of `set`
calls follow.  Then the forwarding flag equals the enabled state.  One more `set`
with a negative value throws `invalid_value_exception` and changes neither; with a
value that is not negative it is accepted, and the enabled state and the
forwarding flag both become whether the value is not 0.  The callback hands a
clone of the frame to the auto-exposure mechanism if and only if the forwarding
flag is set and the stream is `RS2_STREAM_FISHEYE`. -/
theorem auto_exposure_forwarding_gate (state : auto_exposure_state) (values : List float)
    (value : float) :
    ((enable_auto_exposure_option.construct state).run_set values)._to_add_frames
      = ((enable_auto_exposure_option.construct state).run_set
          values)._auto_exposure_state.get_enable_auto_exposure ∧
    (enable_auto_exposure_option.construct state)._to_add_frames
      = state.get_enable_auto_exposure ∧
    (value < 0 →
      (((enable_auto_exposure_option.construct state).run_set values).set value).1.value
        = .error .invalid_value_exception ∧
      (((enable_auto_exposure_option.construct state).run_set values).set value).2
        = (enable_auto_exposure_option.construct state).run_set values) ∧
    (0 ≤ value →
      (((enable_auto_exposure_option.construct state).run_set values).set value).1.value
        = .ok () ∧
      (((enable_auto_exposure_option.construct state).run_set values).set
          value).2._auto_exposure_state.get_enable_auto_exposure = decide (value ≠ 0) ∧
      (((enable_auto_exposure_option.construct state).run_set values).set
          value).2._to_add_frames = decide (value ≠ 0)) ∧
    (∀ (F : Type) (clone_frame : F → F) (stream : rs2_stream) (f : F),
      (enable_auto_exposure_option.on_before_frame clone_frame
          ((enable_auto_exposure_option.construct state).run_set values) stream f
        = some (clone_frame f)
        ↔ ((enable_auto_exposure_option.construct state).run_set values)._to_add_frames = true
          ∧ stream = .RS2_STREAM_FISHEYE) ∧
      (enable_auto_exposure_option.on_before_frame clone_frame
          ((enable_auto_exposure_option.construct state).run_set values) stream f = none
        ↔ ¬ (((enable_auto_exposure_option.construct state).run_set values)._to_add_frames
            = true ∧ stream = .RS2_STREAM_FISHEYE))) := by
  have hgate := enable_auto_exposure_run_keeps_gate values
    (enable_auto_exposure_option.construct state) rfl
  refine ⟨hgate, rfl, ?_, ?_, ?_⟩
  · intro h
    rw [enable_auto_exposure_set_negative _ value h]
    exact ⟨rfl, rfl⟩
  · intro h
    have hnext := enable_auto_exposure_set_keeps_gate _ value hgate
    obtain ⟨h1, h2, _⟩ := enable_auto_exposure_set_accepted
      ((enable_auto_exposure_option.construct state).run_set values) value h
    exact ⟨h1, h2, by rw [hnext, h2]⟩
  · intro F clone_frame stream f
    unfold enable_auto_exposure_option.on_before_frame
    by_cases hflag : ((enable_auto_exposure_option.construct state).run_set
        values)._to_add_frames = true
    · by_cases hstream : stream = .RS2_STREAM_FISHEYE
      · simp [hflag, hstream]
      · simp [hflag, hstream]
    · have hflag' : ((enable_auto_exposure_option.construct state).run_set
          values)._to_add_frames = false := by simpa using hflag
      simp [hflag']

/-- C23, an instance: on an option constructed on a disabled state, after the values
1, -3, 0 and 2, the value 5 is accepted and enables forwarding, and the value -1 is
rejected. -/
theorem auto_exposure_forwarding_gate_witness :
    (((enable_auto_exposure_option.construct { is_auto_exposure := false }).run_set
        [1, -3, 0, 2]).set 5).2._to_add_frames = decide ((5 : float) ≠ 0) ∧
    (((enable_auto_exposure_option.construct { is_auto_exposure := false }).run_set
        [1, -3, 0, 2]).set (-1)).1.value = .error .invalid_value_exception :=
  ⟨((auto_exposure_forwarding_gate { is_auto_exposure := false } [1, -3, 0, 2] 5).2.2.2.1
      (by norm_num)).2.2,
   ((auto_exposure_forwarding_gate { is_auto_exposure := false } [1, -3, 0, 2] (-1)).2.2.1
      (by norm_num)).1⟩

/-! ## Decoding without validation -/

/-- The header timestamp read from a buffer of at least 6 octets. -/
theorem metadata_header_timestamp_of_length (buf : List byte) (h : 6 ≤ buf.length) :
    metadata.header_timestamp (some buf)
      = .ok ((buf.getD 2 0).val + 2 ^ 8 * (buf.getD 3 0).val + 2 ^ 16 * (buf.getD 4 0).val
          + 2 ^ 24 * (buf.getD 5 0).val) :=
  read_le_four buf 2 (by omega)

/-- The frame counter read from a buffer of at least 32 octets. -/
theorem metadata_frameCounter_of_length (buf : List byte) (h : 32 ≤ buf.length) :
    metadata.frameCounter (some buf)
      = .ok (as_int32 ((buf.getD 28 0).val + 2 ^ 8 * (buf.getD 29 0).val
          + 2 ^ 16 * (buf.getD 30 0).val + 2 ^ 24 * (buf.getD 31 0).val)) := by
  unfold metadata.frameCounter
  have := read_le_four buf 28 (by omega)
  simp only [uvc_header.sizeof, metadata_capture_timing.frameCounter_offset,
    metadata_header.sizeof]
  rw [this]

/-- The header timestamp cannot be read from a buffer of less than 6 octets. -/
theorem metadata_header_timestamp_short (buf : List byte) (h : buf.length < 6) :
    metadata.header_timestamp (some buf) = .error .bad_read := by
  unfold metadata.header_timestamp uvc_header.timestamp_offset
  simp only [read_le]
  by_cases h2 : 2 < buf.length
  · rw [List.getElem?_eq_getElem h2]
    by_cases h3 : 3 < buf.length
    · rw [List.getElem?_eq_getElem h3]
      by_cases h4 : 4 < buf.length
      · rw [List.getElem?_eq_getElem h4]
        have h5 : buf[1 + 1 + 1 + 1 + 1]? = none := List.getElem?_eq_none (by omega)
        simp only [h5]
      · have h4' : buf[1 + 1 + 1 + 1]? = none := List.getElem?_eq_none (by omega)
        simp only [h4']
    · have h3' : buf[1 + 1 + 1]? = none := List.getElem?_eq_none (by omega)
      simp only [h3']
  · have h2' : buf[1 + 1]? = none := List.getElem?_eq_none (by omega)
    simp only [h2']

/-- C25: the probe is the only validation before decoding in the metadata-backed
reader.  On a latched pin the values of `get_frame_timestamp` and
`get_frame_counter` depend on the metadata buffer only, not on `metadata_size`;
with a buffer of at least 32 octets both reads stay inside the buffer and both
calls return a value.  A frame whose metadata is the single octet 1 passes the
probe, and `get_frame_timestamp` then reads past the end of the buffer: it ends in
`fault.bad_read` and the fallback reader is not called.  The same holds for every
buffer of less than 6 octets on a pin that is latched or that the frame latches,
and for every frame with a null metadata pointer on a latched pin. -/
theorem probe_is_the_only_validation :
    (∀ (σ : Type) (B : frame_timestamp_reader σ) (s : ds5_timestamp_reader_from_metadata σ)
      (now : rs2_time_t) (mode : request_mapping) (fo fo' : frame_object),
      s._has_metadata.getD (ds5_timestamp_reader_from_metadata.pin_index mode) false = true →
      fo'.metadata = fo.metadata →
      (ds5_timestamp_reader_from_metadata.get_frame_timestamp B s now mode fo').value
        = (ds5_timestamp_reader_from_metadata.get_frame_timestamp B s now mode fo).value ∧
      (ds5_timestamp_reader_from_metadata.get_frame_counter B s mode fo').value
        = (ds5_timestamp_reader_from_metadata.get_frame_counter B s mode fo).value) ∧
    (∀ (σ : Type) (B : frame_timestamp_reader σ) (s : ds5_timestamp_reader_from_metadata σ)
      (now : rs2_time_t) (mode : request_mapping) (fo : frame_object) (buf : List byte),
      s._has_metadata.getD (ds5_timestamp_reader_from_metadata.pin_index mode) false = true →
      fo.metadata = some buf → 32 ≤ buf.length →
      (∃ t, (ds5_timestamp_reader_from_metadata.get_frame_timestamp B s now mode fo).value
        = .ok t) ∧
      (∃ c, (ds5_timestamp_reader_from_metadata.get_frame_counter B s mode fo).value
        = .ok c)) ∧
    (∀ (σ : Type) (B : frame_timestamp_reader σ) (s : ds5_timestamp_reader_from_metadata σ)
      (now : rs2_time_t) (mode : request_mapping) (fo : frame_object) (buf : List byte),
      s._has_metadata.length = ds5_timestamp_reader_from_metadata.pins →
      fo.metadata = some buf → buf.length < 6 →
      (s._has_metadata.getD (ds5_timestamp_reader_from_metadata.pin_index mode) false = true ∨
        ds5_timestamp_reader_from_metadata.has_metadata mode fo.metadata fo.metadata_size
          = .ok true) →
      (ds5_timestamp_reader_from_metadata.get_frame_timestamp B s now mode fo).value
        = .error .bad_read ∧
      (ds5_timestamp_reader_from_metadata.get_frame_timestamp B s now mode
        fo).self._backup_timestamp_reader = s._backup_timestamp_reader) ∧
    (∀ mode, ds5_timestamp_reader_from_metadata.has_metadata mode frame_one_octet.metadata
        frame_one_octet.metadata_size = .ok true) ∧
    (ds5_timestamp_reader_from_metadata.get_frame_timestamp ds5_timestamp_reader.interface
        (ds5_timestamp_reader_from_metadata.construct ds5_timestamp_reader.construct)
        9 ⟨0⟩ frame_one_octet).value = .error .bad_read ∧
    (∀ (σ : Type) (B : frame_timestamp_reader σ) (s : ds5_timestamp_reader_from_metadata σ)
      (now : rs2_time_t) (mode : request_mapping) (fo : frame_object),
      s._has_metadata.getD (ds5_timestamp_reader_from_metadata.pin_index mode) false = true →
      fo.metadata = none →
      (ds5_timestamp_reader_from_metadata.get_frame_timestamp B s now mode fo).value
        = .error .bad_read ∧
      (ds5_timestamp_reader_from_metadata.get_frame_timestamp B s now mode
        fo).self._backup_timestamp_reader = s._backup_timestamp_reader) := by
  refine ⟨?_, ?_, ?_, fun _ => rfl, rfl, ?_⟩
  · intro σ B s now mode fo fo' hflag hsame
    rw [from_metadata_get_frame_timestamp_latched B s now mode fo hflag,
      from_metadata_get_frame_timestamp_latched B s now mode fo' hflag, hsame]
    unfold ds5_timestamp_reader_from_metadata.get_frame_counter
    rw [if_pos hflag, if_pos hflag, hsame]
    exact ⟨rfl, rfl⟩
  · intro σ B s now mode fo buf hflag hbuf h32
    rw [from_metadata_get_frame_timestamp_latched B s now mode fo hflag, hbuf,
      metadata_header_timestamp_of_length buf (by omega)]
    unfold ds5_timestamp_reader_from_metadata.get_frame_counter
    rw [if_pos hflag, hbuf, metadata_frameCounter_of_length buf h32]
    exact ⟨⟨_, rfl⟩, ⟨_, rfl⟩⟩
  · intro σ B s now mode fo buf hlen hbuf hshort hgate
    have hprobe : s._has_metadata.getD (ds5_timestamp_reader_from_metadata.pin_index mode) false
        = true ∨ ∃ b, ds5_timestamp_reader_from_metadata.has_metadata mode fo.metadata
          fo.metadata_size = .ok b := by
      rcases hgate with h | h
      · exact Or.inl h
      · exact Or.inr ⟨true, h⟩
    rcases from_metadata_get_frame_timestamp_cases B s now mode fo hlen hprobe with
      ⟨_, hvalue, _, hbackup⟩ | ⟨_, hunset, hfalse, _, _⟩
    · rw [hvalue, hbuf, metadata_header_timestamp_short buf hshort]
      exact ⟨rfl, hbackup⟩
    · rcases hgate with h | h
      · rw [h] at hunset; cases hunset
      · rw [h] at hfalse; cases hfalse
  · intro σ B s now mode fo hflag hnull
    rw [from_metadata_get_frame_timestamp_latched B s now mode fo hflag, hnull]
    exact ⟨rfl, rfl⟩

/-- C25, an instance: on the Z16 pin latched by the sample frame, the sample frame
is decoded whatever length it declares, and a frame with a null metadata pointer
ends in a fault. -/
theorem probe_is_the_only_validation_witness :
    (∃ t, (ds5_timestamp_reader_from_metadata.get_frame_timestamp ds5_timestamp_reader.interface
        (ds5_timestamp_reader_from_metadata.get_frame_timestamp ds5_timestamp_reader.interface
          (ds5_timestamp_reader_from_metadata.construct ds5_timestamp_reader.construct)
          0 ⟨Z16⟩ frame_with_metadata).self
        9 ⟨Z16⟩ { frame_with_metadata with metadata_size := 3 }).value = .ok t) ∧
    (ds5_timestamp_reader_from_metadata.get_frame_timestamp ds5_timestamp_reader.interface
        (ds5_timestamp_reader_from_metadata.get_frame_timestamp ds5_timestamp_reader.interface
          (ds5_timestamp_reader_from_metadata.construct ds5_timestamp_reader.construct)
          0 ⟨Z16⟩ frame_with_metadata).self
        9 ⟨Z16⟩ frame_without_metadata).value = .error .bad_read :=
  ⟨(probe_is_the_only_validation.2.1 ds5_timestamp_reader ds5_timestamp_reader.interface
      (ds5_timestamp_reader_from_metadata.get_frame_timestamp ds5_timestamp_reader.interface
        (ds5_timestamp_reader_from_metadata.construct ds5_timestamp_reader.construct)
        0 ⟨Z16⟩ frame_with_metadata).self
      9 ⟨Z16⟩ { frame_with_metadata with metadata_size := 3 } _ rfl rfl (by decide)).1,
   (probe_is_the_only_validation.2.2.2.2.2 ds5_timestamp_reader ds5_timestamp_reader.interface
      (ds5_timestamp_reader_from_metadata.get_frame_timestamp ds5_timestamp_reader.interface
        (ds5_timestamp_reader_from_metadata.construct ds5_timestamp_reader.construct)
        0 ⟨Z16⟩ frame_with_metadata).self
      9 ⟨Z16⟩ frame_without_metadata rfl rfl).1⟩

/-! ## Who latches -/

/-- The member `get_frame_counter` of the metadata-backed reader leaves the
warn-once flag as it is. -/
theorem from_metadata_get_frame_counter_started {σ : Type} (B : frame_timestamp_reader σ)
    (s : ds5_timestamp_reader_from_metadata σ) (mode : request_mapping) (fo : frame_object) :
    (ds5_timestamp_reader_from_metadata.get_frame_counter B s mode fo).self.started
      = s.started := by
  unfold ds5_timestamp_reader_from_metadata.get_frame_counter
  split
  · split <;> rfl
  · rfl

/-- The member `get_frame_timestamp_domain` of the metadata-backed reader leaves the
warn-once flag as it is. -/
theorem from_metadata_get_frame_timestamp_domain_started {σ : Type}
    (B : frame_timestamp_reader σ) (s : ds5_timestamp_reader_from_metadata σ)
    (mode : request_mapping) (fo : frame_object) :
    (ds5_timestamp_reader_from_metadata.get_frame_timestamp_domain B s mode fo).self.started
      = s.started := by
  unfold ds5_timestamp_reader_from_metadata.get_frame_timestamp_domain
  split <;> rfl

/-- The flag of pin `p` is the same after a call that is neither `reset` nor a
`get_frame_timestamp` for pin `p`. -/
theorem from_metadata_flag_kept {σ : Type} (B : frame_timestamp_reader σ)
    (s : ds5_timestamp_reader_from_metadata σ) (c : reader_call) (p : Nat)
    (hc : c.is_reset = false)
    (hp : c.is_timestamp_on ds5_timestamp_reader_from_metadata.pin_index p = false) :
    (((ds5_timestamp_reader_from_metadata.interface B).after s c)._has_metadata).getD p false
      = s._has_metadata.getD p false := by
  cases c with
  | reset => simp [reader_call.is_reset] at hc
  | get_frame_counter mode fo =>
    show ((ds5_timestamp_reader_from_metadata.get_frame_counter B s mode fo).self._has_metadata).getD
      p false = _
    rw [from_metadata_get_frame_counter_flags]
  | get_frame_timestamp_domain mode fo =>
    show ((ds5_timestamp_reader_from_metadata.get_frame_timestamp_domain B s mode
      fo).self._has_metadata).getD p false = _
    rw [from_metadata_get_frame_timestamp_domain_flags]
  | get_frame_timestamp now mode fo =>
    have hne : ds5_timestamp_reader_from_metadata.pin_index mode ≠ p := by
      simpa [reader_call.is_timestamp_on] using hp
    show ((ds5_timestamp_reader_from_metadata.get_frame_timestamp B s now mode
      fo).self._has_metadata).getD p false = _
    rw [from_metadata_get_frame_timestamp_flags]
    split
    · rfl
    · split
      · rfl
      · rw [List.getD_eq_getElem?_getD, List.getElem?_set_ne hne, ← List.getD_eq_getElem?_getD]

/-- The flag of pin `p` is the same after a sequence of calls that holds neither
`reset` nor a `get_frame_timestamp` for pin `p`. -/
theorem from_metadata_flag_kept_run {σ : Type} (B : frame_timestamp_reader σ) (p : Nat)
    (calls : List reader_call)
    (hcalls : ∀ c ∈ calls, c.is_reset = false ∧
      c.is_timestamp_on ds5_timestamp_reader_from_metadata.pin_index p = false) :
    ∀ s : ds5_timestamp_reader_from_metadata σ,
      (((ds5_timestamp_reader_from_metadata.interface B).run s calls)._has_metadata).getD p false
        = s._has_metadata.getD p false := by
  induction calls with
  | nil => intro s; rfl
  | cons c calls ih =>
    intro s
    have hc := hcalls c (List.mem_cons_self _ _)
    have hrun : (ds5_timestamp_reader_from_metadata.interface B).run s (c :: calls)
        = (ds5_timestamp_reader_from_metadata.interface B).run
            ((ds5_timestamp_reader_from_metadata.interface B).after s c) calls := rfl
    rw [hrun, ih (fun d hd => hcalls d (List.mem_cons_of_mem _ hd)),
      from_metadata_flag_kept B s c p hc.1 hc.2]

/-- C26: only `get_frame_timestamp` probes and latches.  For every reader, routing
descriptor and frame, `get_frame_counter` and `get_frame_timestamp_domain` of the
metadata-backed reader leave both flags and the warn-once flag as they are.  So
after `reset` and any calls that hold no `reset` and no `get_frame_timestamp` for
the pin of `mode`, `get_frame_counter` and `get_frame_timestamp_domain` for `mode`
return what the fallback reader returns, whatever metadata the frame carries. -/
theorem only_get_frame_timestamp_latches {σ : Type} (B : frame_timestamp_reader σ)
    (s : ds5_timestamp_reader_from_metadata σ) (mode : request_mapping) (fo : frame_object) :
    ((ds5_timestamp_reader_from_metadata.get_frame_counter B s mode fo).self._has_metadata
        = s._has_metadata ∧
      (ds5_timestamp_reader_from_metadata.get_frame_counter B s mode fo).self.started
        = s.started ∧
      (ds5_timestamp_reader_from_metadata.get_frame_timestamp_domain B s mode
        fo).self._has_metadata = s._has_metadata ∧
      (ds5_timestamp_reader_from_metadata.get_frame_timestamp_domain B s mode fo).self.started
        = s.started) ∧
    (∀ calls : List reader_call,
      s._has_metadata.length = ds5_timestamp_reader_from_metadata.pins →
      (∀ c ∈ calls, c.is_reset = false ∧
        c.is_timestamp_on ds5_timestamp_reader_from_metadata.pin_index
          (ds5_timestamp_reader_from_metadata.pin_index mode) = false) →
      (ds5_timestamp_reader_from_metadata.get_frame_counter B
          ((ds5_timestamp_reader_from_metadata.interface B).run
            (ds5_timestamp_reader_from_metadata.reset s) calls) mode fo).value
        = (B.get_frame_counter
            ((ds5_timestamp_reader_from_metadata.interface B).run
              (ds5_timestamp_reader_from_metadata.reset s) calls)._backup_timestamp_reader
            mode fo).value ∧
      (ds5_timestamp_reader_from_metadata.get_frame_timestamp_domain B
          ((ds5_timestamp_reader_from_metadata.interface B).run
            (ds5_timestamp_reader_from_metadata.reset s) calls) mode fo).value
        = (B.get_frame_timestamp_domain
            ((ds5_timestamp_reader_from_metadata.interface B).run
              (ds5_timestamp_reader_from_metadata.reset s) calls)._backup_timestamp_reader
            mode fo).value) := by
  refine ⟨⟨from_metadata_get_frame_counter_flags B s mode fo,
    from_metadata_get_frame_counter_started B s mode fo,
    from_metadata_get_frame_timestamp_domain_flags B s mode fo,
    from_metadata_get_frame_timestamp_domain_started B s mode fo⟩, ?_⟩
  intro calls hlen hcalls
  have hreset : (ds5_timestamp_reader_from_metadata.reset s)._has_metadata = [false, false] :=
    fill_first_two false _ hlen
  have hflag : (((ds5_timestamp_reader_from_metadata.interface B).run
      (ds5_timestamp_reader_from_metadata.reset s) calls)._has_metadata).getD
      (ds5_timestamp_reader_from_metadata.pin_index mode) false = false := by
    rw [from_metadata_flag_kept_run B _ calls hcalls, hreset]
    have h := from_metadata_pin_index_lt mode
    have h01 : ds5_timestamp_reader_from_metadata.pin_index mode = 0
        ∨ ds5_timestamp_reader_from_metadata.pin_index mode = 1 := by omega
    rcases h01 with h0 | h1
    · rw [h0]; rfl
    · rw [h1]; rfl
  unfold ds5_timestamp_reader_from_metadata.get_frame_counter
    ds5_timestamp_reader_from_metadata.get_frame_timestamp_domain
  simp only [hflag, Bool.false_eq_true, if_false, and_self]

/-- C26, an instance: after `reset` of a reader whose Z16 pin was latched, and a
`get_frame_timestamp` on pin 0, the counter query for the Z16 pin is answered by the
fallback although the frame carries metadata. -/
theorem only_get_frame_timestamp_latches_witness :
    (ds5_timestamp_reader_from_metadata.get_frame_counter ds5_timestamp_reader.interface
        ((ds5_timestamp_reader_from_metadata.interface ds5_timestamp_reader.interface).run
          (ds5_timestamp_reader_from_metadata.reset
            { _backup_timestamp_reader := ds5_timestamp_reader.construct,
              _has_metadata := [false, true], started := true })
          [.get_frame_timestamp 1 ⟨0⟩ frame_with_metadata,
           .get_frame_timestamp_domain ⟨Z16⟩ frame_with_metadata])
        ⟨Z16⟩ frame_with_metadata).value
      = (ds5_timestamp_reader.interface.get_frame_counter
          ((ds5_timestamp_reader_from_metadata.interface ds5_timestamp_reader.interface).run
            (ds5_timestamp_reader_from_metadata.reset
              { _backup_timestamp_reader := ds5_timestamp_reader.construct,
                _has_metadata := [false, true], started := true })
            [.get_frame_timestamp 1 ⟨0⟩ frame_with_metadata,
             .get_frame_timestamp_domain ⟨Z16⟩ frame_with_metadata])._backup_timestamp_reader
          ⟨Z16⟩ frame_with_metadata).value :=
  ((only_get_frame_timestamp_latches ds5_timestamp_reader.interface
      { _backup_timestamp_reader := ds5_timestamp_reader.construct,
        _has_metadata := [false, true], started := true }
      ⟨Z16⟩ frame_with_metadata).2
    [.get_frame_timestamp 1 ⟨0⟩ frame_with_metadata,
     .get_frame_timestamp_domain ⟨Z16⟩ frame_with_metadata]
    rfl
    (by intro c hc; simp at hc; rcases hc with rfl | rfl <;> exact ⟨rfl, by decide⟩)).1

/-! ## The frame counter as `unsigned long long` -/

/-- C27: signed-to-unsigned conversion of the decoded frame counter.  On a pin whose
flag is set and for a metadata buffer of at least 32 octets, `get_frame_counter` of
the metadata-backed reader returns the `frameCounter` field `c`, a signed 32-bit
value, converted to `unsigned long long`: the value `c mod 2 ^ 64`, which is `c`
for `c ≥ 0` and `2 ^ 64 + c` for `c < 0`.  The field value -1 is returned as
18446744073709551615. -/
theorem frame_counter_conversion {σ : Type} (B : frame_timestamp_reader σ)
    (s : ds5_timestamp_reader_from_metadata σ) (mode : request_mapping) (fo : frame_object)
    (buf : List byte)
    (hflag : s._has_metadata.getD (ds5_timestamp_reader_from_metadata.pin_index mode) false
      = true)
    (hbuf : fo.metadata = some buf) (h32 : 32 ≤ buf.length) :
    ∃ (c : Int) (r : Nat),
      metadata.frameCounter fo.metadata = .ok c ∧
      -(2 ^ 31) ≤ c ∧ c < 2 ^ 31 ∧
      (ds5_timestamp_reader_from_metadata.get_frame_counter B s mode fo).value = .ok r ∧
      (r : Int) = c % 2 ^ 64 ∧ r < 2 ^ 64 ∧
      (0 ≤ c → (r : Int) = c) ∧
      (c < 0 → (r : Int) = 2 ^ 64 + c) ∧
      (c = -1 → r = 18446744073709551615) := by
  obtain ⟨c, hdec, hlo, hhi⟩ : ∃ c : Int, metadata.frameCounter (some buf) = .ok c ∧
      -(2 ^ 31) ≤ c ∧ c < 2 ^ 31 := by
    have h28 := (buf.getD 28 0).isLt
    have h29 := (buf.getD 29 0).isLt
    have h30 := (buf.getD 30 0).isLt
    have h31 := (buf.getD 31 0).isLt
    refine ⟨_, metadata_frameCounter_of_length buf h32, ?_, ?_⟩
    · unfold as_int32; split <;> omega
    · unfold as_int32; split <;> omega
  refine ⟨c, to_unsigned_long_long c, by rw [hbuf]; exact hdec, hlo, hhi, ?_, ?_, ?_, ?_, ?_, ?_⟩
  · unfold ds5_timestamp_reader_from_metadata.get_frame_counter
    rw [if_pos hflag, hbuf, hdec]
  · unfold to_unsigned_long_long
    exact Int.toNat_of_nonneg (Int.emod_nonneg _ (by norm_num))
  · unfold to_unsigned_long_long
    omega
  · intro hc
    unfold to_unsigned_long_long
    omega
  · intro hc
    unfold to_unsigned_long_long
    omega
  · intro hc
    rw [hc]
    rfl

/-- C27, an instance: on the Z16 pin latched by the sample frame, the frame whose
`frameCounter` octets are all 255 holds the field value -1, and `get_frame_counter`
returns 18446744073709551615. -/
theorem frame_counter_conversion_witness :
    metadata.frameCounter frame_counter_minus_one.metadata = .ok (-1) ∧
    (ds5_timestamp_reader_from_metadata.get_frame_counter ds5_timestamp_reader.interface
        (ds5_timestamp_reader_from_metadata.get_frame_timestamp ds5_timestamp_reader.interface
          (ds5_timestamp_reader_from_metadata.construct ds5_timestamp_reader.construct)
          0 ⟨Z16⟩ frame_with_metadata).self ⟨Z16⟩ frame_counter_minus_one).value
      = .ok 18446744073709551615 :=
  match frame_counter_conversion ds5_timestamp_reader.interface
      (ds5_timestamp_reader_from_metadata.get_frame_timestamp ds5_timestamp_reader.interface
        (ds5_timestamp_reader_from_metadata.construct ds5_timestamp_reader.construct)
        0 ⟨Z16⟩ frame_with_metadata).self ⟨Z16⟩ frame_counter_minus_one _ rfl rfl
      (by decide) with
  | ⟨c, r, hc, _, _, hv, _, _, _, _, h1⟩ =>
    have hc1 : c = -1 := by
      have h : metadata.frameCounter frame_counter_minus_one.metadata = .ok (-1) := by decide
      rw [h] at hc
      injection hc with hc
      exact hc.symm
    ⟨by decide, by rw [hv, h1 hc1]⟩
